import Mathlib

/-!
# Deferred drawing pipeline (SkLightDeferredCanvas)

A shallow embedding of `src/utils/SkLightDeferredCanvas.cpp`: the deferred
device (`SkLightDeferredDevice`), the drawing facade (`SkLightDeferredCanvas`)
and the collaborators they call.  Member functions become functions on explicit
state records; calls that leave the component (client notifications, surface
notifications, operations sent to a canvas) are appended to a trace.

Two smaller parts follow the same pattern: the builder of
`src/effects/SkLayerRasterizer.cpp` (deques live in an explicit heap) and the
line breaker of `libs/graphics/views/SkTextBox.cpp` (pointers into the text are
byte offsets).
-/

namespace Skia

/-! ## Geometry and paint (collaborator types) -/

/-- Modelled from the spec: SkScalar is declared outside the sources at hand; it is a
32-bit float.  A value is a number or NaN; of the numbers the whole ones are modelled, and
what conversions and arithmetic return is rounded as a float rounds (24 significant bits,
ties to even). -/
inductive SkScalar where
  | num (v : Int)
  | nan
deriving DecidableEq, Repr

/-- A whole-number literal as a scalar. -/
instance SkScalar.instOfNat (n : Nat) : OfNat SkScalar n := ⟨SkScalar.num n⟩

/-- Spacing of the floats around a magnitude: 1 below 2^24, doubling with each further
binary digit; the first argument bounds the number of doublings. -/
def SkScalar.ulpAux : Nat → Nat → Nat
  | 0, _ => 1
  | k + 1, a => if a < 16777216 then 1 else 2 * SkScalar.ulpAux k (a / 2)

/-- The whole number nearest to `v` that a float holds, ties going to the even
significand. -/
def SkScalar.roundToFloat (v : Int) : Int :=
  let a := v.natAbs
  let u := SkScalar.ulpAux 104 a
  let q := a / u
  let r := a % u
  let q := if 2 * r < u then q else if 2 * r > u then q + 1 else if q % 2 = 0 then q else q + 1
  if v < 0 then -((q * u : Nat) : Int) else ((q * u : Nat) : Int)

/-- The conversion `SkIntToScalar(n)`, a cast from `int` to `float`. -/
def SkIntToScalar (n : Int) : SkScalar := SkScalar.num (SkScalar.roundToFloat n)

/-- The float comparison `a > b`: false when either side is NaN. -/
def SkScalar.gt : SkScalar → SkScalar → Bool
  | SkScalar.num a, SkScalar.num b => decide (a > b)
  | _, _ => false

/-- The float comparison `a < b`: false when either side is NaN. -/
def SkScalar.lt : SkScalar → SkScalar → Bool
  | SkScalar.num a, SkScalar.num b => decide (a < b)
  | _, _ => false

/-- The float comparison `a >= b`: false when either side is NaN. -/
def SkScalar.ge : SkScalar → SkScalar → Bool
  | SkScalar.num a, SkScalar.num b => decide (a ≥ b)
  | _, _ => false

/-- The float comparison `a <= b`: false when either side is NaN. -/
def SkScalar.le : SkScalar → SkScalar → Bool
  | SkScalar.num a, SkScalar.num b => decide (a ≤ b)
  | _, _ => false

/-- The float sum `a + b`: rounded, NaN when either side is NaN. -/
def SkScalar.add : SkScalar → SkScalar → SkScalar
  | SkScalar.num a, SkScalar.num b => SkScalar.num (SkScalar.roundToFloat (a + b))
  | _, _ => SkScalar.nan

/-- The float product `a * b`: rounded, NaN when either side is NaN. -/
def SkScalar.mul : SkScalar → SkScalar → SkScalar
  | SkScalar.num a, SkScalar.num b => SkScalar.num (SkScalar.roundToFloat (a * b))
  | _, _ => SkScalar.nan

/-- The smaller of two scalars, NaN when either side is NaN. -/
def SkScalar.min : SkScalar → SkScalar → SkScalar
  | SkScalar.num a, SkScalar.num b => SkScalar.num (if a ≤ b then a else b)
  | _, _ => SkScalar.nan

/-- The larger of two scalars, NaN when either side is NaN. -/
def SkScalar.max : SkScalar → SkScalar → SkScalar
  | SkScalar.num a, SkScalar.num b => SkScalar.num (if a ≤ b then b else a)
  | _, _ => SkScalar.nan

/-- Modelled from the spec: SkRect is declared outside the sources at hand.  A rectangle
is its four edges, each a scalar. -/
structure SkRect where
  fLeft : SkScalar
  fTop : SkScalar
  fRight : SkScalar
  fBottom : SkScalar
deriving DecidableEq, Repr

/-- The constructor `SkRect::MakeXYWH(x, y, w, h)`. -/
def SkRect.MakeXYWH (x y w h : SkScalar) : SkRect :=
  { fLeft := x, fTop := y, fRight := x.add w, fBottom := y.add h }

/-- The test `SkRect::isEmpty`: no interior. -/
def SkRect.isEmpty (r : SkRect) : Bool :=
  r.fLeft.ge r.fRight || r.fTop.ge r.fBottom

/-- The test `SkRect::contains(const SkRect&)`: both non-empty and `r` inside `a`. -/
def SkRect.contains (a r : SkRect) : Bool :=
  !r.isEmpty && !a.isEmpty && a.fLeft.le r.fLeft && a.fTop.le r.fTop
    && a.fRight.ge r.fRight && a.fBottom.ge r.fBottom

/-- Canvas size in whole pixels (`SkISize`). -/
structure SkISize where
  fWidth : Int
  fHeight : Int
deriving DecidableEq, Repr

/-- Modelled from the spec: SkMatrix is declared outside the sources at hand.  An affine
map `(x, y) ↦ (sx*x + kx*y + tx, ky*x + sy*y + ty)` with whole-number entries. -/
structure SkMatrix where
  sx : Int
  kx : Int
  tx : Int
  ky : Int
  sy : Int
  ty : Int
deriving DecidableEq, Repr

/-- The identity matrix `SkMatrix::I()`. -/
def SkMatrix.I : SkMatrix := { sx := 1, kx := 0, tx := 0, ky := 0, sy := 1, ty := 0 }

/-- A translation by `(dx, dy)`. -/
def SkMatrix.MakeTrans (dx dy : Int) : SkMatrix :=
  { sx := 1, kx := 0, tx := dx, ky := 0, sy := 1, ty := dy }

/-- The test `SkMatrix::rectStaysRect`: axis-aligned rectangles map to axis-aligned
rectangles (scale and translate, or a quarter turn of those). -/
def SkMatrix.rectStaysRect (m : SkMatrix) : Bool :=
  (m.kx == 0 && m.ky == 0 && m.sx != 0 && m.sy != 0)
    || (m.sx == 0 && m.sy == 0 && m.kx != 0 && m.ky != 0)

/-- Image of the point `(x, y)`, first coordinate. -/
def SkMatrix.mapX (m : SkMatrix) (x y : SkScalar) : SkScalar :=
  (((SkScalar.num m.sx).mul x).add ((SkScalar.num m.kx).mul y)).add (SkScalar.num m.tx)

/-- Image of the point `(x, y)`, second coordinate. -/
def SkMatrix.mapY (m : SkMatrix) (x y : SkScalar) : SkScalar :=
  (((SkScalar.num m.ky).mul x).add ((SkScalar.num m.sy).mul y)).add (SkScalar.num m.ty)

/-- The map `SkMatrix::mapRect(dst, src)`: bounds of the four mapped corners. -/
def SkMatrix.mapRect (m : SkMatrix) (r : SkRect) : SkRect :=
  let x0 := m.mapX r.fLeft r.fTop
  let x1 := m.mapX r.fRight r.fTop
  let x2 := m.mapX r.fRight r.fBottom
  let x3 := m.mapX r.fLeft r.fBottom
  let y0 := m.mapY r.fLeft r.fTop
  let y1 := m.mapY r.fRight r.fTop
  let y2 := m.mapY r.fRight r.fBottom
  let y3 := m.mapY r.fLeft r.fBottom
  { fLeft := (x0.min x1).min (x2.min x3), fTop := (y0.min y1).min (y2.min y3),
    fRight := (x0.max x1).max (x2.max x3), fBottom := (y0.max y1).max (y2.max y3) }

/-- The product `SkMatrix::preConcat`: `m` becomes `m * n` (apply `n` first). -/
def SkMatrix.preConcat (m n : SkMatrix) : SkMatrix :=
  { sx := m.sx * n.sx + m.kx * n.ky, kx := m.sx * n.kx + m.kx * n.sy,
    tx := m.sx * n.tx + m.kx * n.ty + m.tx,
    ky := m.ky * n.sx + m.sy * n.ky, sy := m.ky * n.kx + m.sy * n.sy,
    ty := m.ky * n.tx + m.sy * n.ty + m.ty }

/-- The enumeration `SkPaint::Style`. -/
inductive PaintStyle where
  | kFill_Style
  | kStroke_Style
  | kStrokeAndFill_Style
deriving DecidableEq, Repr

/-- How a paint blends, as far as opacity goes: the destination is replaced whatever the
source is, replaced when the source is itself without transparency, or never provably
replaced. -/
inductive PaintBlend where
  | coversAlways
  | coversIfSourceOpaque
  | coversNever
deriving DecidableEq, Repr

/-- Modelled from the spec: SkPaint is declared outside the sources at hand.  The paint
attributes the facade consults: style, presence of a mask filter, looper, path effect and
image filter, and what decides its opacity; `tag` stands for every other attribute. -/
structure SkPaint where
  style : PaintStyle
  maskFilter : Bool
  looper : Bool
  pathEffect : Bool
  imageFilter : Bool
  blend : PaintBlend
  shaderOpaque : Bool
  tag : Nat
deriving DecidableEq, Repr

/-- Modelled from the spec: SkBitmap is declared outside the sources at hand.  The bitmap
attributes the facade consults. -/
structure SkBitmap where
  width : Int
  height : Int
  isOpaque : Bool
  hasTexture : Bool
  isImmutable : Bool
  getSize : Nat
  tag : Nat
deriving DecidableEq, Repr

/-- Modelled from the spec: isPaintOpaque (SkPaintPriv) is not among the sources.  "No
transparency": without a paint the bitmap (if any) decides; with a paint its blend
decides, the bitmap standing in for the shader when one is given. -/
def isPaintOpaque (paint : Option SkPaint) (bmpReplacesShader : Option SkBitmap) : Bool :=
  match paint with
  | none =>
    match bmpReplacesShader with
    | none => true
    | some b => b.isOpaque
  | some p =>
    match p.blend with
    | PaintBlend.coversAlways => true
    | PaintBlend.coversNever => false
    | PaintBlend.coversIfSourceOpaque =>
      match bmpReplacesShader with
      | none => p.shaderOpaque
      | some b => b.isOpaque

/-- The enumeration `SkRegion::Op`. -/
inductive RegionOp where
  | kDifference_Op
  | kIntersect_Op
  | kUnion_Op
  | kXOR_Op
  | kReverseDifference_Op
  | kReplace_Op
deriving DecidableEq, Repr

/-- Kind of a rounded rectangle, as `SkRRect::isRect` and `SkRRect::isOval` see it. -/
inductive RRectKind where
  | rect
  | oval
  | other
deriving DecidableEq, Repr

/-- Modelled from the spec: SkRRect is declared outside the sources at hand; its bounds
and whether it degenerates to a rectangle or an oval. -/
structure SkRRect where
  getBounds : SkRect
  kind : RRectKind
  tag : Nat
deriving DecidableEq, Repr

/-- The test `SkRRect::isRect`. -/
def SkRRect.isRect (rr : SkRRect) : Bool := rr.kind == RRectKind.rect

/-- The test `SkRRect::isOval`. -/
def SkRRect.isOval (rr : SkRRect) : Bool := rr.kind == RRectKind.oval

/-! ## Recorded commands -/

/-- One drawing-surface mutation with the arguments captured at record time: the
operations of the recording interface the facade calls (`recorder().save()`,
`recorder().drawRect(rect, paint)`, ...), which are also the operations of a canvas.
Arguments that no decision depends on (paths, text, point arrays, pictures, ...) are
natural-number handles. -/
inductive Cmd where
  | save
  | saveLayer (bounds : Option SkRect) (paint : Option SkPaint) (flags : Nat)
  | restore
  | concat (matrix : SkMatrix)
  | setMatrix (matrix : SkMatrix)
  | clipRect (rect : SkRect) (op : RegionOp) (doAA : Bool)
  | clipRRect (rrect : SkRRect) (op : RegionOp) (doAA : Bool)
  | clipPath (path : Nat) (op : RegionOp) (doAA : Bool)
  | clipRegion (deviceRgn : Nat) (op : RegionOp)
  | clear (color : Nat)
  | drawPaint (paint : SkPaint)
  | drawPoints (mode : Nat) (count : Nat) (pts : Nat) (paint : SkPaint)
  | drawOval (rect : SkRect) (paint : SkPaint)
  | drawRect (rect : SkRect) (paint : SkPaint)
  | drawRRect (rrect : SkRRect) (paint : SkPaint)
  | drawDRRect (outer : SkRRect) (inner : SkRRect) (paint : SkPaint)
  | drawPath (path : Nat) (paint : SkPaint)
  | drawBitmap (bitmap : SkBitmap) (left : SkScalar) (top : SkScalar)
      (paint : Option SkPaint)
  | drawBitmapRectToRect (bitmap : SkBitmap) (src : Option SkRect) (dst : SkRect)
      (paint : Option SkPaint) (flags : Nat)
  | drawBitmapMatrix (bitmap : SkBitmap) (m : SkMatrix) (paint : Option SkPaint)
  | drawBitmapNine (bitmap : SkBitmap) (center : SkRect) (dst : SkRect)
      (paint : Option SkPaint)
  | drawSprite (bitmap : SkBitmap) (left : Int) (top : Int) (paint : Option SkPaint)
  | drawText (text : Nat) (x : SkScalar) (y : SkScalar) (paint : SkPaint)
  | drawPosText (text : Nat) (pos : Nat) (paint : SkPaint)
  | drawPosTextH (text : Nat) (xpos : Nat) (constY : SkScalar) (paint : SkPaint)
  | drawTextOnPath (text : Nat) (path : Nat) (matrix : Option SkMatrix) (paint : SkPaint)
  | drawTextBlob (blob : Nat) (x : SkScalar) (y : SkScalar) (paint : SkPaint)
  | drawPicture (picture : Nat) (matrix : Option SkMatrix) (paint : Option SkPaint)
  | drawVertices (geometry : Nat) (paint : SkPaint)
  | drawPatch (geometry : Nat) (paint : SkPaint)
  | setDrawFilter (filter : Option Nat)
deriving DecidableEq, Repr

/-! ## Canvases (rendering targets) -/

/-- Shape of one clip element: a rectangle in device coordinates, or a shape about which
nothing is known to be contained (rounded rectangle, path, region, or a rectangle under
a matrix that does not keep rectangles). -/
inductive ClipShape where
  | devRect (r : SkRect)
  | unknown
deriving DecidableEq, Repr

/-- One element of a clip stack: a shape and the region operation it was pushed with. -/
structure ClipElement where
  shape : ClipShape
  op : RegionOp
deriving DecidableEq, Repr

/-- Does this clip element surely contain `r`? -/
def ClipElement.contains (e : ClipElement) (r : SkRect) : Bool :=
  match e.shape with
  | ClipShape.devRect d => d.contains r
  | ClipShape.unknown => false

/-- Modelled from the spec: SkClipStack is not among the sources.  The active clip
elements, newest first. -/
structure SkClipStack where
  elements : List ClipElement
deriving DecidableEq, Repr

/-- Walk of `quickContains` over the elements, newest first. -/
def quickContainsElems : List ClipElement → SkRect → Bool
  | [], _ => true
  | e :: rest, r =>
    if e.op ≠ RegionOp.kIntersect_Op ∧ e.op ≠ RegionOp.kReplace_Op then false
    else if !e.contains r then false
    else if e.op = RegionOp.kReplace_Op then true
    else quickContainsElems rest r

/-- Modelled from the spec: `SkClipStack::quickContains(rect)`, the conservative test
that no active clip could cut into `rect`: every element down to the newest replace is an
intersect or replace whose shape contains `rect`; a wide-open stack contains everything. -/
def SkClipStack.quickContains (cs : SkClipStack) (r : SkRect) : Bool :=
  quickContainsElems cs.elements r

/-- A saved matrix/clip record of a canvas; `isLayer` marks records pushed by saveLayer. -/
structure MCRec where
  fMatrix : SkMatrix
  fClip : SkClipStack
  isLayer : Bool
deriving DecidableEq, Repr

/-- Modelled from the spec: SkCanvas, the rendering target, is not among the sources.  It
"accepts an ordered stream of drawing/state commands"; of its state only what the
deferred pipeline reads back is kept: the device size, the total matrix, the clip stack
and the save stack (newest first). -/
structure SkCanvas where
  size : SkISize
  fMatrix : SkMatrix
  fClipStack : SkClipStack
  fMCStack : List MCRec
deriving DecidableEq, Repr

/-- A fresh canvas over a `w` by `h` device: identity matrix, wide-open clip. -/
def SkCanvas.make (w h : Int) : SkCanvas :=
  { size := { fWidth := w, fHeight := h }, fMatrix := SkMatrix.I,
    fClipStack := { elements := [] }, fMCStack := [] }

/-- The query `SkCanvas::getTotalMatrix`. -/
def SkCanvas.getTotalMatrix (c : SkCanvas) : SkMatrix := c.fMatrix

/-- The query `SkCanvas::isDrawingToLayer`: some saveLayer has not been restored. -/
def SkCanvas.isDrawingToLayer (c : SkCanvas) : Bool := c.fMCStack.any (fun r => r.isLayer)

/-- Push a clip element on the canvas. -/
def SkCanvas.pushClip (c : SkCanvas) (shape : ClipShape) (op : RegionOp) : SkCanvas :=
  { c with fClipStack := { elements := { shape := shape, op := op } :: c.fClipStack.elements } }

/-- Effect of one command on a canvas state.  State commands change the matrix, the
clip and the save stack; draw commands leave this state as it is (pixels are not part of
the model). -/
def SkCanvas.exec (c : SkCanvas) : Cmd → SkCanvas
  | Cmd.save =>
    { c with fMCStack := { fMatrix := c.fMatrix, fClip := c.fClipStack, isLayer := false }
                :: c.fMCStack }
  | Cmd.saveLayer _ _ _ =>
    { c with fMCStack := { fMatrix := c.fMatrix, fClip := c.fClipStack, isLayer := true }
                :: c.fMCStack }
  | Cmd.restore =>
    match c.fMCStack with
    | [] => c
    | r :: rest => { c with fMatrix := r.fMatrix, fClipStack := r.fClip, fMCStack := rest }
  | Cmd.concat m => { c with fMatrix := c.fMatrix.preConcat m }
  | Cmd.setMatrix m => { c with fMatrix := m }
  | Cmd.clipRect rect op _ =>
    if c.fMatrix.rectStaysRect then c.pushClip (ClipShape.devRect (c.fMatrix.mapRect rect)) op
    else c.pushClip ClipShape.unknown op
  | Cmd.clipRRect _ op _ => c.pushClip ClipShape.unknown op
  | Cmd.clipPath _ op _ => c.pushClip ClipShape.unknown op
  | Cmd.clipRegion _ op => c.pushClip ClipShape.unknown op
  | _ => c

/-- A canvas after a list of commands, executed first to last. -/
def SkCanvas.execAll (c : SkCanvas) (cmds : List Cmd) : SkCanvas := cmds.foldl SkCanvas.exec c

/-- Modelled from the spec: SkSurface is not among the sources; a surface is known by a
handle and owns the canvas that `getCanvas()` returns. -/
structure SkSurface where
  handle : Nat
  getCanvas : SkCanvas
deriving DecidableEq, Repr

/-! ## Trace of outgoing calls -/

/-- The two canvases a device binds: the primary (immediate) one and the optional
playback one. -/
inductive Target where
  | immediate
  | playback
deriving DecidableEq, Repr

/-- The playback modes `SkRecordQueue::RecordPlaybackMode`. -/
inductive RecordPlaybackMode where
  | kNormalPlayback_Mode
  | kSilentPlayback_Mode
deriving DecidableEq, Repr

/-- Calls on the notification client (`SkLightDeferredCanvas::NotificationClient`);
`tryLock` is logged with the answer it gave. -/
inductive Notification where
  | prepareForDraw
  | prepareForImmediateDraw
  | storageAllocatedForRecordingChanged (bytes : Nat)
  | flushedDrawCommands
  | skippedPendingDrawCommands
  | tryLock (acquired : Bool)
  | unlock
deriving DecidableEq, Repr

/-- The argument of `SkSurface::notifyContentWillChange`. -/
inductive ContentChangeMode where
  | kDiscard_ContentChangeMode
  | kRetain_ContentChangeMode
deriving DecidableEq, Repr

/-- One call that leaves the device: a client notification, a surface notification, an
operation sent straight to the immediate canvas, a replay of queued commands against a
canvas, a `flush()` of a canvas.  One more entry marks a step inside the device whose
place between the calls on the client's lock matters: `silentDrain cmds`, the recorder of
a device in thread-safe mode dropping the queued commands `cmds` unexecuted. -/
inductive Event where
  | notify (n : Notification)
  | contentWillChange (mode : ContentChangeMode)
  | forward (c : Cmd)
  | replay (target : Target) (cmds : List Cmd)
  | canvasFlush (target : Target)
  | silentDrain (cmds : List Cmd)
deriving DecidableEq, Repr

/-- Operations one event delivers to the primary (immediate) canvas. -/
def Event.primaryOps : Event → List Cmd
  | Event.forward c => [c]
  | Event.replay Target.immediate cmds => cmds
  | _ => []

/-- Operations one event delivers to the playback canvas. -/
def Event.playbackOps : Event → List Cmd
  | Event.replay Target.playback cmds => cmds
  | _ => []

/-- Operations a trace delivers to the primary (immediate) canvas, in order. -/
def primaryOps (trace : List Event) : List Cmd := trace.flatMap Event.primaryOps

/-- Operations a trace delivers to the playback canvas, in order. -/
def playbackOps (trace : List Event) : List Cmd := trace.flatMap Event.playbackOps

/-- Client notifications in a trace, in order. -/
def notifications (trace : List Event) : List Notification :=
  trace.filterMap (fun e => match e with
    | Event.notify n => some n
    | _ => none)

/-- Modelled from the spec: the notification client is implemented by the embedder.  Its
only answer is that of `tryLock`, which "returns false immediately if contended". -/
structure NotificationClient where
  contended : Bool
deriving DecidableEq, Repr

/-! ## Recording queue -/

/-- Modelled from the spec: SkRecordQueue (the recording queue) is not among the sources.
An ordered sequence of recorded commands, oldest first, with the canvas replay is bound
to, the save records opened by recorded commands (newest first, `true` for a saveLayer),
the thread-safe playback flag, the "pending silent flush" mark and whether a frozen
snapshot has been handed off for thread-safe playback.  `sizeofSkCanvasRecordInfo` is the
byte size of one command record, a constant of the build. -/
structure SkRecordQueue where
  queue : List Cmd
  fPlaybackCanvas : Target
  fMaxRecordingCommands : Nat
  fSaveStack : List Bool
  fThreadSafePlayback : Bool
  fPendingSilentFlush : Bool
  fSnapshotReady : Bool
  sizeofSkCanvasRecordInfo : Nat
deriving DecidableEq, Repr

/-- Save records after recording one more command. -/
def SkRecordQueue.trackSave (st : List Bool) : Cmd → List Bool
  | Cmd.save => false :: st
  | Cmd.saveLayer _ _ _ => true :: st
  | Cmd.restore => st.tail
  | _ => st

/-- Modelled from the spec: `append(command)`, what every recording call
(`recorder().save()`, `recorder().drawRect(...)`, ...) does: the command goes to the end
of the queue; it "never fails". -/
def SkRecordQueue.record (r : SkRecordQueue) (c : Cmd) : SkRecordQueue :=
  { r with queue := r.queue ++ [c], fSaveStack := SkRecordQueue.trackSave r.fSaveStack c }

/-- Modelled from the spec: `hasPending()`. -/
def SkRecordQueue.hasPendingCommands (r : SkRecordQueue) : Bool := !r.queue.isEmpty

/-- Modelled from the spec: `count()`, the number of queued commands, which the device
compares to its budget. -/
def SkRecordQueue.storageAllocatedForRecordingCommands (r : SkRecordQueue) : Nat :=
  r.queue.length

/-- Modelled from the spec: the recorder reports drawing to a layer while a recorded
saveLayer has not been restored. -/
def SkRecordQueue.isDrawingToLayer (r : SkRecordQueue) : Bool := r.fSaveStack.any id

/-- Bind the canvas that replay goes to. -/
def SkRecordQueue.setPlaybackCanvas (r : SkRecordQueue) (t : Target) : SkRecordQueue :=
  { r with fPlaybackCanvas := t }

/-- Store the command budget. -/
def SkRecordQueue.setMaxRecordingCommands (r : SkRecordQueue) (n : Nat) : SkRecordQueue :=
  { r with fMaxRecordingCommands := n }

/-- Switch the queue to thread-safe playback. -/
def SkRecordQueue.enableThreadSafePlayback (r : SkRecordQueue) : SkRecordQueue :=
  { r with fThreadSafePlayback := true }

/-- Modelled from the spec: "mark the queue as pending silent flush"; nothing is
drained. -/
def SkRecordQueue.markPendingCommandsForSilentFlush (r : SkRecordQueue) : SkRecordQueue :=
  { r with fPendingSilentFlush := true }

/-- Modelled from the spec: the hand-off of "a frozen, ready-to-replay snapshot". -/
def SkRecordQueue.prepareForThreadSafePlayback (r : SkRecordQueue) : SkRecordQueue :=
  { r with fSnapshotReady := true }

/-- Modelled from the spec: `SkRecordQueue::flushPendingCommands(mode, threadSafe)`.
Returns the commands replayed against the bound playback canvas (`none` when nothing is
replayed) and the queue afterwards.  Silent: "discards all commands without executing
them".  Normal, not thread-safe: "executes every queued command in FIFO order, then
clears the queue".  Normal with the playback flag: the stream is kept "retained" until a
snapshot has been handed off, and the snapshot is what the next such flush replays. -/
def SkRecordQueue.flushPendingCommands (r : SkRecordQueue) (mode : RecordPlaybackMode)
    (threadSafe : Bool) : Option (List Cmd) × SkRecordQueue :=
  match mode with
  | RecordPlaybackMode.kSilentPlayback_Mode =>
    (none, { r with queue := [], fPendingSilentFlush := false, fSnapshotReady := false })
  | RecordPlaybackMode.kNormalPlayback_Mode =>
    if threadSafe then
      if r.fSnapshotReady then
        (some r.queue, { r with queue := [], fPendingSilentFlush := false,
                                fSnapshotReady := false })
      else (none, r)
    else
      (some r.queue, { r with queue := [], fPendingSilentFlush := false })

/-! ## The deferred device -/

/-- Default of `fMaxRecordingCommands`: "Deferred canvas will auto-flush when recording
reaches this limit". -/
def kDefaultMaxRecordingCommands : Nat := 8196

/-- Default bitmap size threshold, `~0U` ("Disables this feature"). -/
def kDeferredCanvasBitmapSizeThreshold : Nat := 2 ^ 32 - 1

/-- State of `SkLightDeferredDevice`: its data members, with the canvases it points to
held by value, surfaces by handle, and the trace of calls it has made so far. -/
structure SkLightDeferredDevice where
  fRecorder : SkRecordQueue
  fImmediateCanvas : SkCanvas
  fSurface : Option Nat
  fNotificationClient : Option NotificationClient
  fFreshFrame : Bool
  fCanDiscardCanvasContents : Bool
  fMaxRecordingCommands : Nat
  fPreviousCommandsAllocated : Nat
  fPlaybackCanvas : Option SkCanvas
  fPlaybackSurface : Option Nat
  fThreadSafePlayback : Bool
  trace : List Event
deriving DecidableEq, Repr

namespace SkLightDeferredDevice

/-- Append one outgoing call to the trace. -/
def emit (d : SkLightDeferredDevice) (e : Event) : SkLightDeferredDevice :=
  { d with trace := d.trace ++ [e] }

/-- The accessor `immediateCanvas()`. -/
def immediateCanvas (d : SkLightDeferredDevice) : SkCanvas := d.fImmediateCanvas

/-- An operation sent straight to the immediate canvas (`immediateCanvas()->op(...)`). -/
def drawImmediate (d : SkLightDeferredDevice) (c : Cmd) : SkLightDeferredDevice :=
  { d with fImmediateCanvas := d.fImmediateCanvas.exec c, trace := d.trace ++ [Event.forward c] }

/-- A recording call on `recorder()`. -/
def recordCommand (d : SkLightDeferredDevice) (c : Cmd) : SkLightDeferredDevice :=
  { d with fRecorder := d.fRecorder.record c }

/-- The call `fRecorder.flushPendingCommands(mode, threadSafe)` as seen from the device:
the commands the queue replays reach the canvas the queue is bound to.  A silent drain
replays nothing; on a device in thread-safe mode, where it runs under the client's lock,
the drain is marked in the trace with the commands it drops. -/
def recorderFlush (d : SkLightDeferredDevice) (mode : RecordPlaybackMode)
    (threadSafe : Bool) : SkLightDeferredDevice :=
  let out := d.fRecorder.flushPendingCommands mode threadSafe
  let dropped := d.fRecorder.queue
  let d := { d with fRecorder := out.2 }
  match out.1 with
  | none =>
    if mode == RecordPlaybackMode.kSilentPlayback_Mode && d.fThreadSafePlayback then
      d.emit (Event.silentDrain dropped)
    else d
  | some cmds =>
    match d.fRecorder.fPlaybackCanvas with
    | Target.immediate =>
      { d with fImmediateCanvas := d.fImmediateCanvas.execAll cmds,
               trace := d.trace ++ [Event.replay Target.immediate cmds] }
    | Target.playback =>
      { d with fPlaybackCanvas := d.fPlaybackCanvas.map (fun c => c.execAll cmds),
               trace := d.trace ++ [Event.replay Target.playback cmds] }

/-- The member `setSurface(surface)`. -/
def setSurface (d : SkLightDeferredDevice) (surface : SkSurface) : SkLightDeferredDevice :=
  { d with fImmediateCanvas := surface.getCanvas, fSurface := some surface.handle,
           fRecorder := d.fRecorder.setPlaybackCanvas Target.immediate }

/-- The member `setPlaybackSurface(surface)`. -/
def setPlaybackSurface (d : SkLightDeferredDevice) (surface : SkSurface) :
    SkLightDeferredDevice :=
  { d with fPlaybackCanvas := some surface.getCanvas, fPlaybackSurface := some surface.handle,
           fRecorder := d.fRecorder.setPlaybackCanvas Target.playback }

/-- The constructor `SkLightDeferredDevice(surface)`: member defaults, `setSurface`, then
`init()`.  `recordInfoSize` is `sizeof(SkCanvasRecordInfo)`. -/
def create (surface : SkSurface) (recordInfoSize : Nat) : SkLightDeferredDevice :=
  { fRecorder := { queue := [], fPlaybackCanvas := Target.immediate,
                   fMaxRecordingCommands := kDefaultMaxRecordingCommands, fSaveStack := [],
                   fThreadSafePlayback := false, fPendingSilentFlush := false,
                   fSnapshotReady := false, sizeofSkCanvasRecordInfo := recordInfoSize },
    fImmediateCanvas := surface.getCanvas,
    fSurface := some surface.handle,
    fNotificationClient := none,
    fFreshFrame := true,
    fCanDiscardCanvasContents := false,
    fMaxRecordingCommands := kDefaultMaxRecordingCommands,
    fPreviousCommandsAllocated := 0,
    fPlaybackCanvas := none,
    fPlaybackSurface := none,
    fThreadSafePlayback := false,
    trace := [] }

/-- The member `setMaxRecordingCommands(maxCommands)`. -/
def setMaxRecordingCommands (d : SkLightDeferredDevice) (maxCommands : Nat) :
    SkLightDeferredDevice :=
  { d with fMaxRecordingCommands := maxCommands,
           fRecorder := d.fRecorder.setMaxRecordingCommands maxCommands }

/-- The member `setNotificationClient(client)`. -/
def setNotificationClient (d : SkLightDeferredDevice) (client : Option NotificationClient) :
    SkLightDeferredDevice :=
  { d with fNotificationClient := client }

/-- The member `hasPendingCommands()`. -/
def hasPendingCommands (d : SkLightDeferredDevice) : Bool := d.fRecorder.hasPendingCommands

/-- The member `isFreshFrame()`: the flag's value, and the device with the flag cleared. -/
def isFreshFrame (d : SkLightDeferredDevice) : Bool × SkLightDeferredDevice :=
  let ret := d.fFreshFrame
  (ret, { d with fFreshFrame := false })

/-- The member `aboutToDraw()`. -/
def aboutToDraw (d : SkLightDeferredDevice) : SkLightDeferredDevice :=
  let d := if d.fNotificationClient.isSome then d.emit (Event.notify Notification.prepareForDraw)
           else d
  if d.fCanDiscardCanvasContents then
    let d := if d.fSurface.isSome then
               d.emit (Event.contentWillChange ContentChangeMode.kDiscard_ContentChangeMode)
             else d
    { d with fCanDiscardCanvasContents := false }
  else d

/-- The member `flushPendingCommands(playbackMode)`. -/
def flushPendingCommands (d : SkLightDeferredDevice) (playbackMode : RecordPlaybackMode) :
    SkLightDeferredDevice :=
  let d := if d.fThreadSafePlayback
              && playbackMode == RecordPlaybackMode.kNormalPlayback_Mode
              && d.fNotificationClient.isSome then
             d.emit (Event.notify Notification.prepareForImmediateDraw)
           else d
  if !d.fRecorder.hasPendingCommands then d
  else if d.fThreadSafePlayback && playbackMode == RecordPlaybackMode.kSilentPlayback_Mode then
    match d.fNotificationClient with
    | none => { d with fRecorder := d.fRecorder.markPendingCommandsForSilentFlush }
    | some client =>
      let acquired := !client.contended
      let d := d.emit (Event.notify (Notification.tryLock acquired))
      if !acquired then
        { d with fRecorder := d.fRecorder.markPendingCommandsForSilentFlush }
      else
        let d := d.recorderFlush RecordPlaybackMode.kSilentPlayback_Mode false
        let d := { d with fPreviousCommandsAllocated := 0 }
        if d.fNotificationClient.isSome then d.emit (Event.notify Notification.unlock) else d
  else
    let d := { d with fRecorder := d.fRecorder.setPlaybackCanvas Target.immediate }
    let d := if playbackMode == RecordPlaybackMode.kNormalPlayback_Mode then d.aboutToDraw else d
    let d := d.recorderFlush playbackMode d.fThreadSafePlayback
    let d := if d.fNotificationClient.isSome then
               if playbackMode == RecordPlaybackMode.kSilentPlayback_Mode then
                 d.emit (Event.notify Notification.skippedPendingDrawCommands)
               else d.emit (Event.notify Notification.flushedDrawCommands)
             else d
    { d with fPreviousCommandsAllocated := 0 }

/-- The member `skipPendingCommands()`. -/
def skipPendingCommands (d : SkLightDeferredDevice) : SkLightDeferredDevice :=
  let d :=
    if !d.fRecorder.isDrawingToLayer then
      let d := { d with fCanDiscardCanvasContents := true }
      if d.fRecorder.hasPendingCommands then
        let d := { d with fFreshFrame := true }
        let d := d.flushPendingCommands RecordPlaybackMode.kSilentPlayback_Mode
        if d.fNotificationClient.isSome then
          d.emit (Event.notify Notification.skippedPendingDrawCommands)
        else d
      else d
    else d
  { d with fCanDiscardCanvasContents := false }

/-- The member `enableThreadSafePlayback()`. -/
def enableThreadSafePlayback (d : SkLightDeferredDevice) : SkLightDeferredDevice :=
  if !d.fThreadSafePlayback then
    { d with fRecorder := d.fRecorder.enableThreadSafePlayback, fThreadSafePlayback := true }
  else d

/-- The member `setPlaybackCanvas(canvas)`. -/
def setPlaybackCanvas (d : SkLightDeferredDevice) (canvas : SkCanvas) : SkLightDeferredDevice :=
  if d.fThreadSafePlayback then
    { d with fPlaybackCanvas := some canvas,
             fRecorder := d.fRecorder.setPlaybackCanvas Target.playback }
  else d

/-- The member `prepareForThreadSafeFlush()`. -/
def prepareForThreadSafeFlush (d : SkLightDeferredDevice) : SkLightDeferredDevice :=
  if !d.fThreadSafePlayback || !d.fRecorder.hasPendingCommands then d
  else
    let d := d.recorderFlush RecordPlaybackMode.kNormalPlayback_Mode d.fThreadSafePlayback
    { d with fRecorder := d.fRecorder.prepareForThreadSafePlayback }

/-- The member `threadSafeFlush()`.  It returns `none` when it gets as far as
`fPlaybackCanvas->flush()` with `fPlaybackCanvas` still `NULL`: the call dereferences the
null pointer. -/
def threadSafeFlush (d : SkLightDeferredDevice) : Option SkLightDeferredDevice :=
  if !d.fThreadSafePlayback || !d.fRecorder.hasPendingCommands then some d
  else
    let d := { d with fRecorder := d.fRecorder.setPlaybackCanvas Target.playback }
    let d := d.recorderFlush RecordPlaybackMode.kNormalPlayback_Mode d.fThreadSafePlayback
    match d.fPlaybackCanvas with
    | none => none
    | some _ => some (d.emit (Event.canvasFlush Target.playback))

/-- The member `flush()`. -/
def flush (d : SkLightDeferredDevice) : SkLightDeferredDevice :=
  let d := d.flushPendingCommands RecordPlaybackMode.kNormalPlayback_Mode
  d.emit (Event.canvasFlush Target.immediate)

/-- The member `commandsAllocatedForRecording()`. -/
def commandsAllocatedForRecording (d : SkLightDeferredDevice) : Nat :=
  d.fRecorder.storageAllocatedForRecordingCommands

/-- The member `recordedDrawCommand()`. -/
def recordedDrawCommand (d : SkLightDeferredDevice) : SkLightDeferredDevice :=
  let commandsAllocated := d.commandsAllocatedForRecording
  let d := if commandsAllocated > d.fMaxRecordingCommands then
             d.flushPendingCommands RecordPlaybackMode.kNormalPlayback_Mode
           else d
  if d.fNotificationClient.isSome && commandsAllocated != d.fPreviousCommandsAllocated then
    let d := { d with fPreviousCommandsAllocated := 0 }
    d.emit (Event.notify (Notification.storageAllocatedForRecordingChanged
      (commandsAllocated * d.fRecorder.sizeofSkCanvasRecordInfo)))
  else d

/-- The member `imageInfo()`, as far as the size goes: that of the immediate device. -/
def imageInfo (d : SkLightDeferredDevice) : SkISize := d.fImmediateCanvas.size

/-- The member `prepareForImmediatePixelWrite()`. -/
def prepareForImmediatePixelWrite (d : SkLightDeferredDevice) : SkLightDeferredDevice :=
  let d :=
    if d.fRecorder.hasPendingCommands then
      d.flushPendingCommands RecordPlaybackMode.kNormalPlayback_Mode
    else
      let mustNotifyDirectly := !d.fCanDiscardCanvasContents
      let d := d.aboutToDraw
      if mustNotifyDirectly then
        d.emit (Event.contentWillChange ContentChangeMode.kRetain_ContentChangeMode)
      else d
  d.emit (Event.canvasFlush Target.immediate)

/-- The member `onWritePixels(info, ...)`, up to the hand-over to the immediate device;
`infoSize` is the size of the pixels written. -/
def onWritePixels (d : SkLightDeferredDevice) (infoSize : SkISize) : SkLightDeferredDevice :=
  let d := d.flushPendingCommands RecordPlaybackMode.kNormalPlayback_Mode
  let deviceInfo := d.imageInfo
  let d := if infoSize.fWidth == deviceInfo.fWidth && infoSize.fHeight == deviceInfo.fHeight then
             d.skipPendingCommands
           else d
  d.prepareForImmediatePixelWrite

/-- The member `onAccessBitmap()`, up to the hand-over to the immediate device. -/
def onAccessBitmap (d : SkLightDeferredDevice) : SkLightDeferredDevice :=
  d.flushPendingCommands RecordPlaybackMode.kNormalPlayback_Mode

/-- The member `onReadPixels(...)`, up to the hand-over to the immediate canvas. -/
def onReadPixels (d : SkLightDeferredDevice) : SkLightDeferredDevice :=
  d.flushPendingCommands RecordPlaybackMode.kNormalPlayback_Mode

end SkLightDeferredDevice

/-! ## The facade -/

/-- The function `shouldDrawImmediately(bitmap, paint, bitmapSizeThreshold)`.  Its first
statement is `return false;`: the tests on the bitmap's texture, mutability and size and
on the paint's shader that follow it in the source are never reached. -/
def shouldDrawImmediately (_bitmap : Option SkBitmap) (_paint : Option SkPaint)
    (_bitmapSizeThreshold : Nat) : Bool :=
  false

/-- State of `SkLightDeferredCanvas`: its data members, its device
(`getDeferredDevice()`), and `base`, the state it inherits from SkCanvas (its own total
matrix, clip stack and save stack, which the inherited calls maintain). -/
structure SkLightDeferredCanvas where
  device : SkLightDeferredDevice
  fDeferredDrawing : Bool
  fThreadSafePlayback : Bool
  fBitmapSizeThreshold : Nat
  fCachedCanvasSize : SkISize
  fCachedCanvasSizeDirty : Bool
  base : SkCanvas
deriving DecidableEq, Repr

namespace SkLightDeferredCanvas

/-- The factory `Create(surface)`: a new device, then the facade's `init()`. -/
def Create (surface : SkSurface) (recordInfoSize : Nat) : SkLightDeferredCanvas :=
  { device := SkLightDeferredDevice.create surface recordInfoSize,
    fDeferredDrawing := true,
    fThreadSafePlayback := false,
    fBitmapSizeThreshold := kDeferredCanvasBitmapSizeThreshold,
    fCachedCanvasSize := { fWidth := 0, fHeight := 0 },
    fCachedCanvasSizeDirty := true,
    base := SkCanvas.make surface.getCanvas.size.fWidth surface.getCanvas.size.fHeight }

/-- The member `setMaxRecordingStorage(maxStorage)`. -/
def setMaxRecordingStorage (s : SkLightDeferredCanvas) (maxStorage : Nat) :
    SkLightDeferredCanvas :=
  let commands := maxStorage / s.device.fRecorder.sizeofSkCanvasRecordInfo
  { s with device := s.device.setMaxRecordingCommands commands }

/-- The member `setPlaybackSurface(surface)`. -/
def setPlaybackSurface (s : SkLightDeferredCanvas) (surface : SkSurface) :
    SkLightDeferredCanvas :=
  { s with device := s.device.setPlaybackSurface surface }

/-- The member `setBitmapSizeThreshold(sizeThreshold)`. -/
def setBitmapSizeThreshold (s : SkLightDeferredCanvas) (sizeThreshold : Nat) :
    SkLightDeferredCanvas :=
  { s with fBitmapSizeThreshold := sizeThreshold }

/-- The member `recordedDrawCommand()`. -/
def recordedDrawCommand (s : SkLightDeferredCanvas) : SkLightDeferredCanvas :=
  if s.fDeferredDrawing then { s with device := s.device.recordedDrawCommand } else s

/-- The member `setDeferredDrawing(val)`. -/
def setDeferredDrawing (s : SkLightDeferredCanvas) (val : Bool) : SkLightDeferredCanvas :=
  if val != s.fDeferredDrawing then
    let s := if s.fDeferredDrawing then
               { s with device :=
                   s.device.flushPendingCommands RecordPlaybackMode.kNormalPlayback_Mode }
             else s
    { s with fDeferredDrawing := val }
  else s

/-- The member `isDeferredDrawing()`. -/
def isDeferredDrawing (s : SkLightDeferredCanvas) : Bool := s.fDeferredDrawing

/-- The member `isFreshFrame()`. -/
def isFreshFrame (s : SkLightDeferredCanvas) : Bool × SkLightDeferredCanvas :=
  let out := s.device.isFreshFrame
  (out.1, { s with device := out.2 })

/-- The member `hasPendingCommands()`. -/
def hasPendingCommands (s : SkLightDeferredCanvas) : Bool := s.device.hasPendingCommands

/-- The member `silentFlush()`. -/
def silentFlush (s : SkLightDeferredCanvas) : SkLightDeferredCanvas :=
  if s.fDeferredDrawing then
    { s with device := s.device.flushPendingCommands RecordPlaybackMode.kSilentPlayback_Mode }
  else s

/-- The member `setSurface(surface)`. -/
def setSurface (s : SkLightDeferredCanvas) (surface : SkSurface) : SkLightDeferredCanvas :=
  { s with device := s.device.setSurface surface }

/-- The member `setNotificationClient(client)`. -/
def setNotificationClient (s : SkLightDeferredCanvas) (client : Option NotificationClient) :
    SkLightDeferredCanvas :=
  { s with device := s.device.setNotificationClient client }

/-- The inherited `getDeviceSize()`: the size the device reports, which is the immediate
device's. -/
def getDeviceSize (s : SkLightDeferredCanvas) : SkISize := s.device.imageInfo

/-- The inherited `getClipStack()`: the facade's own clip stack. -/
def getClipStack (s : SkLightDeferredCanvas) : SkClipStack := s.base.fClipStack

/-- The inherited `getTotalMatrix()`: the facade's own current total matrix. -/
def getTotalMatrix (s : SkLightDeferredCanvas) : SkMatrix := s.base.getTotalMatrix

/-- The member `isFullFrame(rect, paint)`. -/
def isFullFrame (s : SkLightDeferredCanvas) (rect : Option SkRect) (paint : Option SkPaint) :
    Bool :=
  let canvas := s.device.immediateCanvas
  let canvasSize := s.getDeviceSize
  let clipContainsDevice :=
    s.getClipStack.quickContains (SkRect.MakeXYWH 0 0 (SkIntToScalar canvasSize.fWidth)
      (SkIntToScalar canvasSize.fHeight))
  match rect with
  | some rect =>
    if !canvas.getTotalMatrix.rectStaysRect then false
    else
      let transformedRect := canvas.getTotalMatrix.mapRect rect
      let covers :=
        if transformedRect.fLeft.gt (SkIntToScalar 0)
            || transformedRect.fTop.gt (SkIntToScalar 0)
            || transformedRect.fRight.lt (SkIntToScalar canvasSize.fWidth)
            || transformedRect.fBottom.lt (SkIntToScalar canvasSize.fHeight) then false
        else clipContainsDevice
      match paint with
      | some paint =>
        let paintStyle := paint.style
        if !(paintStyle == PaintStyle.kFill_Style
              || paintStyle == PaintStyle.kStrokeAndFill_Style) then false
        else if paint.maskFilter || paint.looper || paint.pathEffect || paint.imageFilter then
          false
        else covers
      | none => covers
  | none => clipContainsDevice

/-- The member `isDrawingToLayer()`. -/
def isDrawingToLayer (s : SkLightDeferredCanvas) : Bool :=
  if s.fDeferredDrawing then s.device.fRecorder.isDrawingToLayer
  else s.device.immediateCanvas.isDrawingToLayer

/-- A recording call `getDeferredDevice()->recorder().op(...)`. -/
def record (s : SkLightDeferredCanvas) (c : Cmd) : SkLightDeferredCanvas :=
  { s with device := s.device.recordCommand c }

/-- A direct call `getDeferredDevice()->immediateCanvas()->op(...)`. -/
def immediate (s : SkLightDeferredCanvas) (c : Cmd) : SkLightDeferredCanvas :=
  { s with device := s.device.drawImmediate c }

/-- The inherited part of a state operation (`INHERITED::onClipRect` and the like, and
what SkCanvas does around the `will...`/`did...` hooks): the facade's own matrix, clip and
save stack follow the operation. -/
def inherited (s : SkLightDeferredCanvas) (c : Cmd) : SkLightDeferredCanvas :=
  { s with base := s.base.exec c }

/-- The call `getDeferredDevice()->skipPendingCommands()`. -/
def skipPendingCommands (s : SkLightDeferredCanvas) : SkLightDeferredCanvas :=
  { s with device := s.device.skipPendingCommands }

/-- Constructor of `LightAutoImmediateDrawIfNeeded`: the facade afterwards, and whether
the guard holds the canvas (`fCanvas` non-null). -/
def autoImmediateInit (canvas : SkLightDeferredCanvas) (bitmap : Option SkBitmap)
    (paint : Option SkPaint) : SkLightDeferredCanvas × Bool :=
  if canvas.isDeferredDrawing
      && shouldDrawImmediately bitmap paint canvas.fBitmapSizeThreshold then
    (canvas.setDeferredDrawing false, true)
  else (canvas, false)

/-- Destructor of `LightAutoImmediateDrawIfNeeded`. -/
def autoImmediateDone (canvas : SkLightDeferredCanvas) (fCanvas : Bool) :
    SkLightDeferredCanvas :=
  if fCanvas then canvas.setDeferredDrawing true else canvas

/-- Body shared by the state hooks: record or forward `c`, `recordedDrawCommand()`, then
the inherited call. -/
def stateOp (s : SkLightDeferredCanvas) (c : Cmd) : SkLightDeferredCanvas :=
  let s := if s.fDeferredDrawing then s.record c else s.immediate c
  let s := s.recordedDrawCommand
  s.inherited c

/-- Body shared by the draw calls that only take the immediate-draw guard: guard on
(`bitmap`, `paint`), record or forward `c`, `recordedDrawCommand()`, guard released. -/
def guardedDraw (s : SkLightDeferredCanvas) (bitmap : Option SkBitmap)
    (paint : Option SkPaint) (c : Cmd) : SkLightDeferredCanvas :=
  let autoDraw := autoImmediateInit s bitmap paint
  let s := autoDraw.1
  let s := if s.fDeferredDrawing then s.record c else s.immediate c
  let s := s.recordedDrawCommand
  autoImmediateDone s autoDraw.2

/-- The member `willSave()`. -/
def willSave (s : SkLightDeferredCanvas) : SkLightDeferredCanvas := s.stateOp Cmd.save

/-- The member `willSaveLayer(bounds, paint, flags)`. -/
def willSaveLayer (s : SkLightDeferredCanvas) (bounds : Option SkRect)
    (paint : Option SkPaint) (flags : Nat) : SkLightDeferredCanvas :=
  s.stateOp (Cmd.saveLayer bounds paint flags)

/-- The member `willRestore()`. -/
def willRestore (s : SkLightDeferredCanvas) : SkLightDeferredCanvas := s.stateOp Cmd.restore

/-- The member `didConcat(matrix)`. -/
def didConcat (s : SkLightDeferredCanvas) (matrix : SkMatrix) : SkLightDeferredCanvas :=
  s.stateOp (Cmd.concat matrix)

/-- The member `didSetMatrix(matrix)`. -/
def didSetMatrix (s : SkLightDeferredCanvas) (matrix : SkMatrix) : SkLightDeferredCanvas :=
  s.stateOp (Cmd.setMatrix matrix)

/-- The member `onClipRect(rect, op, edgeStyle)`; `soft` is
`kSoft_ClipEdgeStyle == edgeStyle`. -/
def onClipRect (s : SkLightDeferredCanvas) (rect : SkRect) (op : RegionOp) (soft : Bool) :
    SkLightDeferredCanvas :=
  s.stateOp (Cmd.clipRect rect op soft)

/-- The member `onClipRRect(rrect, op, edgeStyle)`. -/
def onClipRRect (s : SkLightDeferredCanvas) (rrect : SkRRect) (op : RegionOp) (soft : Bool) :
    SkLightDeferredCanvas :=
  s.stateOp (Cmd.clipRRect rrect op soft)

/-- The member `onClipPath(path, op, edgeStyle)`. -/
def onClipPath (s : SkLightDeferredCanvas) (path : Nat) (op : RegionOp) (soft : Bool) :
    SkLightDeferredCanvas :=
  s.stateOp (Cmd.clipPath path op soft)

/-- The member `onClipRegion(deviceRgn, op)`. -/
def onClipRegion (s : SkLightDeferredCanvas) (deviceRgn : Nat) (op : RegionOp) :
    SkLightDeferredCanvas :=
  s.stateOp (Cmd.clipRegion deviceRgn op)

/-- The member `setDrawFilter(filter)`. -/
def setDrawFilter (s : SkLightDeferredCanvas) (filter : Option Nat) : SkLightDeferredCanvas :=
  s.stateOp (Cmd.setDrawFilter filter)

/-- The member `clear(color)`. -/
def clear (s : SkLightDeferredCanvas) (color : Nat) : SkLightDeferredCanvas :=
  let s := if s.fDeferredDrawing then s.skipPendingCommands else s
  let s := if s.fDeferredDrawing then s.record (Cmd.clear color)
           else s.immediate (Cmd.clear color)
  s.recordedDrawCommand

/-- The member `drawPaint(paint)`. -/
def drawPaint (s : SkLightDeferredCanvas) (paint : SkPaint) : SkLightDeferredCanvas :=
  let s := if s.fDeferredDrawing && s.isFullFrame none (some paint)
              && isPaintOpaque (some paint) none then s.skipPendingCommands
           else s
  s.guardedDraw none (some paint) (Cmd.drawPaint paint)

/-- The member `drawPoints(mode, count, pts, paint)`. -/
def drawPoints (s : SkLightDeferredCanvas) (mode count pts : Nat) (paint : SkPaint) :
    SkLightDeferredCanvas :=
  s.guardedDraw none (some paint) (Cmd.drawPoints mode count pts paint)

/-- The member `drawOval(rect, paint)`. -/
def drawOval (s : SkLightDeferredCanvas) (rect : SkRect) (paint : SkPaint) :
    SkLightDeferredCanvas :=
  s.guardedDraw none (some paint) (Cmd.drawOval rect paint)

/-- The member `drawRect(rect, paint)`. -/
def drawRect (s : SkLightDeferredCanvas) (rect : SkRect) (paint : SkPaint) :
    SkLightDeferredCanvas :=
  let s := if s.fDeferredDrawing && s.isFullFrame (some rect) (some paint)
              && isPaintOpaque (some paint) none then s.skipPendingCommands
           else s
  s.guardedDraw none (some paint) (Cmd.drawRect rect paint)

/-- The member `drawRRect(rrect, paint)`. -/
def drawRRect (s : SkLightDeferredCanvas) (rrect : SkRRect) (paint : SkPaint) :
    SkLightDeferredCanvas :=
  if rrect.isRect then s.drawRect rrect.getBounds paint
  else if rrect.isOval then s.drawOval rrect.getBounds paint
  else s.guardedDraw none (some paint) (Cmd.drawRRect rrect paint)

/-- The member `onDrawDRRect(outer, inner, paint)`. -/
def onDrawDRRect (s : SkLightDeferredCanvas) (outer inner : SkRRect) (paint : SkPaint) :
    SkLightDeferredCanvas :=
  s.guardedDraw none (some paint) (Cmd.drawDRRect outer inner paint)

/-- The member `drawPath(path, paint)`. -/
def drawPath (s : SkLightDeferredCanvas) (path : Nat) (paint : SkPaint) :
    SkLightDeferredCanvas :=
  s.guardedDraw none (some paint) (Cmd.drawPath path paint)

/-- The member `drawBitmap(bitmap, left, top, paint)`. -/
def drawBitmap (s : SkLightDeferredCanvas) (bitmap : SkBitmap) (left top : SkScalar)
    (paint : Option SkPaint) : SkLightDeferredCanvas :=
  let bitmapRect := SkRect.MakeXYWH left top (SkIntToScalar bitmap.width)
    (SkIntToScalar bitmap.height)
  let s := if s.fDeferredDrawing && s.isFullFrame (some bitmapRect) paint
              && isPaintOpaque paint (some bitmap) then s.skipPendingCommands
           else s
  s.guardedDraw (some bitmap) paint (Cmd.drawBitmap bitmap left top paint)

/-- The member `drawBitmapRectToRect(bitmap, src, dst, paint, flags)`. -/
def drawBitmapRectToRect (s : SkLightDeferredCanvas) (bitmap : SkBitmap)
    (src : Option SkRect) (dst : SkRect) (paint : Option SkPaint) (flags : Nat) :
    SkLightDeferredCanvas :=
  let s := if s.fDeferredDrawing && s.isFullFrame (some dst) paint
              && isPaintOpaque paint (some bitmap) then s.skipPendingCommands
           else s
  s.guardedDraw (some bitmap) paint (Cmd.drawBitmapRectToRect bitmap src dst paint flags)

/-- The member `drawBitmapMatrix(bitmap, m, paint)`. -/
def drawBitmapMatrix (s : SkLightDeferredCanvas) (bitmap : SkBitmap) (m : SkMatrix)
    (paint : Option SkPaint) : SkLightDeferredCanvas :=
  s.guardedDraw (some bitmap) paint (Cmd.drawBitmapMatrix bitmap m paint)

/-- The member `drawBitmapNine(bitmap, center, dst, paint)`. -/
def drawBitmapNine (s : SkLightDeferredCanvas) (bitmap : SkBitmap) (center dst : SkRect)
    (paint : Option SkPaint) : SkLightDeferredCanvas :=
  s.guardedDraw (some bitmap) paint (Cmd.drawBitmapNine bitmap center dst paint)

/-- The member `drawSprite(bitmap, left, top, paint)`. -/
def drawSprite (s : SkLightDeferredCanvas) (bitmap : SkBitmap) (left top : Int)
    (paint : Option SkPaint) : SkLightDeferredCanvas :=
  let bitmapRect := SkRect.MakeXYWH (SkIntToScalar left) (SkIntToScalar top)
    (SkIntToScalar bitmap.width) (SkIntToScalar bitmap.height)
  let s := if s.fDeferredDrawing && s.isFullFrame (some bitmapRect) paint
              && isPaintOpaque paint (some bitmap) then s.skipPendingCommands
           else s
  s.guardedDraw (some bitmap) paint (Cmd.drawSprite bitmap left top paint)

/-- The member `onDrawText(text, byteLength, x, y, paint)`. -/
def onDrawText (s : SkLightDeferredCanvas) (text : Nat) (x y : SkScalar) (paint : SkPaint) :
    SkLightDeferredCanvas :=
  s.guardedDraw none (some paint) (Cmd.drawText text x y paint)

/-- The member `onDrawPosText(text, byteLength, pos, paint)`. -/
def onDrawPosText (s : SkLightDeferredCanvas) (text pos : Nat) (paint : SkPaint) :
    SkLightDeferredCanvas :=
  s.guardedDraw none (some paint) (Cmd.drawPosText text pos paint)

/-- The member `onDrawPosTextH(text, byteLength, xpos, constY, paint)`. -/
def onDrawPosTextH (s : SkLightDeferredCanvas) (text xpos : Nat) (constY : SkScalar)
    (paint : SkPaint) : SkLightDeferredCanvas :=
  s.guardedDraw none (some paint) (Cmd.drawPosTextH text xpos constY paint)

/-- The member `onDrawTextOnPath(text, byteLength, path, matrix, paint)`. -/
def onDrawTextOnPath (s : SkLightDeferredCanvas) (text path : Nat) (matrix : Option SkMatrix)
    (paint : SkPaint) : SkLightDeferredCanvas :=
  s.guardedDraw none (some paint) (Cmd.drawTextOnPath text path matrix paint)

/-- The member `onDrawTextBlob(blob, x, y, paint)`. -/
def onDrawTextBlob (s : SkLightDeferredCanvas) (blob : Nat) (x y : SkScalar)
    (paint : SkPaint) :
    SkLightDeferredCanvas :=
  s.guardedDraw none (some paint) (Cmd.drawTextBlob blob x y paint)

/-- The member `onDrawPicture(picture, matrix, paint)`: no guard, no inherited call. -/
def onDrawPicture (s : SkLightDeferredCanvas) (picture : Nat) (matrix : Option SkMatrix)
    (paint : Option SkPaint) : SkLightDeferredCanvas :=
  let s := if s.fDeferredDrawing then s.record (Cmd.drawPicture picture matrix paint)
           else s.immediate (Cmd.drawPicture picture matrix paint)
  s.recordedDrawCommand

/-- The member `drawVertices(...)`. -/
def drawVertices (s : SkLightDeferredCanvas) (geometry : Nat) (paint : SkPaint) :
    SkLightDeferredCanvas :=
  s.guardedDraw none (some paint) (Cmd.drawVertices geometry paint)

/-- The member `onDrawPatch(...)`. -/
def onDrawPatch (s : SkLightDeferredCanvas) (geometry : Nat) (paint : SkPaint) :
    SkLightDeferredCanvas :=
  s.guardedDraw none (some paint) (Cmd.drawPatch geometry paint)

/-- The member `enableThreadSafePlayback()`. -/
def enableThreadSafePlayback (s : SkLightDeferredCanvas) : SkLightDeferredCanvas :=
  if s.fDeferredDrawing && !s.fThreadSafePlayback then
    { s with device := s.device.enableThreadSafePlayback, fThreadSafePlayback := true }
  else s

/-- The member `prepareForThreadSafeFlush()`. -/
def prepareForThreadSafeFlush (s : SkLightDeferredCanvas) : SkLightDeferredCanvas :=
  if s.fThreadSafePlayback then { s with device := s.device.prepareForThreadSafeFlush } else s

/-- The member `threadSafeFlush()`; `none` when the device's member dereferences a null
playback canvas. -/
def threadSafeFlush (s : SkLightDeferredCanvas) : Option SkLightDeferredCanvas :=
  if s.fThreadSafePlayback then
    match s.device.threadSafeFlush with
    | none => none
    | some d => some { s with device := d }
  else some s

/-- The member `setPlaybackCanvas(canvas)`. -/
def setPlaybackCanvas (s : SkLightDeferredCanvas) (canvas : SkCanvas) : SkLightDeferredCanvas :=
  if s.fThreadSafePlayback then { s with device := s.device.setPlaybackCanvas canvas } else s

/-- One drawing or state call on the facade, named by the operation it stands for. -/
def call (s : SkLightDeferredCanvas) : Cmd → SkLightDeferredCanvas
  | Cmd.save => s.willSave
  | Cmd.saveLayer bounds paint flags => s.willSaveLayer bounds paint flags
  | Cmd.restore => s.willRestore
  | Cmd.concat matrix => s.didConcat matrix
  | Cmd.setMatrix matrix => s.didSetMatrix matrix
  | Cmd.clipRect rect op doAA => s.onClipRect rect op doAA
  | Cmd.clipRRect rrect op doAA => s.onClipRRect rrect op doAA
  | Cmd.clipPath path op doAA => s.onClipPath path op doAA
  | Cmd.clipRegion deviceRgn op => s.onClipRegion deviceRgn op
  | Cmd.clear color => s.clear color
  | Cmd.drawPaint paint => s.drawPaint paint
  | Cmd.drawPoints mode count pts paint => s.drawPoints mode count pts paint
  | Cmd.drawOval rect paint => s.drawOval rect paint
  | Cmd.drawRect rect paint => s.drawRect rect paint
  | Cmd.drawRRect rrect paint => s.drawRRect rrect paint
  | Cmd.drawDRRect outer inner paint => s.onDrawDRRect outer inner paint
  | Cmd.drawPath path paint => s.drawPath path paint
  | Cmd.drawBitmap bitmap left top paint => s.drawBitmap bitmap left top paint
  | Cmd.drawBitmapRectToRect bitmap src dst paint flags =>
    s.drawBitmapRectToRect bitmap src dst paint flags
  | Cmd.drawBitmapMatrix bitmap m paint => s.drawBitmapMatrix bitmap m paint
  | Cmd.drawBitmapNine bitmap center dst paint => s.drawBitmapNine bitmap center dst paint
  | Cmd.drawSprite bitmap left top paint => s.drawSprite bitmap left top paint
  | Cmd.drawText text x y paint => s.onDrawText text x y paint
  | Cmd.drawPosText text pos paint => s.onDrawPosText text pos paint
  | Cmd.drawPosTextH text xpos constY paint => s.onDrawPosTextH text xpos constY paint
  | Cmd.drawTextOnPath text path matrix paint => s.onDrawTextOnPath text path matrix paint
  | Cmd.drawTextBlob blob x y paint => s.onDrawTextBlob blob x y paint
  | Cmd.drawPicture picture matrix paint => s.onDrawPicture picture matrix paint
  | Cmd.drawVertices geometry paint => s.drawVertices geometry paint
  | Cmd.drawPatch geometry paint => s.onDrawPatch geometry paint
  | Cmd.setDrawFilter filter => s.setDrawFilter filter

/-- The operation a facade call hands to the recorder or to the immediate canvas:
itself, except that `drawRRect` of a rectangle or an oval goes out as `drawRect` or
`drawOval` of its bounds. -/
def issued : Cmd → Cmd
  | Cmd.drawRRect rrect paint =>
    if rrect.isRect then Cmd.drawRect rrect.getBounds paint
    else if rrect.isOval then Cmd.drawOval rrect.getBounds paint
    else Cmd.drawRRect rrect paint
  | c => c

/-- Does this call reach `getDeferredDevice()->skipPendingCommands()`?  The guard in
front of that call in `clear`, `drawPaint`, `drawRect` (also through `drawRRect`),
`drawBitmap`, `drawBitmapRectToRect` and `drawSprite`; no other member calls it. -/
def occludes (s : SkLightDeferredCanvas) : Cmd → Bool
  | Cmd.clear _ => s.fDeferredDrawing
  | Cmd.drawPaint paint =>
    s.fDeferredDrawing && s.isFullFrame none (some paint) && isPaintOpaque (some paint) none
  | Cmd.drawRect rect paint =>
    s.fDeferredDrawing && s.isFullFrame (some rect) (some paint)
      && isPaintOpaque (some paint) none
  | Cmd.drawRRect rrect paint =>
    rrect.isRect && (s.fDeferredDrawing && s.isFullFrame (some rrect.getBounds) (some paint)
      && isPaintOpaque (some paint) none)
  | Cmd.drawBitmap bitmap left top paint =>
    s.fDeferredDrawing
      && s.isFullFrame (some (SkRect.MakeXYWH left top (SkIntToScalar bitmap.width)
            (SkIntToScalar bitmap.height))) paint
      && isPaintOpaque paint (some bitmap)
  | Cmd.drawBitmapRectToRect bitmap _ dst paint _ =>
    s.fDeferredDrawing && s.isFullFrame (some dst) paint && isPaintOpaque paint (some bitmap)
  | Cmd.drawSprite bitmap left top paint =>
    s.fDeferredDrawing
      && s.isFullFrame (some (SkRect.MakeXYWH (SkIntToScalar left) (SkIntToScalar top)
            (SkIntToScalar bitmap.width) (SkIntToScalar bitmap.height))) paint
      && isPaintOpaque paint (some bitmap)
  | _ => false

/-- A sequence of facade calls, issued first to last. -/
def callAll (s : SkLightDeferredCanvas) (calls : List Cmd) : SkLightDeferredCanvas :=
  calls.foldl call s

/-- No call of the sequence reaches `skipPendingCommands()` when its turn comes. -/
def noOcclusion : SkLightDeferredCanvas → List Cmd → Bool
  | _, [] => true
  | s, c :: rest => !s.occludes c && noOcclusion (s.call c) rest

end SkLightDeferredCanvas

/-- Replays in a trace, in order: the canvas replayed against and the commands. -/
def replays (trace : List Event) : List (Target × List Cmd) :=
  trace.filterMap (fun e => match e with
    | Event.replay t cmds => some (t, cmds)
    | _ => none)

/-! ## Sample inputs -/

/-- A 100 by 100 surface with a fresh canvas. -/
def sampleSurface : SkSurface := { handle := 1, getCanvas := SkCanvas.make 100 100 }

/-- A plain fill paint that replaces what it covers. -/
def plainPaint : SkPaint :=
  { style := PaintStyle.kFill_Style, maskFilter := false, looper := false, pathEffect := false,
    imageFilter := false, blend := PaintBlend.coversAlways, shaderOpaque := true, tag := 0 }

/-- The plain paint with a mask filter. -/
def maskPaint : SkPaint := { plainPaint with maskFilter := true }

/-- The rectangle of the whole sample surface. -/
def wholeSurface : SkRect := { fLeft := 0, fTop := 0, fRight := 100, fBottom := 100 }

/-- The top-left quarter of the sample surface. -/
def quarterSurface : SkRect := { fLeft := 0, fTop := 0, fRight := 50, fBottom := 50 }

/-- A newly created facade over the sample surface. -/
def sampleFacade : SkLightDeferredCanvas := SkLightDeferredCanvas.Create sampleSurface 16

/-- The sample facade with one pending draw. -/
def samplePending : SkLightDeferredCanvas := sampleFacade.drawPoints 0 1 2 plainPaint

/-- The sample facade after a recorded saveLayer. -/
def sampleInLayer : SkLightDeferredCanvas := sampleFacade.willSaveLayer none none 0

/-- The sample facade after a recorded clip to the top-left quarter. -/
def sampleClipped : SkLightDeferredCanvas :=
  sampleFacade.onClipRect quarterSurface RegionOp.kIntersect_Op false

/-- The sample facade after a recorded translation by the surface width. -/
def sampleTranslated : SkLightDeferredCanvas :=
  sampleFacade.didConcat (SkMatrix.MakeTrans 100 0)

/-- The sample facade with its budget set to one command. -/
def sampleBudgetOne : SkLightDeferredCanvas := sampleFacade.setMaxRecordingStorage 16

/-- Two draws that cover no more than a quarter of the surface. -/
def sampleTwoDraws : List Cmd :=
  [Cmd.drawPath 7 plainPaint, Cmd.drawOval quarterSurface plainPaint]

/-- The sample facade with a notification client set and one pending draw. -/
def sampleWithClient : SkLightDeferredCanvas :=
  (sampleFacade.setNotificationClient (some { contended := false })).drawPoints 0 1 2 plainPaint

/-- The sample facade in thread-safe mode, with a client whose lock is taken and one
pending draw. -/
def sampleContended : SkLightDeferredCanvas :=
  ((sampleFacade.setNotificationClient (some { contended := true })).enableThreadSafePlayback
    ).drawPoints 0 1 2 plainPaint

/-! ## Further definitions and sample inputs -/

/-- Is this one of the state-changing operations (save, saveLayer, restore, transform
changes, clip pushes, draw-filter change)? -/
def Cmd.isStateOp : Cmd → Bool
  | Cmd.save => true
  | Cmd.saveLayer _ _ _ => true
  | Cmd.restore => true
  | Cmd.concat _ => true
  | Cmd.setMatrix _ => true
  | Cmd.clipRect _ _ _ => true
  | Cmd.clipRRect _ _ _ => true
  | Cmd.clipPath _ _ _ => true
  | Cmd.clipRegion _ _ => true
  | Cmd.setDrawFilter _ => true
  | _ => false

/-- Operations a trace sends straight to the immediate canvas (not through a replay). -/
def forwards (trace : List Event) : List Cmd :=
  trace.filterMap (fun e => match e with
    | Event.forward c => some c
    | _ => none)

/-- The test on the bitmap that follows the early `return false;` in
`shouldDrawImmediately`: texture-backed and not immutable, or larger than the threshold. -/
def bitmapUnsafeToDefer (bitmap : SkBitmap) (bitmapSizeThreshold : Nat) : Bool :=
  (bitmap.hasTexture && !bitmap.isImmutable) || decide (bitmap.getSize > bitmapSizeThreshold)

/-- A 10 by 10 bitmap backed by a texture and not immutable. -/
def textureBitmap : SkBitmap :=
  { width := 10, height := 10, isOpaque := false, hasTexture := true, isImmutable := false,
    getSize := 400, tag := 0 }

/-- A 10 by 10 raster bitmap of 400 bytes. -/
def rasterBitmap : SkBitmap :=
  { width := 10, height := 10, isOpaque := false, hasTexture := false, isImmutable := true,
    getSize := 400, tag := 1 }

/-- The sample facade with the bitmap size threshold lowered to 100 bytes. -/
def sampleSmallThreshold : SkLightDeferredCanvas := sampleFacade.setBitmapSizeThreshold 100

/-- The sample facade in thread-safe mode, with a client whose lock is free and one
pending draw. -/
def sampleLockFree : SkLightDeferredCanvas :=
  ((sampleFacade.setNotificationClient (some { contended := false })).enableThreadSafePlayback
    ).drawPoints 0 1 2 plainPaint

/-- The lock protocol in a trace: the calls of `tryLock` and `unlock` and the drains made
under the lock, in order. -/
def lockProtocol (trace : List Event) : List Event :=
  trace.filter (fun e => match e with
    | Event.notify (Notification.tryLock _) => true
    | Event.notify Notification.unlock => true
    | Event.silentDrain _ => true
    | _ => false)

/-- Calls of `tryLock` and `unlock` in a trace, in order. -/
def lockCalls (trace : List Event) : List Notification :=
  trace.filterMap (fun e => match e with
    | Event.notify (Notification.tryLock b) => some (Notification.tryLock b)
    | Event.notify Notification.unlock => some Notification.unlock
    | _ => none)

/-! ## Public operations, invariants and further sample inputs -/

/-- The public operations of the facade, with their arguments: a drawing or state call,
the mode switch, the flushes, the rebinding and configuration calls, the thread-safe
protocol, and the pixel accesses that reach the device (`flush`, `writePixels`,
`readPixels`, `accessBitmap`, `newImageSnapshot`). -/
inductive FacadeOp where
  | call (c : Cmd)
  | setDeferredDrawing (val : Bool)
  | silentFlush
  | isFreshFrame
  | setSurface (surface : SkSurface)
  | setPlaybackSurface (surface : SkSurface)
  | setNotificationClient (client : Option NotificationClient)
  | setMaxRecordingStorage (maxStorage : Nat)
  | setBitmapSizeThreshold (sizeThreshold : Nat)
  | enableThreadSafePlayback
  | prepareForThreadSafeFlush
  | threadSafeFlush
  | setPlaybackCanvas (canvas : SkCanvas)
  | flush
  | writePixels (infoSize : SkISize)
  | readPixels
  | accessBitmap
  | newImageSnapshot
deriving DecidableEq, Repr

namespace SkLightDeferredCanvas

/-- The facade after one public operation; `none` when the operation dereferences a null
pointer (`threadSafeFlush` without a playback canvas). -/
def applyOp (s : SkLightDeferredCanvas) : FacadeOp → Option SkLightDeferredCanvas
  | FacadeOp.call c => some (s.call c)
  | FacadeOp.setDeferredDrawing val => some (s.setDeferredDrawing val)
  | FacadeOp.silentFlush => some s.silentFlush
  | FacadeOp.isFreshFrame => some s.isFreshFrame.2
  | FacadeOp.setSurface surface => some (s.setSurface surface)
  | FacadeOp.setPlaybackSurface surface => some (s.setPlaybackSurface surface)
  | FacadeOp.setNotificationClient client => some (s.setNotificationClient client)
  | FacadeOp.setMaxRecordingStorage maxStorage => some (s.setMaxRecordingStorage maxStorage)
  | FacadeOp.setBitmapSizeThreshold sizeThreshold =>
    some (s.setBitmapSizeThreshold sizeThreshold)
  | FacadeOp.enableThreadSafePlayback => some s.enableThreadSafePlayback
  | FacadeOp.prepareForThreadSafeFlush => some s.prepareForThreadSafeFlush
  | FacadeOp.threadSafeFlush => s.threadSafeFlush
  | FacadeOp.setPlaybackCanvas canvas => some (s.setPlaybackCanvas canvas)
  | FacadeOp.flush => some { s with device := s.device.flush }
  | FacadeOp.writePixels infoSize => some { s with device := s.device.onWritePixels infoSize }
  | FacadeOp.readPixels => some { s with device := s.device.onReadPixels }
  | FacadeOp.accessBitmap => some { s with device := s.device.onAccessBitmap }
  | FacadeOp.newImageSnapshot => some { s with device := s.device.flush }

/-- The facade after a sequence of public operations, first to last; `none` when one of
them dereferences a null pointer. -/
def applyAll (s : SkLightDeferredCanvas) : List FacadeOp → Option SkLightDeferredCanvas
  | [] => some s
  | op :: rest =>
    match s.applyOp op with
    | none => none
    | some s => s.applyAll rest

end SkLightDeferredCanvas

/-- The notice `notifyContentWillChange(kDiscard_ContentChangeMode)` to the surface. -/
def discardNotice : Event :=
  Event.contentWillChange ContentChangeMode.kDiscard_ContentChangeMode

/-- Number of `skippedPendingDrawCommands` notifications in a trace. -/
def skippedCount (trace : List Event) : Nat :=
  trace.count (Event.notify Notification.skippedPendingDrawCommands)

/-- The sample facade with a budget of one command, after a recorded saveLayer. -/
def sampleInLayerBudgetOne : SkLightDeferredCanvas := sampleBudgetOne.willSaveLayer none none 0

/-- The sample facade after a recorded translation by the surface width and one more
pending draw. -/
def sampleTranslatedPending : SkLightDeferredCanvas :=
  sampleTranslated.drawPoints 0 1 2 plainPaint

/-- The rectangle that the translation by the surface width carries onto the whole
sample surface. -/
def shiftedSurface : SkRect :=
  { fLeft := SkScalar.num (-100), fTop := 0, fRight := 0, fBottom := 100 }

/-- A surface 2^24 + 1 pixels wide and one pixel high. -/
def wideSurface : SkSurface := { handle := 3, getCanvas := SkCanvas.make 16777217 1 }

/-- A new facade over the wide surface with one pending draw. -/
def sampleWide : SkLightDeferredCanvas :=
  (SkLightDeferredCanvas.Create wideSurface 16).drawPoints 0 1 2 plainPaint

/-- The rectangle over the wide surface that stops one pixel short of its right edge. -/
def almostWide : SkRect := { fLeft := 0, fTop := 0, fRight := 16777216, fBottom := 1 }

/-- A rectangle over the sample surface whose left edge is NaN. -/
def nanRect : SkRect := { fLeft := SkScalar.nan, fTop := 0, fRight := 100, fBottom := 100 }

/-- The sample facade with a budget of one command and thread-safe playback on. -/
def sampleBudgetOneThreadSafe : SkLightDeferredCanvas :=
  sampleBudgetOne.enableThreadSafePlayback

/-- The device is settled: the can-discard flag is down, the previous-count member is 0
and no discard notice has been sent to the surface. -/
def SkLightDeferredDevice.Settled (d : SkLightDeferredDevice) : Prop :=
  d.fCanDiscardCanvasContents = false ∧ d.fPreviousCommandsAllocated = 0
    ∧ discardNotice ∉ d.trace

/-- Whether a device is settled can be computed. -/
instance SkLightDeferredDevice.decidableSettled (d : SkLightDeferredDevice) :
    Decidable d.Settled := by
  unfold SkLightDeferredDevice.Settled
  exact inferInstance

/-! ## The layer rasterizer builder -/

/-- The record `SkLayerRasterizer_Rec`: a paint and an offset (`SkVector`, here a pair of
integers). -/
structure SkLayerRasterizer_Rec where
  fPaint : SkPaint
  fOffset : Int × Int
deriving DecidableEq, Repr

/-- Modelled from the spec: SkDeque is not among the sources.  The records of one deque,
front first. -/
abbrev SkDeque := List SkLayerRasterizer_Rec

/-- The deques allocated so far; a `SkDeque*` is an index into this list and `NULL` is
`none`. -/
structure DequeHeap where
  deques : List SkDeque
deriving DecidableEq, Repr

namespace DequeHeap

/-- Modelled from the spec: `SkNEW_ARGS(SkDeque, ...)`, a new empty deque at a new
address. -/
def alloc (h : DequeHeap) : Nat × DequeHeap :=
  (h.deques.length, { deques := h.deques ++ [[]] })

/-- The deque behind a pointer, if the pointer is valid. -/
def read (h : DequeHeap) (p : Nat) : Option SkDeque := h.deques[p]?

/-- Modelled from the spec: `count()`. -/
def count (h : DequeHeap) (p : Nat) : Option Nat := (h.read p).map List.length

/-- Modelled from the spec: `push_back()` followed by the initialisation of the new slot
with `rec`: the record goes to the back of the deque behind `p`. -/
def push_back (h : DequeHeap) (p : Nat) (rec : SkLayerRasterizer_Rec) : DequeHeap :=
  match h.deques[p]? with
  | some d => { deques := h.deques.set p (d ++ [rec]) }
  | none => h

end DequeHeap

/-- A rasterizer made by `SkLayerRasterizer(SkDeque* layers)`: it owns the deque behind
`fLayers`. -/
structure SkLayerRasterizer where
  fLayers : Nat
deriving DecidableEq, Repr

/-- The class `SkLayerRasterizer::Builder`: the pointer `fLayers`. -/
structure SkLayerRasterizer.Builder where
  fLayers : Option Nat
deriving DecidableEq, Repr

namespace SkLayerRasterizer.Builder

/-- The constructor `Builder()`: a new empty deque. -/
def create (h : DequeHeap) : SkLayerRasterizer.Builder × DequeHeap :=
  let out := h.alloc
  ({ fLayers := some out.1 }, out.2)

/-- The member `addLayer(paint, dx, dy)`; `none` when `fLayers` is `NULL` or dangling. -/
def addLayer (b : SkLayerRasterizer.Builder) (h : DequeHeap) (paint : SkPaint) (dx dy : Int) :
    Option DequeHeap :=
  match b.fLayers with
  | none => none
  | some p =>
    match h.read p with
    | none => none
    | some _ => some (h.push_back p { fPaint := paint, fOffset := (dx, dy) })

/-- The member `detachRasterizer()`: the rasterizer takes over the builder's deque, or
`NULL` when it is empty, and the builder's pointer becomes `NULL`. -/
def detachRasterizer (b : SkLayerRasterizer.Builder) (h : DequeHeap) :
    Option (Option SkLayerRasterizer × SkLayerRasterizer.Builder × DequeHeap) :=
  match b.fLayers with
  | none => none
  | some p =>
    match h.count p with
    | none => none
    | some n =>
      if n = 0 then some (none, { fLayers := none }, h)
      else some (some { fLayers := p }, { fLayers := none }, h)

/-- The loop of `snapshotRasterizer()`: each record the front-to-back iterator yields is
copied, paint and offset, into a slot pushed at the back of `layers`. -/
def copyLayers (layers : Nat) : List SkLayerRasterizer_Rec → DequeHeap → DequeHeap
  | [], h => h
  | recOrig :: rest, h =>
    copyLayers layers rest
      (h.push_back layers { fPaint := recOrig.fPaint, fOffset := recOrig.fOffset })

/-- The member `snapshotRasterizer()`: `NULL` when the builder's deque is empty, else a
rasterizer over a new deque filled by the copy loop.  The outer `none` stands for the
dereference of a `NULL` or dangling `fLayers`. -/
def snapshotRasterizer (b : SkLayerRasterizer.Builder) (h : DequeHeap) :
    Option (Option SkLayerRasterizer × DequeHeap) :=
  match b.fLayers with
  | none => none
  | some p =>
    match h.read p with
    | none => none
    | some orig =>
      if orig.length = 0 then some (none, h)
      else
        let out := h.alloc
        let layers := out.1
        let h := copyLayers layers orig out.2
        some (some { fLayers := layers }, h)

end SkLayerRasterizer.Builder

/-- Two layers: the plain paint at the origin and the mask paint moved by (3, -2). -/
def sampleLayers : SkDeque :=
  [{ fPaint := plainPaint, fOffset := (0, 0) }, { fPaint := maskPaint, fOffset := (3, -2) }]

/-- The heap after `Builder()`, `addLayer(plainPaint)` and `addLayer(maskPaint, 3, -2)`. -/
def sampleDequeHeap : DequeHeap := { deques := [sampleLayers] }

/-- The builder whose deque is the first of the sample heap. -/
def sampleBuilder : SkLayerRasterizer.Builder := { fLayers := some 0 }

/-! ## Line breaking (SkTextBox) -/

/-- Modelled from the spec: the UTF-8 helpers (`SkUTF8_NextUnichar`, `SkUTF8_ToUnichar`,
`SkUTF8_CountUTF8Bytes`) are not among the sources.  A well-formed text is a sequence of
characters; each has a code point and occupies one leading byte and `trail` more. -/
structure Utf8Char where
  uni : Int
  trail : Nat
deriving DecidableEq, Repr

/-- Modelled from the spec: `SkUTF8_CountUTF8Bytes`, the byte count of a character. -/
def SkUTF8_CountUTF8Bytes (c : Utf8Char) : Nat := c.trail + 1

/-- Modelled from the spec: `SkUTF8_ToUnichar`, the code point of a character. -/
def SkUTF8_ToUnichar (c : Utf8Char) : Int := c.uni

/-- The distance `stop - text` in bytes. -/
def byteLen (text : List Utf8Char) : Nat := (text.map SkUTF8_CountUTF8Bytes).sum

/-- A 32-bit signed value after two's-complement wrap-around (`SkFixed`, `int`). -/
def wrap32 (x : Int) : Int := (x + 2147483648) % 4294967296 - 2147483648

/-- Modelled from the spec: `SkScalarToFixed`; scalars are taken in 16.16 fixed-point
units already, so nothing is converted. -/
def SkScalarToFixed (x : Int) : Int := x

/-- The function `is_ws(c)`: `!((c - 1) >> 5)`. -/
def is_ws (c : Int) : Bool := ((c - 1) >>> 5) == 0

/-- The inner loop of `linebreak`, "eat the rest of the whitespace":
`while (text < stop && is_ws(SkUTF8_ToUnichar(text))) text += SkUTF8_CountUTF8Bytes(text)`.
The list is what lies between `text` and `stop`; `text` is the offset from `start`. -/
def eatWS : List Utf8Char → Nat → Nat
  | [], text => text
  | c :: rest, text =>
    if is_ws (SkUTF8_ToUnichar c) then eatWS rest (text + SkUTF8_CountUTF8Bytes c) else text

/-- The loop of `linebreak`, returning `text - start`.  The list is what lies between
`text` and `stop`; `text` and `word_start` are offsets from `start`; `advance` is
`cache->getMetrics(uni).fAdvanceX`. -/
def linebreakLoop (advance : Int → Int) (limit : Int) :
    List Utf8Char → Nat → Int → Nat → Bool → Nat
  | [], text, _, _, _ => text
  | c :: rest, text, w, word_start, prevWS =>
    let prevText := text
    let uni := SkUTF8_ToUnichar c
    let text := text + SkUTF8_CountUTF8Bytes c
    let currWS := is_ws uni
    let word_start := if !currWS && prevWS then prevText else word_start
    let prevWS := currWS
    let w := wrap32 (w + advance uni)
    if w > limit then
      if currWS then eatWS rest text
      else if word_start == 0 then
        if prevText > 0 then prevText else text
      else word_start
    else linebreakLoop advance limit rest text w word_start prevWS

/-- The function `linebreak(text, stop, paint, margin)`; the paint is represented by the
advance function of its glyph cache. -/
def linebreak (advance : Int → Int) (text : List Utf8Char) (margin : Int) : Nat :=
  linebreakLoop advance (SkScalarToFixed margin) text 0 0 0 true

/-- The pointer step `text += n`: what lies between the new `text` and `stop`; `none` when
the pointer would pass `stop` or stop inside a character. -/
def dropBytes : Nat → List Utf8Char → Option (List Utf8Char)
  | 0, text => some text
  | _ + 1, [] => none
  | n + 1, c :: rest =>
    if SkUTF8_CountUTF8Bytes c ≤ n + 1 then dropBytes (n + 1 - SkUTF8_CountUTF8Bytes c) rest
    else none

/-- The `do ... while (text < stop)` loop of `CountLines`, with a bound on the number of
rounds; `none` when the bound is used up or the pointer leaves the text. -/
def countLinesLoop (advance : Int → Int) (width : Int) :
    Nat → List Utf8Char → Int → Option Int
  | 0, _, _ => none
  | fuel + 1, text, count =>
    let count := wrap32 (count + 1)
    match dropBytes (linebreak advance text width) text with
    | none => none
    | some text => if text ≠ [] then countLinesLoop advance width fuel text count
                   else some count

/-- The function `SkTextLineBreaker::CountLines(text, len, paint, width)`, with a bound on
the number of rounds of its loop. -/
def CountLines (advance : Int → Int) (text : List Utf8Char) (width : Int) (fuel : Nat) :
    Option Int :=
  if width > 0 then countLinesLoop advance width fuel text 0 else some 0

/-- Every glyph is 10 units wide. -/
def sampleAdvance : Int → Int := fun _ => 10

/-- The text "ab cd" followed by a two-byte character. -/
def sampleText : List Utf8Char :=
  [⟨97, 0⟩, ⟨98, 0⟩, ⟨32, 0⟩, ⟨99, 0⟩, ⟨100, 0⟩, ⟨233, 1⟩]

/-! ## Auxiliary facts about the device -/

open SkLightDeferredDevice

theorem primaryOps_append (a b : List Event) :
    primaryOps (a ++ b) = primaryOps a ++ primaryOps b := by
  simp [primaryOps]

theorem playbackOps_append (a b : List Event) :
    playbackOps (a ++ b) = playbackOps a ++ playbackOps b := by
  simp [playbackOps]

theorem replays_append (a b : List Event) : replays (a ++ b) = replays a ++ replays b := by
  simp [replays]

theorem notifications_append (a b : List Event) :
    notifications (a ++ b) = notifications a ++ notifications b := by
  simp [notifications]

/-- Silent flush with thread-safe playback off, spelled out. -/
theorem flushPendingCommands_silent_eq (d : SkLightDeferredDevice)
    (hts : d.fThreadSafePlayback = false) :
    d.flushPendingCommands RecordPlaybackMode.kSilentPlayback_Mode =
      if d.fRecorder.queue = [] then d
      else { d with
        fRecorder := { d.fRecorder with queue := [], fPlaybackCanvas := Target.immediate,
                                        fPendingSilentFlush := false, fSnapshotReady := false },
        fPreviousCommandsAllocated := 0,
        trace := d.trace ++ (if d.fNotificationClient.isSome then
                  [Event.notify Notification.skippedPendingDrawCommands] else []) } := by
  unfold flushPendingCommands
  by_cases hq : d.fRecorder.queue = []
  · simp [hts, hq, SkRecordQueue.hasPendingCommands]
  · cases hc : d.fNotificationClient <;>
    simp [hts, hq, hc, SkRecordQueue.hasPendingCommands, recorderFlush, emit,
      SkRecordQueue.flushPendingCommands, SkRecordQueue.setPlaybackCanvas]

/-- Normal flush with thread-safe playback off, spelled out. -/
theorem flushPendingCommands_normal_eq (d : SkLightDeferredDevice)
    (hts : d.fThreadSafePlayback = false) :
    d.flushPendingCommands RecordPlaybackMode.kNormalPlayback_Mode =
      if d.fRecorder.queue = [] then d
      else { d with
        fRecorder := { d.fRecorder with queue := [], fPlaybackCanvas := Target.immediate,
                                        fPendingSilentFlush := false },
        fImmediateCanvas := d.fImmediateCanvas.execAll d.fRecorder.queue,
        fCanDiscardCanvasContents := false,
        fPreviousCommandsAllocated := 0,
        trace := d.trace
          ++ (if d.fNotificationClient.isSome then [Event.notify Notification.prepareForDraw]
              else [])
          ++ (if d.fCanDiscardCanvasContents = true ∧ d.fSurface.isSome then
                [Event.contentWillChange ContentChangeMode.kDiscard_ContentChangeMode]
              else [])
          ++ [Event.replay Target.immediate d.fRecorder.queue]
          ++ (if d.fNotificationClient.isSome then
                [Event.notify Notification.flushedDrawCommands]
              else []) } := by
  unfold flushPendingCommands
  by_cases hq : d.fRecorder.queue = []
  · simp [hts, hq, SkRecordQueue.hasPendingCommands]
  · cases hc : d.fNotificationClient <;> cases hd : d.fCanDiscardCanvasContents <;>
    cases hs : d.fSurface <;>
    simp [hts, hq, hc, hd, hs, SkRecordQueue.hasPendingCommands, recorderFlush, emit, aboutToDraw,
      SkRecordQueue.flushPendingCommands, SkRecordQueue.setPlaybackCanvas]

/-- Skip with thread-safe playback off and no open layer, spelled out. -/
theorem skipPendingCommands_eq (d : SkLightDeferredDevice)
    (hts : d.fThreadSafePlayback = false)
    (hl : d.fRecorder.isDrawingToLayer = false) :
    d.skipPendingCommands =
      if d.fRecorder.queue = [] then { d with fCanDiscardCanvasContents := false }
      else { d with
        fRecorder := { d.fRecorder with queue := [], fPlaybackCanvas := Target.immediate,
                                        fPendingSilentFlush := false, fSnapshotReady := false },
        fFreshFrame := true,
        fCanDiscardCanvasContents := false,
        fPreviousCommandsAllocated := 0,
        trace := d.trace ++ (if d.fNotificationClient.isSome then
                  [Event.notify Notification.skippedPendingDrawCommands,
                   Event.notify Notification.skippedPendingDrawCommands] else []) } := by
  unfold skipPendingCommands
  by_cases hq : d.fRecorder.queue = []
  · simp [hl, hq, SkRecordQueue.hasPendingCommands]
  · cases hc : d.fNotificationClient <;>
    simp [hl, hq, hc, hts, flushPendingCommands_silent_eq, SkRecordQueue.hasPendingCommands, emit]

/-- Skip inside an open layer only clears the can-discard flag. -/
theorem skipPendingCommands_inLayer (d : SkLightDeferredDevice)
    (hl : d.fRecorder.isDrawingToLayer = true) :
    d.skipPendingCommands = { d with fCanDiscardCanvasContents := false } := by
  simp [skipPendingCommands, hl]

/-- The post-append hook while the count is within the budget: at most a storage
notification. -/
theorem recordedDrawCommand_within (d : SkLightDeferredDevice)
    (h : d.fRecorder.queue.length ≤ d.fMaxRecordingCommands) :
    d.recordedDrawCommand =
      if d.fNotificationClient.isSome = true
          ∧ d.fRecorder.queue.length ≠ d.fPreviousCommandsAllocated then
        { d with fPreviousCommandsAllocated := 0,
                 trace := d.trace ++ [Event.notify
                   (Notification.storageAllocatedForRecordingChanged
                     (d.fRecorder.queue.length * d.fRecorder.sizeofSkCanvasRecordInfo))] }
      else d := by
  unfold recordedDrawCommand
  simp [commandsAllocatedForRecording, SkRecordQueue.storageAllocatedForRecordingCommands,
    Nat.not_lt.mpr h, emit]

/-! ## Auxiliary facts about the facade -/

namespace SkLightDeferredCanvas

/-- The immediate-draw guard never fires: a guarded draw records or forwards, then runs
the post-append hook. -/
theorem guardedDraw_eq (s : SkLightDeferredCanvas) (bitmap : Option SkBitmap)
    (paint : Option SkPaint) (c : Cmd) :
    s.guardedDraw bitmap paint c =
      (if s.fDeferredDrawing then s.record c else s.immediate c).recordedDrawCommand := by
  simp [guardedDraw, autoImmediateInit, shouldDrawImmediately, autoImmediateDone]

/-- A call that does not reach `skipPendingCommands()` is the plain routing of the
operation it issues. -/
theorem call_eq_stateOp (s : SkLightDeferredCanvas) (c : Cmd) (h : s.occludes c = false) :
    s.call c = s.stateOp (issued c) := by
  cases c
  case clear color =>
    simp only [occludes] at h
    simp [call, clear, h, issued, stateOp, inherited, SkCanvas.exec]
  case drawPaint paint =>
    simp only [occludes] at h
    simp only [call, drawPaint, h]
    simp [issued, guardedDraw_eq, stateOp, inherited, SkCanvas.exec]
  case drawRect rect paint =>
    simp only [occludes] at h
    simp only [call, drawRect, h]
    simp [issued, guardedDraw_eq, stateOp, inherited, SkCanvas.exec]
  case drawRRect rrect paint =>
    simp only [occludes] at h
    by_cases hr : rrect.isRect = true
    · simp only [hr, Bool.true_and] at h
      simp only [call, drawRRect, hr, drawRect, h]
      simp [issued, hr, guardedDraw_eq, stateOp, inherited, SkCanvas.exec]
    · by_cases ho : rrect.isOval = true <;>
      simp [call, drawRRect, drawOval, hr, ho, issued, guardedDraw_eq, stateOp, inherited,
        SkCanvas.exec]
  case drawBitmap bitmap left top paint =>
    simp only [occludes] at h
    simp only [call, drawBitmap, h]
    simp [issued, guardedDraw_eq, stateOp, inherited, SkCanvas.exec]
  case drawBitmapRectToRect bitmap src dst paint flags =>
    simp only [occludes] at h
    simp only [call, drawBitmapRectToRect, h]
    simp [issued, guardedDraw_eq, stateOp, inherited, SkCanvas.exec]
  case drawSprite bitmap left top paint =>
    simp only [occludes] at h
    simp only [call, drawSprite, h]
    simp [issued, guardedDraw_eq, stateOp, inherited, SkCanvas.exec]
  all_goals
    simp [call, issued, willSave, willSaveLayer, willRestore, didConcat, didSetMatrix,
      onClipRect, onClipRRect, onClipPath, onClipRegion, setDrawFilter, drawPoints, drawOval,
      onDrawDRRect, drawPath, drawBitmapMatrix, drawBitmapNine, onDrawText, onDrawPosText,
      onDrawPosTextH, onDrawTextOnPath, onDrawTextBlob, onDrawPicture, drawVertices,
      onDrawPatch, guardedDraw_eq, stateOp, inherited, SkCanvas.exec]

/-- In immediate mode no call reaches `skipPendingCommands()`. -/
theorem occludes_immediate (s : SkLightDeferredCanvas) (c : Cmd)
    (h : s.fDeferredDrawing = false) : s.occludes c = false := by
  cases c <;> simp [occludes, h]

/-- Routing in immediate mode: the operation goes straight to the immediate canvas. -/
theorem stateOp_immediate (s : SkLightDeferredCanvas) (c : Cmd)
    (h : s.fDeferredDrawing = false) :
    s.stateOp c = { s with device := s.device.drawImmediate c, base := s.base.exec c } := by
  simp [stateOp, h, immediate, recordedDrawCommand, inherited]

/-- Routing in deferred mode with thread-safe playback off: the operation is appended,
and when the count then exceeds the budget the whole queue is flushed normally. -/
theorem stateOp_deferred (s : SkLightDeferredCanvas) (c : Cmd)
    (hdef : s.fDeferredDrawing = true) (hts : s.device.fThreadSafePlayback = false) :
    (s.stateOp c).fDeferredDrawing = true
      ∧ (s.stateOp c).device.fThreadSafePlayback = false
      ∧ (s.stateOp c).device.fMaxRecordingCommands = s.device.fMaxRecordingCommands
      ∧ (s.device.fRecorder.queue.length + 1 ≤ s.device.fMaxRecordingCommands →
          (s.stateOp c).device.fRecorder.queue = s.device.fRecorder.queue ++ [c]
          ∧ replays (s.stateOp c).device.trace = replays s.device.trace
          ∧ primaryOps (s.stateOp c).device.trace = primaryOps s.device.trace)
      ∧ (s.device.fMaxRecordingCommands < s.device.fRecorder.queue.length + 1 →
          (s.stateOp c).device.fRecorder.queue = []
          ∧ replays (s.stateOp c).device.trace
              = replays s.device.trace ++ [(Target.immediate, s.device.fRecorder.queue ++ [c])]
          ∧ primaryOps (s.stateOp c).device.trace
              = primaryOps s.device.trace ++ (s.device.fRecorder.queue ++ [c])) := by
  have hts1 : (s.device.recordCommand c).fThreadSafePlayback = false := by
    simpa [recordCommand] using hts
  by_cases hb : s.device.fRecorder.queue.length + 1 ≤ s.device.fMaxRecordingCommands
  · have hw := recordedDrawCommand_within (s.device.recordCommand c)
      (by simpa [recordCommand, SkRecordQueue.record] using hb)
    simp only [stateOp, hdef, ite_true, record, recordedDrawCommand, inherited, hw]
    have hnb : ¬ s.device.fMaxRecordingCommands < s.device.fRecorder.queue.length + 1 := by
      omega
    split <;>
      simp [hb, hnb, hts, recordCommand, SkRecordQueue.record, replays_append,
        primaryOps_append, replays, primaryOps, Event.primaryOps]
  · have hnb : s.device.fMaxRecordingCommands < s.device.fRecorder.queue.length + 1 := by
      omega
    have hf := flushPendingCommands_normal_eq (s.device.recordCommand c) hts1
    simp only [stateOp, hdef, ite_true, record, recordedDrawCommand, inherited,
      SkLightDeferredDevice.recordedDrawCommand, commandsAllocatedForRecording,
      SkRecordQueue.storageAllocatedForRecordingCommands]
    have hlen : (s.device.recordCommand c).fRecorder.queue.length
        > (s.device.recordCommand c).fMaxRecordingCommands := by
      simpa [recordCommand, SkRecordQueue.record] using hnb
    simp only [hlen, ite_true, hf]
    cases hc : s.device.fNotificationClient <;> cases hd : s.device.fCanDiscardCanvasContents <;>
    cases hs : s.device.fSurface <;>
      simp [hb, hnb, hts, hc, hd, hs, recordCommand, SkRecordQueue.record, replays_append,
        primaryOps_append, replays, primaryOps, Event.primaryOps, emit]

theorem callAll_nil (s : SkLightDeferredCanvas) : s.callAll [] = s := rfl

theorem callAll_cons (s : SkLightDeferredCanvas) (c : Cmd) (rest : List Cmd) :
    s.callAll (c :: rest) = (s.call c).callAll rest := rfl

theorem callAll_append (s : SkLightDeferredCanvas) (a b : List Cmd) :
    s.callAll (a ++ b) = (s.callAll a).callAll b := by
  simp [callAll, List.foldl_append]

theorem noOcclusion_append (s : SkLightDeferredCanvas) (a b : List Cmd) :
    s.noOcclusion (a ++ b) = (s.noOcclusion a && (s.callAll a).noOcclusion b) := by
  induction a generalizing s with
  | nil => simp [noOcclusion, callAll_nil]
  | cons c rest ih => simp [noOcclusion, callAll_cons, ih, Bool.and_assoc]

/-- While the budget is not exceeded, calls that do not occlude pile up in the queue and
nothing is replayed. -/
theorem callAll_within (calls : List Cmd) (s : SkLightDeferredCanvas)
    (hdef : s.fDeferredDrawing = true) (hts : s.device.fThreadSafePlayback = false)
    (hb : s.device.fRecorder.queue.length + calls.length ≤ s.device.fMaxRecordingCommands)
    (hno : s.noOcclusion calls = true) :
    (s.callAll calls).fDeferredDrawing = true
      ∧ (s.callAll calls).device.fThreadSafePlayback = false
      ∧ (s.callAll calls).device.fMaxRecordingCommands = s.device.fMaxRecordingCommands
      ∧ (s.callAll calls).device.fRecorder.queue = s.device.fRecorder.queue ++ calls.map issued
      ∧ replays (s.callAll calls).device.trace = replays s.device.trace
      ∧ primaryOps (s.callAll calls).device.trace = primaryOps s.device.trace := by
  induction calls generalizing s with
  | nil => simp [callAll_nil, hdef, hts]
  | cons c rest ih =>
    simp only [noOcclusion, Bool.and_eq_true, Bool.not_eq_true'] at hno
    obtain ⟨hc, hrest⟩ := hno
    have hstep := stateOp_deferred s (issued c) hdef hts
    rw [← call_eq_stateOp s c hc] at hstep
    obtain ⟨h1, h2, h3, h4, -⟩ := hstep
    simp only [List.length_cons] at hb
    obtain ⟨h4a, h4b, h4c⟩ := h4 (by omega)
    have := ih (s.call c) h1 h2 (by rw [h3, h4a]; simp; omega) hrest
    obtain ⟨i1, i2, i3, i4, i5, i6⟩ := this
    rw [callAll_cons]
    refine ⟨i1, i2, by rw [i3, h3], by rw [i4, h4a]; simp, by rw [i5, h4b], by rw [i6, h4c]⟩

/-- Whatever the budget, calls that do not occlude keep the order: what has reached the
primary canvas followed by what is queued grows by exactly the operations issued. -/
theorem callAll_deferred (calls : List Cmd) (s : SkLightDeferredCanvas)
    (hdef : s.fDeferredDrawing = true) (hts : s.device.fThreadSafePlayback = false)
    (hno : s.noOcclusion calls = true) :
    (s.callAll calls).fDeferredDrawing = true
      ∧ (s.callAll calls).device.fThreadSafePlayback = false
      ∧ primaryOps (s.callAll calls).device.trace ++ (s.callAll calls).device.fRecorder.queue
          = primaryOps s.device.trace ++ s.device.fRecorder.queue ++ calls.map issued := by
  induction calls generalizing s with
  | nil => simp [callAll_nil, hdef, hts]
  | cons c rest ih =>
    simp only [noOcclusion, Bool.and_eq_true, Bool.not_eq_true'] at hno
    obtain ⟨hc, hrest⟩ := hno
    have hstep := stateOp_deferred s (issued c) hdef hts
    rw [← call_eq_stateOp s c hc] at hstep
    obtain ⟨h1, h2, -, h4, h5⟩ := hstep
    obtain ⟨i1, i2, i3⟩ := ih (s.call c) h1 h2 hrest
    rw [callAll_cons]
    refine ⟨i1, i2, ?_⟩
    rw [i3]
    by_cases hb : s.device.fRecorder.queue.length + 1 ≤ s.device.fMaxRecordingCommands
    · obtain ⟨a, -, b⟩ := h4 hb
      rw [a, b]; simp
    · obtain ⟨a, -, b⟩ := h5 (by omega)
      rw [a, b]; simp

/-- In immediate mode every call reaches the primary canvas at once, in order. -/
theorem callAll_immediate (calls : List Cmd) (s : SkLightDeferredCanvas)
    (himm : s.fDeferredDrawing = false) :
    (s.callAll calls).fDeferredDrawing = false
      ∧ (s.callAll calls).device.fRecorder.queue = s.device.fRecorder.queue
      ∧ primaryOps (s.callAll calls).device.trace
          = primaryOps s.device.trace ++ calls.map issued := by
  induction calls generalizing s with
  | nil => simp [callAll_nil, himm]
  | cons c rest ih =>
    have hstep : s.call c = _ :=
      (call_eq_stateOp s c (occludes_immediate s c himm)).trans
        (stateOp_immediate s (issued c) himm)
    have h1 : (s.call c).fDeferredDrawing = false := by rw [hstep]; exact himm
    obtain ⟨i1, i2, i3⟩ := ih (s.call c) h1
    rw [callAll_cons]
    refine ⟨i1, ?_, ?_⟩
    · rw [i2, hstep]; simp [drawImmediate]
    · rw [i3, hstep]; simp [drawImmediate, primaryOps_append, primaryOps, Event.primaryOps]

/-- What a Normal flush with thread-safe playback off adds to the primary canvas: the
queue. -/
theorem primaryOps_flushNormal (d : SkLightDeferredDevice)
    (hts : d.fThreadSafePlayback = false) :
    primaryOps (d.flushPendingCommands RecordPlaybackMode.kNormalPlayback_Mode).trace
      = primaryOps d.trace ++ d.fRecorder.queue := by
  rw [flushPendingCommands_normal_eq d hts]
  by_cases hq : d.fRecorder.queue = []
  · simp [hq]
  · cases hc : d.fNotificationClient <;> cases hd : d.fCanDiscardCanvasContents <;>
    cases hs : d.fSurface <;>
      simp [hq, hc, hd, hs, primaryOps_append, primaryOps, Event.primaryOps]


/-! ## Occlusion and the full-frame test -/

/-- C1 fails on the code: a translation by the surface width and a draw are pending
(deferred mode, thread-safe playback off, default budget, no open layer, wide-open clip).
Under the facade's current total matrix the rectangle [-100, 0] x [0, 100] is carried onto
the whole surface, and the paint is opaque, yet `isFullFrame` maps it with the matrix of
the immediate canvas, still the identity, and answers false: nothing is discarded and the
queue holds 3 commands afterwards. -/
theorem drawRect_covering_under_pending_translate :
    sampleTranslatedPending.fDeferredDrawing = true
      ∧ sampleTranslatedPending.device.fThreadSafePlayback = false
      ∧ 1 ≤ sampleTranslatedPending.device.fMaxRecordingCommands
      ∧ sampleTranslatedPending.device.fRecorder.isDrawingToLayer = false
      ∧ sampleTranslatedPending.device.fRecorder.queue
          = [Cmd.concat (SkMatrix.MakeTrans 100 0), Cmd.drawPoints 0 1 2 plainPaint]
      ∧ isPaintOpaque (some plainPaint) none = true
      ∧ sampleTranslatedPending.getTotalMatrix = SkMatrix.MakeTrans 100 0
      ∧ sampleTranslatedPending.getTotalMatrix.rectStaysRect = true
      ∧ sampleTranslatedPending.getTotalMatrix.mapRect shiftedSurface = wholeSurface
      ∧ sampleTranslatedPending.getDeviceSize = { fWidth := 100, fHeight := 100 }
      ∧ sampleTranslatedPending.getClipStack.quickContains wholeSurface = true
      ∧ sampleTranslatedPending.device.immediateCanvas.getTotalMatrix = SkMatrix.I
      ∧ sampleTranslatedPending.isFullFrame (some shiftedSurface) (some plainPaint) = false
      ∧ (sampleTranslatedPending.drawRect shiftedSurface plainPaint).device.fRecorder.queue
          = [Cmd.concat (SkMatrix.MakeTrans 100 0), Cmd.drawPoints 0 1 2 plainPaint,
             Cmd.drawRect shiftedSurface plainPaint] := by
  decide

/-- C2: in deferred mode with M pending commands and M+1 within the budget, `drawRect`
with a paint that has a mask filter or a path effect, or issued while the clip stack does
not contain the surface, discards nothing: the queue is the old one followed by the
rectangle (M+1 commands) and the calls made during it include no skipped notification. -/
theorem drawRect_conservative (s : SkLightDeferredCanvas) (rect : SkRect) (paint : SkPaint)
    (M : Nat)
    (hdef : s.fDeferredDrawing = true)
    (hM : s.device.fRecorder.queue.length = M)
    (hb : M + 1 ≤ s.device.fMaxRecordingCommands)
    (h : paint.maskFilter = true ∨ paint.pathEffect = true
          ∨ s.getClipStack.quickContains
              (SkRect.MakeXYWH 0 0 (SkIntToScalar s.getDeviceSize.fWidth)
                (SkIntToScalar s.getDeviceSize.fHeight)) = false) :
    (s.drawRect rect paint).device.fRecorder.queue
        = s.device.fRecorder.queue ++ [Cmd.drawRect rect paint]
      ∧ (s.drawRect rect paint).device.fRecorder.queue.length = M + 1
      ∧ ∃ sent, (s.drawRect rect paint).device.trace = s.device.trace ++ sent
          ∧ Event.notify Notification.skippedPendingDrawCommands ∉ sent := by
  have hff : s.isFullFrame (some rect) (some paint) = false := by
    unfold isFullFrame
    rcases h with h | h | h
    · simp [h]
    · simp [h]
    · simp only [h]
      split <;> simp
  unfold drawRect
  simp only [hdef, hff, Bool.and_false, Bool.false_and, Bool.false_eq_true, ite_false, ite_true,
    guardedDraw_eq, record, recordCommand, SkRecordQueue.record, recordedDrawCommand]
  rw [recordedDrawCommand_within _ (by simpa [hM] using hb)]
  split
  · refine ⟨rfl, by simp [hM], _, rfl, by simp⟩
  · refine ⟨rfl, by simp [hM], [], by simp, by simp⟩

/-- C2 at work: a clip to a quarter of the surface is pending, then the whole-surface
rectangle is drawn. -/
theorem drawRect_conservative_witness :
    (sampleClipped.device.fRecorder.queue.length = 1
      ∧ sampleClipped.getClipStack.quickContains (SkRect.MakeXYWH 0 0
          (SkIntToScalar sampleClipped.getDeviceSize.fWidth)
          (SkIntToScalar sampleClipped.getDeviceSize.fHeight)) = false)
    ∧ ((sampleClipped.drawRect wholeSurface plainPaint).device.fRecorder.queue
          = sampleClipped.device.fRecorder.queue ++ [Cmd.drawRect wholeSurface plainPaint]
      ∧ (sampleClipped.drawRect wholeSurface plainPaint).device.fRecorder.queue.length = 1 + 1
      ∧ ∃ sent, (sampleClipped.drawRect wholeSurface plainPaint).device.trace
            = sampleClipped.device.trace ++ sent
          ∧ Event.notify Notification.skippedPendingDrawCommands ∉ sent) :=
  ⟨by decide, drawRect_conservative sampleClipped wholeSurface plainPaint 1 (by decide)
    (by decide) (by decide) (Or.inr (Or.inr (by decide)))⟩

/-- C3 fails on the code: the four comparisons of `isFullFrame` are float comparisons
against `SkIntToScalar` of the surface size.  On a surface 2^24 + 1 pixels wide the width
converts to 2^24, so a rectangle whose right edge is 2^24, one pixel short of the surface,
passes the test, and `drawRect` discards the pending draw.  A rectangle with a NaN edge
fails none of the comparisons either: the test answers true and the pending draw is
discarded. -/
theorem isFullFrame_accepts_uncovered :
    (sampleWide.getDeviceSize = { fWidth := 16777217, fHeight := 1 }
      ∧ SkIntToScalar 16777217 = SkScalar.num 16777216
      ∧ sampleWide.device.immediateCanvas.getTotalMatrix.rectStaysRect = true
      ∧ sampleWide.device.immediateCanvas.getTotalMatrix.mapRect almostWide = almostWide
      ∧ almostWide.fRight = SkScalar.num 16777216
      ∧ sampleWide.isFullFrame (some almostWide) (some plainPaint) = true
      ∧ sampleWide.device.fRecorder.queue = [Cmd.drawPoints 0 1 2 plainPaint]
      ∧ (sampleWide.drawRect almostWide plainPaint).device.fRecorder.queue
          = [Cmd.drawRect almostWide plainPaint])
    ∧ (samplePending.getDeviceSize = { fWidth := 100, fHeight := 100 }
      ∧ (samplePending.device.immediateCanvas.getTotalMatrix.mapRect nanRect).fLeft
          = SkScalar.nan
      ∧ samplePending.isFullFrame (some nanRect) (some plainPaint) = true
      ∧ samplePending.device.fRecorder.queue = [Cmd.drawPoints 0 1 2 plainPaint]
      ∧ (samplePending.drawRect nanRect plainPaint).device.fRecorder.queue
          = [Cmd.drawRect nanRect plainPaint]) := by
  decide

/-- C4 fails on the code: with a translation by the surface width recorded and still
pending, the facade's current total matrix (and the matrix the immediate canvas will have
once the queue is replayed) maps the whole-surface rectangle off the surface, yet
`isFullFrame` consults the immediate canvas, whose matrix is still the identity, answers
true, and `drawRect` discards the pending translation. -/
theorem drawRect_ignores_pending_transform :
    sampleTranslated.fDeferredDrawing = true
      ∧ sampleTranslated.device.fRecorder.queue = [Cmd.concat (SkMatrix.MakeTrans 100 0)]
      ∧ sampleTranslated.getTotalMatrix = SkMatrix.MakeTrans 100 0
      ∧ (sampleTranslated.device.fImmediateCanvas.execAll
            sampleTranslated.device.fRecorder.queue).getTotalMatrix = SkMatrix.MakeTrans 100 0
      ∧ sampleTranslated.getTotalMatrix.mapRect wholeSurface
          = { fLeft := 100, fTop := 0, fRight := 200, fBottom := 100 }
      ∧ sampleTranslated.device.immediateCanvas.getTotalMatrix = SkMatrix.I
      ∧ sampleTranslated.isFullFrame (some wholeSurface) (some plainPaint) = true
      ∧ (sampleTranslated.drawRect wholeSurface plainPaint).device.fRecorder.queue
          = [Cmd.drawRect wholeSurface plainPaint] := by
  decide

/-- C5 fails on the code: with a rectangle supplied, a paint with a mask filter makes
`isFullFrame` answer false, but with no rectangle supplied (`drawPaint`, which still
passes its paint) the paint is never examined: the test answers true under a wide-open
clip, and `drawPaint` with the mask-filter paint discards the pending draw. -/
theorem drawPaint_maskFilter_discards :
    maskPaint.maskFilter = true
      ∧ samplePending.fDeferredDrawing = true
      ∧ samplePending.device.fRecorder.queue = [Cmd.drawPoints 0 1 2 plainPaint]
      ∧ samplePending.isFullFrame (some wholeSurface) (some maskPaint) = false
      ∧ samplePending.isFullFrame none (some maskPaint) = true
      ∧ (samplePending.drawPaint maskPaint).device.fRecorder.queue
          = [Cmd.drawPaint maskPaint] := by
  decide

/-! ## Budget and ordering -/

/-- C6, the claim as written fails: with thread-safe playback on, a budget of one command
and an empty queue in deferred mode, two draws that do not occlude are recorded; the
second exceeds the budget and the Normal flush runs, but in thread-safe mode that flush
keeps the queue for the two-phase protocol: both draws are still queued and nothing has
been replayed on either canvas. -/
theorem budget_exceeded_threadSafe_keeps_queue :
    sampleBudgetOneThreadSafe.fDeferredDrawing = true
      ∧ sampleBudgetOneThreadSafe.device.fThreadSafePlayback = true
      ∧ sampleBudgetOneThreadSafe.device.fMaxRecordingCommands = 1
      ∧ sampleBudgetOneThreadSafe.device.fRecorder.queue = []
      ∧ sampleTwoDraws.length = 1 + 1
      ∧ sampleBudgetOneThreadSafe.noOcclusion sampleTwoDraws = true
      ∧ (sampleBudgetOneThreadSafe.callAll sampleTwoDraws).device.fRecorder.queue
          = sampleTwoDraws
      ∧ replays (sampleBudgetOneThreadSafe.callAll sampleTwoDraws).device.trace = [] := by
  decide

/-- C6, as amended: with budget K, thread-safe playback off and an empty queue in deferred
mode, record K+1 commands none of which occludes.  After each of the first K the queue holds
exactly the commands recorded so far and nothing has been replayed; the (K+1)-th triggers
the one Normal flush, which replays all K+1 commands against the primary canvas in order
and leaves the queue empty. -/
theorem budget_autoflush (s : SkLightDeferredCanvas) (K : Nat) (calls : List Cmd)
    (hdef : s.fDeferredDrawing = true)
    (hts : s.device.fThreadSafePlayback = false)
    (hq : s.device.fRecorder.queue = [])
    (hK : s.device.fMaxRecordingCommands = K)
    (hlen : calls.length = K + 1)
    (hno : s.noOcclusion calls = true) :
    (∀ n, n ≤ K →
        (s.callAll (calls.take n)).device.fRecorder.queue = (calls.take n).map issued
        ∧ replays (s.callAll (calls.take n)).device.trace = replays s.device.trace)
      ∧ (s.callAll calls).device.fRecorder.queue = []
      ∧ replays (s.callAll calls).device.trace
          = replays s.device.trace ++ [(Target.immediate, calls.map issued)] := by
  have hsplit : ∀ n, s.noOcclusion (calls.take n) = true
      ∧ (s.callAll (calls.take n)).noOcclusion (calls.drop n) = true := by
    intro n
    have := noOcclusion_append s (calls.take n) (calls.drop n)
    rw [List.take_append_drop, hno] at this
    simpa using this.symm
  have hpre : ∀ n, n ≤ K →
      (s.callAll (calls.take n)).fDeferredDrawing = true
      ∧ (s.callAll (calls.take n)).device.fThreadSafePlayback = false
      ∧ (s.callAll (calls.take n)).device.fMaxRecordingCommands = K
      ∧ (s.callAll (calls.take n)).device.fRecorder.queue = (calls.take n).map issued
      ∧ replays (s.callAll (calls.take n)).device.trace = replays s.device.trace := by
    intro n hn
    have hl : (calls.take n).length = n := by simp [hlen]; omega
    obtain ⟨a, b, c, d, e, -⟩ := callAll_within (calls.take n) s hdef hts
      (by rw [hq, hK, hl]; simpa using hn) (hsplit n).1
    exact ⟨a, b, by rw [c, hK], by rw [d, hq]; simp, e⟩
  refine ⟨fun n hn => ⟨(hpre n hn).2.2.2.1, (hpre n hn).2.2.2.2⟩, ?_⟩
  obtain ⟨p1, p2, p3, p4, p5⟩ := hpre K (Nat.le_refl K)
  have hdrop : ∃ c, calls.drop K = [c] := by
    have hl : (calls.drop K).length = 1 := by simp [hlen]
    exact List.length_eq_one.mp hl
  obtain ⟨c, hc⟩ := hdrop
  have hcalls : calls = calls.take K ++ [c] := by
    rw [← hc, List.take_append_drop]
  have hoc : (s.callAll (calls.take K)).occludes c = false := by
    have := (hsplit K).2
    rw [hc] at this
    simpa [noOcclusion] using this
  have hstep := stateOp_deferred (s.callAll (calls.take K)) (issued c) p1 p2
  rw [← call_eq_stateOp _ c hoc] at hstep
  obtain ⟨-, -, -, -, h5⟩ := hstep
  have hlen2 : ((calls.take K).map issued).length = K := by simp [hlen]
  obtain ⟨a, b, -⟩ := h5 (by rw [p3, p4, hlen2]; omega)
  have hrun : s.callAll calls = (s.callAll (calls.take K)).call c := by
    conv_lhs => rw [hcalls]
    rw [callAll_append, callAll_cons, callAll_nil]
  rw [hrun, a, b, p5, p4]
  refine ⟨rfl, ?_⟩
  conv_rhs => rw [hcalls]
  simp

/-- The amended C6 at work: budget 1, two draws on the sample facade. -/
theorem budget_autoflush_witness :
    sampleBudgetOne.noOcclusion sampleTwoDraws = true
    ∧ ((∀ n, n ≤ 1 →
        (sampleBudgetOne.callAll (sampleTwoDraws.take n)).device.fRecorder.queue
          = (sampleTwoDraws.take n).map issued
        ∧ replays (sampleBudgetOne.callAll (sampleTwoDraws.take n)).device.trace
          = replays sampleBudgetOne.device.trace)
      ∧ (sampleBudgetOne.callAll sampleTwoDraws).device.fRecorder.queue = []
      ∧ replays (sampleBudgetOne.callAll sampleTwoDraws).device.trace
          = replays sampleBudgetOne.device.trace
            ++ [(Target.immediate, sampleTwoDraws.map issued)]) :=
  ⟨by decide, budget_autoflush sampleBudgetOne 1 sampleTwoDraws (by decide) (by decide)
    (by decide) (by decide) (by decide) (by decide)⟩

/-- C7, as amended: in deferred mode with thread-safe playback off, for every sequence of
drawing and state calls none of which reaches `skipPendingCommands()`, the operations the
primary canvas has received after a closing Normal flush are those it receives when the
facade is first switched to immediate mode and the same calls are issued: what it had
received before, the commands that were pending, then the operations of the calls, in
order and once each. -/
theorem order_preserved_without_occlusion (s : SkLightDeferredCanvas) (calls : List Cmd)
    (hdef : s.fDeferredDrawing = true)
    (hts : s.device.fThreadSafePlayback = false)
    (hno : s.noOcclusion calls = true) :
    primaryOps ((s.callAll calls).device.flushPendingCommands
        RecordPlaybackMode.kNormalPlayback_Mode).trace
      = primaryOps ((s.setDeferredDrawing false).callAll calls).device.trace
    ∧ primaryOps ((s.callAll calls).device.flushPendingCommands
        RecordPlaybackMode.kNormalPlayback_Mode).trace
      = primaryOps s.device.trace ++ s.device.fRecorder.queue ++ calls.map issued := by
  obtain ⟨-, d2, d3⟩ := callAll_deferred calls s hdef hts hno
  have hflush := primaryOps_flushNormal (s.callAll calls).device d2
  have hmode : s.setDeferredDrawing false
      = { s with
          device := (s.device.flushPendingCommands RecordPlaybackMode.kNormalPlayback_Mode),
          fDeferredDrawing := false } := by
    simp [setDeferredDrawing, hdef]
  obtain ⟨-, -, i3⟩ := callAll_immediate calls (s.setDeferredDrawing false)
    (by rw [hmode])
  have hstart : primaryOps (s.setDeferredDrawing false).device.trace
      = primaryOps s.device.trace ++ s.device.fRecorder.queue := by
    rw [hmode]; exact primaryOps_flushNormal s.device hts
  rw [hflush, d3, i3, hstart]
  exact ⟨rfl, rfl⟩

/-- The amended C7 at work: a save, a draw and a restore on the sample facade. -/
theorem order_preserved_without_occlusion_witness :
    sampleFacade.noOcclusion [Cmd.save, Cmd.drawPath 7 plainPaint, Cmd.restore] = true
    ∧ (primaryOps ((sampleFacade.callAll
          [Cmd.save, Cmd.drawPath 7 plainPaint, Cmd.restore]).device.flushPendingCommands
            RecordPlaybackMode.kNormalPlayback_Mode).trace
        = primaryOps ((sampleFacade.setDeferredDrawing false).callAll
            [Cmd.save, Cmd.drawPath 7 plainPaint, Cmd.restore]).device.trace
      ∧ primaryOps ((sampleFacade.callAll
          [Cmd.save, Cmd.drawPath 7 plainPaint, Cmd.restore]).device.flushPendingCommands
            RecordPlaybackMode.kNormalPlayback_Mode).trace
        = primaryOps sampleFacade.device.trace ++ sampleFacade.device.fRecorder.queue
            ++ [Cmd.save, Cmd.drawPath 7 plainPaint, Cmd.restore].map issued) :=
  ⟨by decide, order_preserved_without_occlusion sampleFacade
    [Cmd.save, Cmd.drawPath 7 plainPaint, Cmd.restore] (by decide) (by decide) (by decide)⟩

/-- C7 as stated fails: a draw followed by `clear`, then a Normal flush.  In deferred mode
the primary canvas receives only the clear; in immediate mode it receives both. -/
theorem order_not_preserved_by_clear :
    sampleFacade.fDeferredDrawing = true
      ∧ primaryOps ((sampleFacade.callAll
            [Cmd.drawPoints 0 1 2 plainPaint, Cmd.clear 0]).device.flushPendingCommands
              RecordPlaybackMode.kNormalPlayback_Mode).trace
          = [Cmd.clear 0]
      ∧ primaryOps ((sampleFacade.setDeferredDrawing false).callAll
            [Cmd.drawPoints 0 1 2 plainPaint, Cmd.clear 0]).device.trace
          = [Cmd.drawPoints 0 1 2 plainPaint, Cmd.clear 0] := by
  decide

end SkLightDeferredCanvas

/-! ## Flush policies -/

namespace SkLightDeferredDevice

/-- C8: Normal flush with thread-safe playback off and a client set.  On a non-empty
queue the calls made are, in this order and once each: the client's `prepareForDraw`,
(the surface's discard notice if the can-discard flag was up,) the replay of the whole
queue against the immediate canvas, the client's `flushedDrawCommands`; the queue is left
empty and the immediate canvas has executed the queue.  On an empty queue the device is
unchanged: no notification, nothing replayed. -/
theorem normalFlush_sequence (d : SkLightDeferredDevice) (client : NotificationClient)
    (hts : d.fThreadSafePlayback = false)
    (hc : d.fNotificationClient = some client) :
    (d.fRecorder.queue ≠ [] →
        (d.flushPendingCommands RecordPlaybackMode.kNormalPlayback_Mode).trace
          = d.trace ++ [Event.notify Notification.prepareForDraw]
              ++ (if d.fCanDiscardCanvasContents = true ∧ d.fSurface.isSome then
                    [Event.contentWillChange ContentChangeMode.kDiscard_ContentChangeMode]
                  else [])
              ++ [Event.replay Target.immediate d.fRecorder.queue]
              ++ [Event.notify Notification.flushedDrawCommands]
        ∧ (d.flushPendingCommands RecordPlaybackMode.kNormalPlayback_Mode).fRecorder.queue = []
        ∧ (d.flushPendingCommands RecordPlaybackMode.kNormalPlayback_Mode).fImmediateCanvas
            = d.fImmediateCanvas.execAll d.fRecorder.queue)
      ∧ (d.fRecorder.queue = [] →
          d.flushPendingCommands RecordPlaybackMode.kNormalPlayback_Mode = d) := by
  rw [flushPendingCommands_normal_eq d hts]
  constructor
  · intro hq
    simp [hq, hc]
  · intro hq
    simp [hq]

/-- C8 at work: the sample facade's device with a client and one pending draw. -/
theorem normalFlush_sequence_witness :
    (sampleWithClient.device.fRecorder.queue = [Cmd.drawPoints 0 1 2 plainPaint]
      ∧ sampleWithClient.device.fCanDiscardCanvasContents = false)
    ∧ ((sampleWithClient.device.flushPendingCommands
            RecordPlaybackMode.kNormalPlayback_Mode).trace
          = sampleWithClient.device.trace ++ [Event.notify Notification.prepareForDraw]
              ++ (if sampleWithClient.device.fCanDiscardCanvasContents = true
                      ∧ sampleWithClient.device.fSurface.isSome then
                    [Event.contentWillChange ContentChangeMode.kDiscard_ContentChangeMode]
                  else [])
              ++ [Event.replay Target.immediate sampleWithClient.device.fRecorder.queue]
              ++ [Event.notify Notification.flushedDrawCommands]
        ∧ (sampleWithClient.device.flushPendingCommands
            RecordPlaybackMode.kNormalPlayback_Mode).fRecorder.queue = []
        ∧ (sampleWithClient.device.flushPendingCommands
            RecordPlaybackMode.kNormalPlayback_Mode).fImmediateCanvas
            = sampleWithClient.device.fImmediateCanvas.execAll
                sampleWithClient.device.fRecorder.queue) :=
  ⟨by decide, (normalFlush_sequence sampleWithClient.device { contended := false } (by decide)
    (by decide)).1 (by decide)⟩

/-- C9: Silent flush with thread-safe playback off, whatever the queue.  The only call
it can make is the client's `skippedPendingDrawCommands`, made exactly when the queue was
non-empty and a client is set: no `prepareForDraw`, no `flushedDrawCommands`, nothing
delivered to the primary canvas, whose state is untouched; the queue is empty
afterwards. -/
theorem silentFlush_off (d : SkLightDeferredDevice) (hts : d.fThreadSafePlayback = false) :
    (d.flushPendingCommands RecordPlaybackMode.kSilentPlayback_Mode).trace
        = d.trace ++ (if d.fRecorder.queue ≠ [] ∧ d.fNotificationClient.isSome then
                        [Event.notify Notification.skippedPendingDrawCommands] else [])
      ∧ (d.flushPendingCommands RecordPlaybackMode.kSilentPlayback_Mode).fRecorder.queue = []
      ∧ primaryOps (d.flushPendingCommands RecordPlaybackMode.kSilentPlayback_Mode).trace
          = primaryOps d.trace
      ∧ (d.flushPendingCommands RecordPlaybackMode.kSilentPlayback_Mode).fImmediateCanvas
          = d.fImmediateCanvas := by
  rw [flushPendingCommands_silent_eq d hts]
  by_cases hq : d.fRecorder.queue = []
  · simp [hq]
  · cases hc : d.fNotificationClient <;>
      simp [hq, hc, primaryOps_append, primaryOps, Event.primaryOps]

/-- C9 at work: the sample device with a client and one pending draw. -/
theorem silentFlush_off_witness :
    sampleWithClient.device.fRecorder.queue ≠ []
    ∧ ((sampleWithClient.device.flushPendingCommands
          RecordPlaybackMode.kSilentPlayback_Mode).trace
        = sampleWithClient.device.trace
            ++ (if sampleWithClient.device.fRecorder.queue ≠ []
                    ∧ sampleWithClient.device.fNotificationClient.isSome then
                  [Event.notify Notification.skippedPendingDrawCommands] else [])
      ∧ (sampleWithClient.device.flushPendingCommands
          RecordPlaybackMode.kSilentPlayback_Mode).fRecorder.queue = []
      ∧ primaryOps (sampleWithClient.device.flushPendingCommands
          RecordPlaybackMode.kSilentPlayback_Mode).trace
          = primaryOps sampleWithClient.device.trace
      ∧ (sampleWithClient.device.flushPendingCommands
          RecordPlaybackMode.kSilentPlayback_Mode).fImmediateCanvas
          = sampleWithClient.device.fImmediateCanvas) :=
  ⟨by decide, silentFlush_off sampleWithClient.device (by decide)⟩

/-- C10: Silent flush with thread-safe playback on, a non-empty queue and a client whose
`tryLock` fails.  The device only asks for the lock and marks the queue as pending silent
flush: the queue, both canvases and every other member are as before, and the one call
made is the failed `tryLock` (no `unlock`, no skipped or flushed notification, no
replay). -/
theorem silentFlush_contended (d : SkLightDeferredDevice) (client : NotificationClient)
    (hts : d.fThreadSafePlayback = true)
    (hc : d.fNotificationClient = some client)
    (hbusy : client.contended = true)
    (hq : d.fRecorder.queue ≠ []) :
    d.flushPendingCommands RecordPlaybackMode.kSilentPlayback_Mode
        = { d with fRecorder := { d.fRecorder with fPendingSilentFlush := true },
                   trace := d.trace ++ [Event.notify (Notification.tryLock false)] }
      ∧ (d.flushPendingCommands RecordPlaybackMode.kSilentPlayback_Mode).fRecorder.queue
          = d.fRecorder.queue
      ∧ (d.flushPendingCommands
          RecordPlaybackMode.kSilentPlayback_Mode).fRecorder.fPendingSilentFlush = true := by
  have h : d.flushPendingCommands RecordPlaybackMode.kSilentPlayback_Mode
        = { d with fRecorder := { d.fRecorder with fPendingSilentFlush := true },
                   trace := d.trace ++ [Event.notify (Notification.tryLock false)] } := by
    unfold flushPendingCommands
    simp [hts, hc, hbusy, hq, SkRecordQueue.hasPendingCommands, emit,
      SkRecordQueue.markPendingCommandsForSilentFlush]
  rw [h]
  exact ⟨rfl, rfl, rfl⟩

/-- C10 at work: the sample device in thread-safe mode with a busy client and one
pending draw. -/
theorem silentFlush_contended_witness :
    sampleContended.device.fRecorder.queue ≠ []
    ∧ (sampleContended.device.flushPendingCommands RecordPlaybackMode.kSilentPlayback_Mode
        = { sampleContended.device with
              fRecorder := { sampleContended.device.fRecorder with
                               fPendingSilentFlush := true },
              trace := sampleContended.device.trace
                         ++ [Event.notify (Notification.tryLock false)] }
      ∧ (sampleContended.device.flushPendingCommands
          RecordPlaybackMode.kSilentPlayback_Mode).fRecorder.queue
          = sampleContended.device.fRecorder.queue
      ∧ (sampleContended.device.flushPendingCommands
          RecordPlaybackMode.kSilentPlayback_Mode).fRecorder.fPendingSilentFlush = true) :=
  ⟨by decide, silentFlush_contended sampleContended.device { contended := true } (by decide)
    (by decide) (by decide) (by decide)⟩

end SkLightDeferredDevice

/-! ## Auxiliary facts about locks, forwarding and routing -/

namespace SkLightDeferredDevice

/-- Silent flush in thread-safe mode when the client grants the lock, spelled out. -/
theorem flushPendingCommands_silent_locked_eq (d : SkLightDeferredDevice)
    (client : NotificationClient)
    (hts : d.fThreadSafePlayback = true)
    (hc : d.fNotificationClient = some client)
    (hfree : client.contended = false)
    (hq : d.fRecorder.queue ≠ []) :
    d.flushPendingCommands RecordPlaybackMode.kSilentPlayback_Mode
      = { d with
          fRecorder := { d.fRecorder with queue := [], fPendingSilentFlush := false,
                                          fSnapshotReady := false },
          fPreviousCommandsAllocated := 0,
          trace := d.trace ++ [Event.notify (Notification.tryLock true),
                               Event.silentDrain d.fRecorder.queue,
                               Event.notify Notification.unlock] } := by
  unfold flushPendingCommands
  simp [hts, hc, hfree, hq, SkRecordQueue.hasPendingCommands, emit, recorderFlush,
    SkRecordQueue.flushPendingCommands]

/-- The trace after a Normal flush in thread-safe mode. -/
theorem flushPendingCommands_normal_ts_trace (d : SkLightDeferredDevice)
    (hts : d.fThreadSafePlayback = true) :
    (d.flushPendingCommands RecordPlaybackMode.kNormalPlayback_Mode).trace
      = d.trace
        ++ (if d.fNotificationClient.isSome then
              [Event.notify Notification.prepareForImmediateDraw] else [])
        ++ (if d.fRecorder.queue = [] then []
            else
              (if d.fNotificationClient.isSome then [Event.notify Notification.prepareForDraw]
               else [])
              ++ (if d.fCanDiscardCanvasContents = true ∧ d.fSurface.isSome then
                    [Event.contentWillChange ContentChangeMode.kDiscard_ContentChangeMode]
                  else [])
              ++ (if d.fRecorder.fSnapshotReady then
                    [Event.replay Target.immediate d.fRecorder.queue]
                  else [])
              ++ (if d.fNotificationClient.isSome then
                    [Event.notify Notification.flushedDrawCommands]
                  else [])) := by
  unfold flushPendingCommands
  by_cases hq : d.fRecorder.queue = []
  · cases hc : d.fNotificationClient <;>
      simp [hts, hq, hc, SkRecordQueue.hasPendingCommands, emit]
  · cases hc : d.fNotificationClient <;> cases hd : d.fCanDiscardCanvasContents <;>
    cases hs : d.fSurface <;> cases hn : d.fRecorder.fSnapshotReady <;>
      simp [hts, hq, hc, hd, hs, hn, SkRecordQueue.hasPendingCommands, emit, aboutToDraw,
        recorderFlush, SkRecordQueue.flushPendingCommands, SkRecordQueue.setPlaybackCanvas]

/-- The trace after a Silent flush in thread-safe mode. -/
theorem flushPendingCommands_silent_ts_trace (d : SkLightDeferredDevice)
    (hts : d.fThreadSafePlayback = true) :
    (d.flushPendingCommands RecordPlaybackMode.kSilentPlayback_Mode).trace
      = d.trace
        ++ (if d.fRecorder.queue = [] then []
            else
              match d.fNotificationClient with
              | none => []
              | some client =>
                if client.contended then [Event.notify (Notification.tryLock false)]
                else [Event.notify (Notification.tryLock true),
                      Event.silentDrain d.fRecorder.queue,
                      Event.notify Notification.unlock]) := by
  unfold flushPendingCommands
  by_cases hq : d.fRecorder.queue = []
  · simp [hts, hq, SkRecordQueue.hasPendingCommands]
  · cases hc : d.fNotificationClient with
    | none => simp [hts, hq, hc, SkRecordQueue.hasPendingCommands]
    | some client =>
      cases hb : client.contended <;>
        simp [hts, hq, hc, hb, SkRecordQueue.hasPendingCommands, emit, recorderFlush,
          SkRecordQueue.flushPendingCommands]

/-- What any flush adds to the trace: nothing sent straight to the immediate canvas, and
as far as the lock goes nothing, a failed `tryLock`, or a granted `tryLock` followed by
`unlock`. -/
theorem flushPendingCommands_sent (d : SkLightDeferredDevice) (mode : RecordPlaybackMode) :
    ∃ sent, (d.flushPendingCommands mode).trace = d.trace ++ sent
      ∧ forwards sent = []
      ∧ (lockCalls sent = []
          ∨ lockCalls sent = [Notification.tryLock false]
          ∨ lockCalls sent = [Notification.tryLock true, Notification.unlock]) := by
  cases hts : d.fThreadSafePlayback <;> cases mode
  · rw [flushPendingCommands_normal_eq d hts]
    by_cases hq : d.fRecorder.queue = []
    · exact ⟨[], by simp [hq], rfl, Or.inl rfl⟩
    · refine ⟨_, by simp only [hq, ite_false, List.append_assoc]; rfl, ?_, ?_⟩ <;>
      cases hc : d.fNotificationClient <;> cases hd : d.fCanDiscardCanvasContents <;>
      cases hs : d.fSurface <;> simp [forwards, lockCalls]
  · rw [flushPendingCommands_silent_eq d hts]
    by_cases hq : d.fRecorder.queue = []
    · exact ⟨[], by simp [hq], rfl, Or.inl rfl⟩
    · refine ⟨_, by simp only [hq, ite_false]; rfl, ?_, ?_⟩ <;>
      cases hc : d.fNotificationClient <;> simp [forwards, lockCalls]
  · refine ⟨_, by rw [flushPendingCommands_normal_ts_trace d hts, List.append_assoc],
      ?_, ?_⟩ <;>
    cases hc : d.fNotificationClient <;> cases hd : d.fCanDiscardCanvasContents <;>
    cases hs : d.fSurface <;> cases hn : d.fRecorder.fSnapshotReady <;>
    by_cases hq : d.fRecorder.queue = [] <;> simp [forwards, lockCalls, hq]
  · refine ⟨_, flushPendingCommands_silent_ts_trace d hts, ?_, ?_⟩
    · by_cases hq : d.fRecorder.queue = []
      · simp [hq, forwards]
      · cases hc : d.fNotificationClient with
        | none => simp [hq, forwards]
        | some client => cases hb : client.contended <;> simp [hq, hb, forwards]
    · by_cases hq : d.fRecorder.queue = []
      · simp [hq, lockCalls]
      · cases hc : d.fNotificationClient with
        | none => simp [hq, lockCalls]
        | some client => cases hb : client.contended <;> simp [hq, hb, lockCalls]

end SkLightDeferredDevice

theorem forwards_append (a b : List Event) : forwards (a ++ b) = forwards a ++ forwards b := by
  simp [forwards]

theorem forwards_notify (n : Notification) : forwards [Event.notify n] = [] := rfl

namespace SkLightDeferredDevice

/-- No flush sends anything straight to the immediate canvas. -/
theorem forwards_flushPendingCommands (d : SkLightDeferredDevice)
    (mode : RecordPlaybackMode) :
    forwards (d.flushPendingCommands mode).trace = forwards d.trace := by
  obtain ⟨sent, h, hf, -⟩ := flushPendingCommands_sent d mode
  rw [h, forwards_append, hf, List.append_nil]

/-- The post-append hook sends nothing straight to the immediate canvas. -/
theorem forwards_recordedDrawCommand (d : SkLightDeferredDevice) :
    forwards d.recordedDrawCommand.trace = forwards d.trace := by
  unfold recordedDrawCommand
  simp only []
  split <;> split <;>
    simp [emit, forwards_append, forwards_flushPendingCommands, forwards_notify]

/-- Skipping sends nothing straight to the immediate canvas. -/
theorem forwards_skipPendingCommands (d : SkLightDeferredDevice) :
    forwards d.skipPendingCommands.trace = forwards d.trace := by
  unfold skipPendingCommands
  simp only []
  split
  · split
    · split <;> simp [emit, forwards_append, forwards_flushPendingCommands, forwards_notify]
    · rfl
  · rfl

end SkLightDeferredDevice

namespace SkLightDeferredCanvas

/-- Every call is: reach `skipPendingCommands()` if its guard says so, then the plain
routing of the operation it issues. -/
theorem call_eq (s : SkLightDeferredCanvas) (c : Cmd) :
    s.call c = (if s.occludes c then s.skipPendingCommands else s).stateOp (issued c) := by
  cases h : s.occludes c
  · rw [call_eq_stateOp s c h]; simp
  · cases c
    case clear color =>
      simp only [occludes] at h
      simp [call, clear, h, issued, stateOp, inherited, SkCanvas.exec, skipPendingCommands]
    case drawPaint paint =>
      simp only [occludes] at h
      simp only [call, drawPaint, h]
      simp [issued, guardedDraw_eq, stateOp, inherited, SkCanvas.exec]
    case drawRect rect paint =>
      simp only [occludes] at h
      simp only [call, drawRect, h]
      simp [issued, guardedDraw_eq, stateOp, inherited, SkCanvas.exec]
    case drawRRect rrect paint =>
      simp only [occludes] at h
      have hr : rrect.isRect = true := by
        simp only [Bool.and_eq_true] at h; exact h.1
      have h2 := h
      simp only [hr, Bool.true_and] at h2
      simp only [call, drawRRect, hr, drawRect, h2]
      simp [issued, hr, guardedDraw_eq, stateOp, inherited, SkCanvas.exec]
    case drawBitmap bitmap left top paint =>
      simp only [occludes] at h
      simp only [call, drawBitmap, h]
      simp [issued, guardedDraw_eq, stateOp, inherited, SkCanvas.exec]
    case drawBitmapRectToRect bitmap src dst paint flags =>
      simp only [occludes] at h
      simp only [call, drawBitmapRectToRect, h]
      simp [issued, guardedDraw_eq, stateOp, inherited, SkCanvas.exec]
    case drawSprite bitmap left top paint =>
      simp only [occludes] at h
      simp only [call, drawSprite, h]
      simp [issued, guardedDraw_eq, stateOp, inherited, SkCanvas.exec]
    all_goals simp [occludes] at h

/-- The plain routing keeps the mode. -/
theorem stateOp_mode (s : SkLightDeferredCanvas) (c : Cmd) :
    (s.stateOp c).fDeferredDrawing = s.fDeferredDrawing := by
  cases h : s.fDeferredDrawing <;>
    simp [stateOp, h, record, immediate, recordedDrawCommand, inherited]

/-- Appending within the budget in deferred mode, whatever the playback mode: the queue
grows by the operation and nothing is replayed. -/
theorem stateOp_deferred_within (s : SkLightDeferredCanvas) (c : Cmd)
    (hdef : s.fDeferredDrawing = true)
    (hb : s.device.fRecorder.queue.length + 1 ≤ s.device.fMaxRecordingCommands) :
    (s.stateOp c).device.fRecorder.queue = s.device.fRecorder.queue ++ [c]
      ∧ replays (s.stateOp c).device.trace = replays s.device.trace
      ∧ primaryOps (s.stateOp c).device.trace = primaryOps s.device.trace := by
  have hw := recordedDrawCommand_within (s.device.recordCommand c)
    (by simpa [recordCommand, SkRecordQueue.record] using hb)
  simp only [stateOp, hdef, ite_true, record, recordedDrawCommand, inherited, hw]
  split <;>
    simp [recordCommand, SkRecordQueue.record, replays_append, primaryOps_append, replays,
      primaryOps, Event.primaryOps]

end SkLightDeferredCanvas

/-! ## Lock discipline and idempotent discard -/

namespace SkLightDeferredDevice

/-- What any flush adds to the trace, as far as the lock goes. -/
theorem flushPendingCommands_lockProtocol (d : SkLightDeferredDevice)
    (mode : RecordPlaybackMode) :
    ∃ sent, (d.flushPendingCommands mode).trace = d.trace ++ sent
      ∧ lockProtocol sent
          = (if d.fThreadSafePlayback = true
                ∧ mode = RecordPlaybackMode.kSilentPlayback_Mode
                ∧ d.fRecorder.queue ≠ [] then
              match d.fNotificationClient with
              | none => []
              | some client =>
                if client.contended then [Event.notify (Notification.tryLock false)]
                else [Event.notify (Notification.tryLock true),
                      Event.silentDrain d.fRecorder.queue,
                      Event.notify Notification.unlock]
             else []) := by
  cases hts : d.fThreadSafePlayback <;> cases mode
  · rw [flushPendingCommands_normal_eq d hts]
    by_cases hq : d.fRecorder.queue = []
    · exact ⟨[], by simp [hq], by simp [lockProtocol]⟩
    · refine ⟨_, by simp only [hq, ite_false, List.append_assoc]; rfl, ?_⟩
      cases hc : d.fNotificationClient <;> cases hd : d.fCanDiscardCanvasContents <;>
      cases hs : d.fSurface <;> simp [lockProtocol]
  · rw [flushPendingCommands_silent_eq d hts]
    by_cases hq : d.fRecorder.queue = []
    · exact ⟨[], by simp [hq], by simp [lockProtocol]⟩
    · refine ⟨_, by simp only [hq, ite_false]; rfl, ?_⟩
      cases hc : d.fNotificationClient <;> simp [lockProtocol]
  · refine ⟨_, by rw [flushPendingCommands_normal_ts_trace d hts, List.append_assoc], ?_⟩
    cases hc : d.fNotificationClient <;> cases hd : d.fCanDiscardCanvasContents <;>
    cases hs : d.fSurface <;> cases hn : d.fRecorder.fSnapshotReady <;>
    by_cases hq : d.fRecorder.queue = [] <;> simp [lockProtocol, hq]
  · refine ⟨_, flushPendingCommands_silent_ts_trace d hts, ?_⟩
    by_cases hq : d.fRecorder.queue = []
    · simp [hq, lockProtocol]
    · cases hc : d.fNotificationClient with
      | none => simp [hq, lockProtocol]
      | some client => cases hb : client.contended <;> simp [hq, hb, lockProtocol]

/-- C11: lock discipline of `flushPendingCommands`.  In every execution, whatever the
state and the mode, the flush touches the lock only when thread-safe playback is on, the
flush is silent, the queue is non-empty and a client is set: then it makes one `tryLock`;
refused, nothing follows; granted, the recorder drains the whole queue and after that
`unlock` is called, once.  On the granted path the flush adds exactly these three entries
to the trace, in this order, nothing is replayed and the queue is empty afterwards. -/
theorem lock_discipline (d : SkLightDeferredDevice) (mode : RecordPlaybackMode) :
    (∃ sent, (d.flushPendingCommands mode).trace = d.trace ++ sent
        ∧ lockProtocol sent
            = (if d.fThreadSafePlayback = true
                  ∧ mode = RecordPlaybackMode.kSilentPlayback_Mode
                  ∧ d.fRecorder.queue ≠ [] then
                match d.fNotificationClient with
                | none => []
                | some client =>
                  if client.contended then [Event.notify (Notification.tryLock false)]
                  else [Event.notify (Notification.tryLock true),
                        Event.silentDrain d.fRecorder.queue,
                        Event.notify Notification.unlock]
               else []))
      ∧ (∀ client : NotificationClient,
          d.fThreadSafePlayback = true → mode = RecordPlaybackMode.kSilentPlayback_Mode →
          d.fNotificationClient = some client → client.contended = false →
          d.fRecorder.queue ≠ [] →
          (d.flushPendingCommands mode).trace
              = d.trace ++ [Event.notify (Notification.tryLock true),
                            Event.silentDrain d.fRecorder.queue,
                            Event.notify Notification.unlock]
            ∧ (d.flushPendingCommands mode).fRecorder.queue = []
            ∧ replays (d.flushPendingCommands mode).trace = replays d.trace) := by
  refine ⟨flushPendingCommands_lockProtocol d mode, ?_⟩
  intro client hts hmode hc hfree hq
  subst hmode
  rw [flushPendingCommands_silent_locked_eq d client hts hc hfree hq]
  exact ⟨rfl, rfl, by simp [replays_append, replays]⟩

/-- C11 at work: the sample device in thread-safe mode with a free lock and one pending
draw. -/
theorem lock_discipline_witness :
    sampleLockFree.device.fRecorder.queue = [Cmd.drawPoints 0 1 2 plainPaint]
    ∧ ((sampleLockFree.device.flushPendingCommands
            RecordPlaybackMode.kSilentPlayback_Mode).trace
          = sampleLockFree.device.trace
              ++ [Event.notify (Notification.tryLock true),
                  Event.silentDrain sampleLockFree.device.fRecorder.queue,
                  Event.notify Notification.unlock]
        ∧ (sampleLockFree.device.flushPendingCommands
            RecordPlaybackMode.kSilentPlayback_Mode).fRecorder.queue = []
        ∧ replays (sampleLockFree.device.flushPendingCommands
            RecordPlaybackMode.kSilentPlayback_Mode).trace
            = replays sampleLockFree.device.trace) :=
  ⟨by decide, (lock_discipline sampleLockFree.device
      RecordPlaybackMode.kSilentPlayback_Mode).2 { contended := false } (by decide) rfl
      (by decide) (by decide) (by decide)⟩

end SkLightDeferredDevice

namespace SkLightDeferredCanvas

/-- C12, as amended: with thread-safe playback off, for every device state, a second
`skipPendingCommands` right after the first, or a second silent flush (`silentFlush`)
right after the first, changes nothing: same device state, same trace, so no further
skipped notification.  The queue is empty after a silent flush, and after
`skipPendingCommands` whenever the recorder is not drawing to a layer. -/
theorem discard_idempotent (s : SkLightDeferredCanvas)
    (hts : s.device.fThreadSafePlayback = false) :
    s.device.skipPendingCommands.skipPendingCommands = s.device.skipPendingCommands
      ∧ (s.device.flushPendingCommands
            RecordPlaybackMode.kSilentPlayback_Mode).flushPendingCommands
            RecordPlaybackMode.kSilentPlayback_Mode
          = s.device.flushPendingCommands RecordPlaybackMode.kSilentPlayback_Mode
      ∧ s.silentFlush.silentFlush = s.silentFlush
      ∧ (s.device.flushPendingCommands
            RecordPlaybackMode.kSilentPlayback_Mode).fRecorder.queue = []
      ∧ (s.device.fRecorder.isDrawingToLayer = false →
            s.device.skipPendingCommands.fRecorder.queue = []) := by
  have hflush : ∀ d : SkLightDeferredDevice, d.fThreadSafePlayback = false →
      (d.flushPendingCommands RecordPlaybackMode.kSilentPlayback_Mode).flushPendingCommands
          RecordPlaybackMode.kSilentPlayback_Mode
        = d.flushPendingCommands RecordPlaybackMode.kSilentPlayback_Mode
      ∧ (d.flushPendingCommands RecordPlaybackMode.kSilentPlayback_Mode).fRecorder.queue
          = [] := by
    intro d hd
    have h1 := flushPendingCommands_silent_eq d hd
    by_cases hq : d.fRecorder.queue = []
    · simp only [hq, ite_true] at h1
      rw [h1, h1]
      exact ⟨rfl, hq⟩
    · simp only [hq, ite_false] at h1
      rw [h1]
      refine ⟨?_, rfl⟩
      rw [flushPendingCommands_silent_eq _ (by simpa using hd)]
      simp
  refine ⟨?_, (hflush s.device hts).1, ?_, (hflush s.device hts).2, ?_⟩
  · cases hl : s.device.fRecorder.isDrawingToLayer
    · have h1 := skipPendingCommands_eq s.device hts hl
      by_cases hq : s.device.fRecorder.queue = []
      · simp only [hq, ite_true] at h1
        rw [h1, skipPendingCommands_eq _ (by simpa using hts) (by simpa using hl)]
        simp [hq]
      · simp only [hq, ite_false] at h1
        rw [h1, skipPendingCommands_eq _ (by simpa using hts)
          (by simpa [SkRecordQueue.isDrawingToLayer] using hl)]
        simp
    · rw [skipPendingCommands_inLayer s.device hl,
        skipPendingCommands_inLayer _ (by simpa using hl)]
  · cases hd : s.fDeferredDrawing
    · simp [silentFlush, hd]
    · simp [silentFlush, hd, (hflush s.device hts).1]
  · intro hl
    rw [skipPendingCommands_eq s.device hts hl]
    by_cases hq : s.device.fRecorder.queue = [] <;> simp [hq]

/-- The amended C12 at work: the sample facade with a client and one pending draw. -/
theorem discard_idempotent_witness :
    sampleWithClient.device.fRecorder.queue ≠ []
    ∧ (sampleWithClient.device.skipPendingCommands.skipPendingCommands
          = sampleWithClient.device.skipPendingCommands
      ∧ (sampleWithClient.device.flushPendingCommands
            RecordPlaybackMode.kSilentPlayback_Mode).flushPendingCommands
            RecordPlaybackMode.kSilentPlayback_Mode
          = sampleWithClient.device.flushPendingCommands
              RecordPlaybackMode.kSilentPlayback_Mode
      ∧ sampleWithClient.silentFlush.silentFlush = sampleWithClient.silentFlush
      ∧ (sampleWithClient.device.flushPendingCommands
            RecordPlaybackMode.kSilentPlayback_Mode).fRecorder.queue = []
      ∧ (sampleWithClient.device.fRecorder.isDrawingToLayer = false →
            sampleWithClient.device.skipPendingCommands.fRecorder.queue = [])) :=
  ⟨by decide, discard_idempotent sampleWithClient (by decide)⟩

/-- C12 as stated fails: with thread-safe playback off and a recorded saveLayer not yet
restored, `skipPendingCommands` leaves the queue as it was, not empty, on the first call
and on the second. -/
theorem skip_in_layer_leaves_queue :
    sampleInLayer.device.fThreadSafePlayback = false
      ∧ sampleInLayer.device.skipPendingCommands.fRecorder.queue
          = [Cmd.saveLayer none none 0]
      ∧ sampleInLayer.device.skipPendingCommands.skipPendingCommands.fRecorder.queue
          = [Cmd.saveLayer none none 0] := by
  decide

end SkLightDeferredCanvas

/-! ## Routing of facade calls -/

namespace SkLightDeferredCanvas

/-- C13 fails on the code: `shouldDrawImmediately` returns false before it looks at the
bitmap.  In deferred mode a texture-backed, mutable bitmap, and a bitmap larger than the
configured threshold, are both recorded in the queue; the immediate canvas receives
nothing. -/
theorem drawBitmap_unsafe_is_recorded :
    sampleFacade.fDeferredDrawing = true
      ∧ bitmapUnsafeToDefer textureBitmap sampleFacade.fBitmapSizeThreshold = true
      ∧ (sampleFacade.drawBitmap textureBitmap 0 0 none).device.fRecorder.queue
          = [Cmd.drawBitmap textureBitmap 0 0 none]
      ∧ primaryOps (sampleFacade.drawBitmap textureBitmap 0 0 none).device.trace = []
      ∧ sampleSmallThreshold.fDeferredDrawing = true
      ∧ bitmapUnsafeToDefer rasterBitmap sampleSmallThreshold.fBitmapSizeThreshold = true
      ∧ (sampleSmallThreshold.drawBitmap rasterBitmap 0 0 none).device.fRecorder.queue
          = [Cmd.drawBitmap rasterBitmap 0 0 none]
      ∧ primaryOps (sampleSmallThreshold.drawBitmap rasterBitmap 0 0 none).device.trace
          = [] := by
  decide

/-- C14: for every drawing or state call of the facade, with any arguments and in either
mode, `isDeferredDrawing()` after the call is what it was before. -/
theorem call_keeps_mode (s : SkLightDeferredCanvas) (c : Cmd) :
    (s.call c).isDeferredDrawing = s.isDeferredDrawing := by
  rw [call_eq]
  simp only [isDeferredDrawing, stateOp_mode]
  split <;> rfl

/-- C15: routing.  In deferred mode a call (after `skipPendingCommands()` when its guard
says so) appends exactly the one operation it issues to the queue and then runs the
device's `recordedDrawCommand()`; nothing is sent straight to the immediate canvas.  In
immediate mode the device only forwards that operation to the immediate canvas: the
recorder is untouched and no budget check runs. -/
theorem routing (s : SkLightDeferredCanvas) (c : Cmd) :
    (s.fDeferredDrawing = true →
        (s.call c).device
            = ((if s.occludes c then s.skipPendingCommands else s).device.recordCommand
                (issued c)).recordedDrawCommand
        ∧ ((if s.occludes c then s.skipPendingCommands else s).device.recordCommand
              (issued c)).fRecorder.queue
            = (if s.occludes c then s.skipPendingCommands else s).device.fRecorder.queue
                ++ [issued c]
        ∧ forwards (s.call c).device.trace = forwards s.device.trace)
      ∧ (s.fDeferredDrawing = false →
          (s.call c).device = s.device.drawImmediate (issued c)
          ∧ (s.call c).device.fRecorder = s.device.fRecorder
          ∧ (s.call c).device.trace = s.device.trace ++ [Event.forward (issued c)]) := by
  constructor
  · intro hdef
    have hpre : (if s.occludes c then s.skipPendingCommands else s).fDeferredDrawing = true := by
      split <;> simpa [skipPendingCommands] using hdef
    have hdev : (s.call c).device
        = ((if s.occludes c then s.skipPendingCommands else s).device.recordCommand
            (issued c)).recordedDrawCommand := by
      rw [call_eq]
      simp [stateOp, hpre, record, recordedDrawCommand, inherited]
    refine ⟨hdev, by simp [recordCommand, SkRecordQueue.record], ?_⟩
    rw [hdev, forwards_recordedDrawCommand]
    split
    · simp [recordCommand, skipPendingCommands, forwards_skipPendingCommands]
    · simp [recordCommand]
  · intro himm
    rw [call_eq_stateOp s c (occludes_immediate s c himm), stateOp_immediate s _ himm]
    simp [drawImmediate]

/-- C15 at work: a draw on the sample facade with one pending draw. -/
theorem routing_witness :
    samplePending.fDeferredDrawing = true
    ∧ ((samplePending.call (Cmd.drawPath 7 plainPaint)).device
          = ((if samplePending.occludes (Cmd.drawPath 7 plainPaint) then
                samplePending.skipPendingCommands else samplePending).device.recordCommand
              (issued (Cmd.drawPath 7 plainPaint))).recordedDrawCommand
      ∧ ((if samplePending.occludes (Cmd.drawPath 7 plainPaint) then
              samplePending.skipPendingCommands else samplePending).device.recordCommand
            (issued (Cmd.drawPath 7 plainPaint))).fRecorder.queue
          = (if samplePending.occludes (Cmd.drawPath 7 plainPaint) then
                samplePending.skipPendingCommands else samplePending).device.fRecorder.queue
              ++ [issued (Cmd.drawPath 7 plainPaint)]
      ∧ forwards (samplePending.call (Cmd.drawPath 7 plainPaint)).device.trace
          = forwards samplePending.device.trace) :=
  ⟨by decide, (routing samplePending (Cmd.drawPath 7 plainPaint)).1 (by decide)⟩

/-- C16: the state-changing operations (willSave, willSaveLayer, willRestore, didConcat,
didSetMatrix, onClipRect, onClipRRect, onClipPath, onClipRegion, setDrawFilter) never
reach `skipPendingCommands()` (each is the plain routing of its operation) and never
change the mode.  In deferred mode, while the count stays within the budget, the queue
afterwards is the old queue, in order, followed by the operation, and nothing is
replayed; when the count exceeds the budget (thread-safe playback off) the old queue
followed by the operation is replayed as a whole, in order, against the immediate
canvas. -/
theorem stateOps_keep_queue (s : SkLightDeferredCanvas) (c : Cmd)
    (hc : c.isStateOp = true) :
    s.occludes c = false
      ∧ s.call c = s.stateOp c
      ∧ (s.call c).fDeferredDrawing = s.fDeferredDrawing
      ∧ (s.fDeferredDrawing = true →
          s.device.fRecorder.queue.length + 1 ≤ s.device.fMaxRecordingCommands →
            (s.call c).device.fRecorder.queue = s.device.fRecorder.queue ++ [c]
            ∧ replays (s.call c).device.trace = replays s.device.trace)
      ∧ (s.fDeferredDrawing = true → s.device.fThreadSafePlayback = false →
          s.device.fMaxRecordingCommands < s.device.fRecorder.queue.length + 1 →
            (s.call c).device.fRecorder.queue = []
            ∧ replays (s.call c).device.trace
                = replays s.device.trace
                    ++ [(Target.immediate, s.device.fRecorder.queue ++ [c])]) := by
  have hocc : s.occludes c = false := by
    cases c <;> simp [Cmd.isStateOp] at hc <;> rfl
  have hiss : issued c = c := by
    cases c <;> simp [Cmd.isStateOp] at hc <;> rfl
  have hcall : s.call c = s.stateOp c := by
    rw [call_eq_stateOp s c hocc, hiss]
  refine ⟨hocc, hcall, by rw [hcall, stateOp_mode], ?_, ?_⟩
  · intro hdef hb
    obtain ⟨a, b, -⟩ := stateOp_deferred_within s c hdef hb
    rw [hcall]
    exact ⟨a, b⟩
  · intro hdef hts hb
    obtain ⟨-, -, -, -, h5⟩ := stateOp_deferred s c hdef hts
    obtain ⟨a, b, -⟩ := h5 hb
    rw [hcall]
    exact ⟨a, b⟩

/-- C16 at work: a clip on the sample facade with one pending draw. -/
theorem stateOps_keep_queue_witness :
    (samplePending.fDeferredDrawing = true
      ∧ samplePending.device.fRecorder.queue = [Cmd.drawPoints 0 1 2 plainPaint])
    ∧ (samplePending.occludes (Cmd.clipRect quarterSurface RegionOp.kIntersect_Op false)
          = false
      ∧ samplePending.call (Cmd.clipRect quarterSurface RegionOp.kIntersect_Op false)
          = samplePending.stateOp (Cmd.clipRect quarterSurface RegionOp.kIntersect_Op false)
      ∧ (samplePending.call
            (Cmd.clipRect quarterSurface RegionOp.kIntersect_Op false)).fDeferredDrawing
          = samplePending.fDeferredDrawing
      ∧ (samplePending.fDeferredDrawing = true →
          samplePending.device.fRecorder.queue.length + 1
              ≤ samplePending.device.fMaxRecordingCommands →
            (samplePending.call
                (Cmd.clipRect quarterSurface RegionOp.kIntersect_Op false)
              ).device.fRecorder.queue
              = samplePending.device.fRecorder.queue
                  ++ [Cmd.clipRect quarterSurface RegionOp.kIntersect_Op false]
            ∧ replays (samplePending.call
                (Cmd.clipRect quarterSurface RegionOp.kIntersect_Op false)).device.trace
              = replays samplePending.device.trace)
      ∧ (samplePending.fDeferredDrawing = true →
          samplePending.device.fThreadSafePlayback = false →
          samplePending.device.fMaxRecordingCommands
              < samplePending.device.fRecorder.queue.length + 1 →
            (samplePending.call
                (Cmd.clipRect quarterSurface RegionOp.kIntersect_Op false)
              ).device.fRecorder.queue = []
            ∧ replays (samplePending.call
                (Cmd.clipRect quarterSurface RegionOp.kIntersect_Op false)).device.trace
              = replays samplePending.device.trace
                  ++ [(Target.immediate, samplePending.device.fRecorder.queue
                        ++ [Cmd.clipRect quarterSurface RegionOp.kIntersect_Op false])])) :=
  ⟨by decide, stateOps_keep_queue samplePending
    (Cmd.clipRect quarterSurface RegionOp.kIntersect_Op false) (by decide)⟩

end SkLightDeferredCanvas

/-! ## Rebinding, thread-safe flush, defaults -/

namespace SkLightDeferredDevice

/-- C17: for every device state and every surface, `setSurface` changes only the
immediate canvas, the surface and the canvas the recorder replays to, and
`setPlaybackSurface` only the playback canvas, the playback surface and the canvas the
recorder replays to.  The pending commands (order and count), the budget, the
fresh-frame, can-discard and thread-safe flags and the client are unchanged, and the
trace is unchanged: no notification is sent. -/
theorem rebinding_keeps_queue (d : SkLightDeferredDevice) (surface : SkSurface) :
    (d.setSurface surface
        = { d with fImmediateCanvas := surface.getCanvas, fSurface := some surface.handle,
                   fRecorder := { d.fRecorder with fPlaybackCanvas := Target.immediate } }
      ∧ (d.setSurface surface).fRecorder.queue = d.fRecorder.queue
      ∧ (d.setSurface surface).fMaxRecordingCommands = d.fMaxRecordingCommands
      ∧ (d.setSurface surface).fFreshFrame = d.fFreshFrame
      ∧ (d.setSurface surface).fCanDiscardCanvasContents = d.fCanDiscardCanvasContents
      ∧ (d.setSurface surface).fThreadSafePlayback = d.fThreadSafePlayback
      ∧ (d.setSurface surface).trace = d.trace)
    ∧ (d.setPlaybackSurface surface
        = { d with fPlaybackCanvas := some surface.getCanvas,
                   fPlaybackSurface := some surface.handle,
                   fRecorder := { d.fRecorder with fPlaybackCanvas := Target.playback } }
      ∧ (d.setPlaybackSurface surface).fRecorder.queue = d.fRecorder.queue
      ∧ (d.setPlaybackSurface surface).fMaxRecordingCommands = d.fMaxRecordingCommands
      ∧ (d.setPlaybackSurface surface).fFreshFrame = d.fFreshFrame
      ∧ (d.setPlaybackSurface surface).fCanDiscardCanvasContents
          = d.fCanDiscardCanvasContents
      ∧ (d.setPlaybackSurface surface).fThreadSafePlayback = d.fThreadSafePlayback
      ∧ (d.setPlaybackSurface surface).trace = d.trace) :=
  ⟨⟨rfl, rfl, rfl, rfl, rfl, rfl, rfl⟩, ⟨rfl, rfl, rfl, rfl, rfl, rfl, rfl⟩⟩

end SkLightDeferredDevice

namespace SkLightDeferredCanvas

/-- C19: `threadSafeFlush` and `prepareForThreadSafeFlush` return the facade and its
device as they were (no state change, nothing replayed, no canvas flushed, no
notification) whenever thread-safe playback is not enabled, on the facade or on the
device, or the queue has no pending commands. -/
theorem threadSafe_noop (s : SkLightDeferredCanvas)
    (h : s.fThreadSafePlayback = false ∨ s.device.fThreadSafePlayback = false
          ∨ s.device.fRecorder.queue = []) :
    s.threadSafeFlush = some s
      ∧ s.prepareForThreadSafeFlush = s
      ∧ (s.device.fThreadSafePlayback = false ∨ s.device.fRecorder.queue = [] →
          s.device.threadSafeFlush = some s.device
          ∧ s.device.prepareForThreadSafeFlush = s.device) := by
  have hdev : s.device.fThreadSafePlayback = false ∨ s.device.fRecorder.queue = [] →
      s.device.threadSafeFlush = some s.device
      ∧ s.device.prepareForThreadSafeFlush = s.device := by
    intro h'
    rcases h' with h' | h' <;>
      simp [SkLightDeferredDevice.threadSafeFlush,
        SkLightDeferredDevice.prepareForThreadSafeFlush, h', SkRecordQueue.hasPendingCommands]
  have hd : s.fThreadSafePlayback = false
      ∨ (s.device.threadSafeFlush = some s.device
          ∧ s.device.prepareForThreadSafeFlush = s.device) := by
    rcases h with h | h | h
    · exact Or.inl h
    · exact Or.inr (hdev (Or.inl h))
    · exact Or.inr (hdev (Or.inr h))
  refine ⟨?_, ?_, hdev⟩
  · unfold threadSafeFlush
    rcases hd with hd | hd
    · simp [hd]
    · split
      · rw [hd.1]
      · rfl
  · unfold prepareForThreadSafeFlush
    rcases hd with hd | hd
    · simp [hd]
    · split
      · rw [hd.2]
      · rfl

/-- C19 at work: the sample facade with one pending draw and thread-safe playback off. -/
theorem threadSafe_noop_witness :
    samplePending.device.fRecorder.queue ≠ []
    ∧ (samplePending.threadSafeFlush = some samplePending
        ∧ samplePending.prepareForThreadSafeFlush = samplePending
        ∧ (samplePending.device.fThreadSafePlayback = false
              ∨ samplePending.device.fRecorder.queue = [] →
            samplePending.device.threadSafeFlush = some samplePending.device
            ∧ samplePending.device.prepareForThreadSafeFlush = samplePending.device)) :=
  ⟨by decide, threadSafe_noop samplePending (Or.inl (by decide))⟩

/-- C20: a newly created facade is in deferred mode, its device's command budget is
8196, its bitmap size threshold is `~0U` = 2^32 - 1, which no 32-bit size exceeds, and
thread-safe playback is off on the facade and on its device. -/
theorem create_defaults (surface : SkSurface) (recordInfoSize : Nat) :
    (Create surface recordInfoSize).isDeferredDrawing = true
      ∧ (Create surface recordInfoSize).device.fMaxRecordingCommands = 8196
      ∧ (Create surface recordInfoSize).fBitmapSizeThreshold = 2 ^ 32 - 1
      ∧ (∀ size : Nat, ¬ size % 2 ^ 32 > (Create surface recordInfoSize).fBitmapSizeThreshold)
      ∧ (Create surface recordInfoSize).fThreadSafePlayback = false
      ∧ (Create surface recordInfoSize).device.fThreadSafePlayback = false
      ∧ (Create surface recordInfoSize).device.fRecorder.queue = [] := by
  refine ⟨rfl, rfl, rfl, ?_, rfl, rfl, rfl⟩
  intro size
  have : size % 2 ^ 32 < 2 ^ 32 := Nat.mod_lt _ (by norm_num)
  simp only [Create, kDeferredCanvasBitmapSizeThreshold]
  omega

end SkLightDeferredCanvas

/-! ## Invariants of the device and the facade -/

namespace SkLightDeferredDevice

/-- Normal flush in thread-safe mode, spelled out. -/
theorem flushPendingCommands_normal_ts_eq (d : SkLightDeferredDevice)
    (hts : d.fThreadSafePlayback = true) :
    d.flushPendingCommands RecordPlaybackMode.kNormalPlayback_Mode =
      if d.fRecorder.queue = [] then
        { d with trace := d.trace ++ (if d.fNotificationClient.isSome then
                    [Event.notify Notification.prepareForImmediateDraw] else []) }
      else { d with
        fRecorder :=
          if d.fRecorder.fSnapshotReady then
            { d.fRecorder with queue := [], fPlaybackCanvas := Target.immediate,
                               fPendingSilentFlush := false, fSnapshotReady := false }
          else { d.fRecorder with fPlaybackCanvas := Target.immediate },
        fImmediateCanvas :=
          if d.fRecorder.fSnapshotReady then d.fImmediateCanvas.execAll d.fRecorder.queue
          else d.fImmediateCanvas,
        fCanDiscardCanvasContents := false,
        fPreviousCommandsAllocated := 0,
        trace := d.trace
          ++ (if d.fNotificationClient.isSome then
                [Event.notify Notification.prepareForImmediateDraw] else [])
          ++ (if d.fNotificationClient.isSome then [Event.notify Notification.prepareForDraw]
              else [])
          ++ (if d.fCanDiscardCanvasContents = true ∧ d.fSurface.isSome then
                [Event.contentWillChange ContentChangeMode.kDiscard_ContentChangeMode]
              else [])
          ++ (if d.fRecorder.fSnapshotReady then
                [Event.replay Target.immediate d.fRecorder.queue]
              else [])
          ++ (if d.fNotificationClient.isSome then
                [Event.notify Notification.flushedDrawCommands]
              else []) } := by
  unfold flushPendingCommands
  by_cases hq : d.fRecorder.queue = []
  · cases d with
    | mk r i su c f cd m p pc ps ts tr =>
      cases c <;> simp_all [SkRecordQueue.hasPendingCommands, emit]
  · cases hc : d.fNotificationClient <;> cases hd : d.fCanDiscardCanvasContents <;>
    cases hs : d.fSurface <;> cases hn : d.fRecorder.fSnapshotReady <;>
      simp [hts, hq, hc, hd, hs, hn, SkRecordQueue.hasPendingCommands, emit, aboutToDraw,
        recorderFlush, SkRecordQueue.flushPendingCommands, SkRecordQueue.setPlaybackCanvas]

/-- Silent flush in thread-safe mode, spelled out. -/
theorem flushPendingCommands_silent_ts_eq (d : SkLightDeferredDevice)
    (hts : d.fThreadSafePlayback = true) :
    d.flushPendingCommands RecordPlaybackMode.kSilentPlayback_Mode =
      if d.fRecorder.queue = [] then d
      else
        match d.fNotificationClient with
        | none => { d with fRecorder := { d.fRecorder with fPendingSilentFlush := true } }
        | some client =>
          if client.contended then
            { d with fRecorder := { d.fRecorder with fPendingSilentFlush := true },
                     trace := d.trace ++ [Event.notify (Notification.tryLock false)] }
          else
            { d with
              fRecorder := { d.fRecorder with queue := [], fPendingSilentFlush := false,
                                              fSnapshotReady := false },
              fPreviousCommandsAllocated := 0,
              trace := d.trace ++ [Event.notify (Notification.tryLock true),
                                   Event.silentDrain d.fRecorder.queue,
                                   Event.notify Notification.unlock] } := by
  unfold flushPendingCommands
  by_cases hq : d.fRecorder.queue = []
  · simp [hts, hq, SkRecordQueue.hasPendingCommands]
  · cases hc : d.fNotificationClient with
    | none =>
      simp [hts, hq, hc, SkRecordQueue.hasPendingCommands,
        SkRecordQueue.markPendingCommandsForSilentFlush]
    | some client =>
      cases hb : client.contended <;>
        simp [hts, hq, hc, hb, SkRecordQueue.hasPendingCommands, emit, recorderFlush,
          SkRecordQueue.flushPendingCommands, SkRecordQueue.markPendingCommandsForSilentFlush]

/-- What no flush touches: the fresh-frame flag, the budget, the client, the thread-safe
flag, the surfaces, and the recorder's save records and record size. -/
theorem flushPendingCommands_frame (d : SkLightDeferredDevice) (mode : RecordPlaybackMode) :
    (d.flushPendingCommands mode).fFreshFrame = d.fFreshFrame
      ∧ (d.flushPendingCommands mode).fMaxRecordingCommands = d.fMaxRecordingCommands
      ∧ (d.flushPendingCommands mode).fNotificationClient = d.fNotificationClient
      ∧ (d.flushPendingCommands mode).fThreadSafePlayback = d.fThreadSafePlayback
      ∧ (d.flushPendingCommands mode).fSurface = d.fSurface
      ∧ (d.flushPendingCommands mode).fRecorder.fSaveStack = d.fRecorder.fSaveStack
      ∧ (d.flushPendingCommands mode).fRecorder.sizeofSkCanvasRecordInfo
          = d.fRecorder.sizeofSkCanvasRecordInfo := by
  cases hts : d.fThreadSafePlayback <;> cases mode
  · rw [flushPendingCommands_normal_eq d hts]; split <;> simp [hts]
  · rw [flushPendingCommands_silent_eq d hts]; split <;> simp [hts]
  · rw [flushPendingCommands_normal_ts_eq d hts]
    split
    · simp [hts]
    · cases hn : d.fRecorder.fSnapshotReady <;> simp [hts]
  · rw [flushPendingCommands_silent_ts_eq d hts]
    split
    · simp [hts]
    · split
      · simp [hts]
      · split <;> simp [hts]

end SkLightDeferredDevice

namespace SkLightDeferredDevice

/-- A flush entered with the can-discard flag down keeps the device settled. -/
theorem settled_flushPendingCommands (d : SkLightDeferredDevice) (mode : RecordPlaybackMode)
    (h : d.Settled) : (d.flushPendingCommands mode).Settled := by
  obtain ⟨h1, h2, h3⟩ := h
  cases hts : d.fThreadSafePlayback <;> cases mode
  · rw [flushPendingCommands_normal_eq d hts]
    split
    · exact ⟨h1, h2, h3⟩
    · by_cases hc : d.fNotificationClient.isSome = true <;>
        simp [Settled, h1, h3, hc, discardNotice] <;> simpa [discardNotice] using h3
  · rw [flushPendingCommands_silent_eq d hts]
    split
    · exact ⟨h1, h2, h3⟩
    · by_cases hc : d.fNotificationClient.isSome = true <;>
        simp [Settled, h1, h3, hc, discardNotice] <;> simpa [discardNotice] using h3
  · rw [flushPendingCommands_normal_ts_eq d hts]
    split
    · by_cases hc : d.fNotificationClient.isSome = true <;>
        simp [Settled, h1, h2, h3, hc, discardNotice] <;> simpa [discardNotice] using h3
    · by_cases hc : d.fNotificationClient.isSome = true <;>
      cases hn : d.fRecorder.fSnapshotReady <;>
        simp [Settled, h1, h3, hc, discardNotice] <;> simpa [discardNotice] using h3
  · rw [flushPendingCommands_silent_ts_eq d hts]
    split
    · exact ⟨h1, h2, h3⟩
    · split
      · exact ⟨h1, h2, h3⟩
      · split <;> simp [Settled, h1, h2, h3, discardNotice] <;>
          simpa [discardNotice] using h3

/-- A silent flush never raises the previous-count member nor sends a discard notice,
whatever the can-discard flag. -/
theorem flushSilent_keeps (d : SkLightDeferredDevice)
    (h2 : d.fPreviousCommandsAllocated = 0) (h3 : discardNotice ∉ d.trace) :
    (d.flushPendingCommands RecordPlaybackMode.kSilentPlayback_Mode
        ).fPreviousCommandsAllocated = 0
      ∧ discardNotice ∉ (d.flushPendingCommands RecordPlaybackMode.kSilentPlayback_Mode).trace
      := by
  cases hts : d.fThreadSafePlayback
  · rw [flushPendingCommands_silent_eq d hts]
    split
    · exact ⟨h2, h3⟩
    · by_cases hc : d.fNotificationClient.isSome = true <;>
        simp [h3, hc, discardNotice] <;> simpa [discardNotice] using h3
  · rw [flushPendingCommands_silent_ts_eq d hts]
    split
    · exact ⟨h2, h3⟩
    · split
      · exact ⟨h2, h3⟩
      · split <;> simp [h2, h3, discardNotice] <;> simpa [discardNotice] using h3

/-- Skipping leaves the device settled, whatever the can-discard flag was. -/
theorem settled_skipPendingCommands (d : SkLightDeferredDevice)
    (h2 : d.fPreviousCommandsAllocated = 0) (h3 : discardNotice ∉ d.trace) :
    d.skipPendingCommands.Settled := by
  unfold skipPendingCommands
  simp only []
  split
  · split
    · obtain ⟨a, b⟩ := flushSilent_keeps
        ({ d with fCanDiscardCanvasContents := true, fFreshFrame := true }) h2 h3
      split
      · refine ⟨rfl, by simpa [emit] using a, ?_⟩
        simp only [emit, List.mem_append, not_or]
        exact ⟨b, by simp [discardNotice]⟩
      · exact ⟨rfl, a, b⟩
    · exact ⟨rfl, h2, h3⟩
  · exact ⟨rfl, h2, h3⟩

/-- The storage notification keeps the device settled. -/
theorem settled_storageStep (d : SkLightDeferredDevice) (n : Nat) (h : d.Settled) :
    (if d.fNotificationClient.isSome && n != d.fPreviousCommandsAllocated then
        ({ d with fPreviousCommandsAllocated := 0 } : SkLightDeferredDevice).emit
          (Event.notify (Notification.storageAllocatedForRecordingChanged
            (n * d.fRecorder.sizeofSkCanvasRecordInfo)))
      else d).Settled := by
  obtain ⟨a, b, c⟩ := h
  split
  · refine ⟨a, rfl, ?_⟩
    simp only [emit, List.mem_append, not_or]
    exact ⟨c, by simp [discardNotice]⟩
  · exact ⟨a, b, c⟩

/-- The post-append hook keeps the device settled. -/
theorem settled_recordedDrawCommand (d : SkLightDeferredDevice) (h : d.Settled) :
    d.recordedDrawCommand.Settled := by
  have hf : (if d.commandsAllocatedForRecording > d.fMaxRecordingCommands then
      d.flushPendingCommands RecordPlaybackMode.kNormalPlayback_Mode else d).Settled := by
    split
    · exact settled_flushPendingCommands d _ h
    · exact h
  exact settled_storageStep _ d.commandsAllocatedForRecording hf

/-- Recording a command keeps the device settled. -/
theorem settled_recordCommand (d : SkLightDeferredDevice) (c : Cmd) (h : d.Settled) :
    (d.recordCommand c).Settled := h

/-- Forwarding an operation keeps the device settled. -/
theorem settled_drawImmediate (d : SkLightDeferredDevice) (c : Cmd) (h : d.Settled) :
    (d.drawImmediate c).Settled := by
  obtain ⟨a, b, e⟩ := h
  refine ⟨a, b, ?_⟩
  simp only [drawImmediate, List.mem_append, not_or]
  exact ⟨e, by simp [discardNotice]⟩

/-- A bare recorder flush keeps the device settled. -/
theorem settled_recorderFlush (d : SkLightDeferredDevice) (mode : RecordPlaybackMode)
    (ts : Bool) (h : d.Settled) : (d.recorderFlush mode ts).Settled := by
  obtain ⟨a, b, e⟩ := h
  unfold recorderFlush
  simp only []
  split
  · split
    · refine ⟨a, b, ?_⟩
      simp only [emit, List.mem_append, not_or]
      exact ⟨e, by simp [discardNotice]⟩
    · exact ⟨a, b, e⟩
  · split <;> refine ⟨a, b, ?_⟩ <;> simp only [List.mem_append, not_or] <;>
      exact ⟨e, by simp [discardNotice]⟩

/-- An event other than the discard notice keeps the device settled. -/
theorem settled_emit (d : SkLightDeferredDevice) (e : Event) (he : e ≠ discardNotice)
    (h : d.Settled) : (d.emit e).Settled := by
  obtain ⟨a, b, c⟩ := h
  refine ⟨a, b, ?_⟩
  simp only [emit, List.mem_append, not_or, List.mem_singleton]
  exact ⟨c, fun h => he h.symm⟩

/-- The flush member keeps the device settled. -/
theorem settled_flush (d : SkLightDeferredDevice) (h : d.Settled) : d.flush.Settled :=
  settled_emit _ _ (by simp [discardNotice]) (settled_flushPendingCommands d _ h)

/-- Preparing for an immediate pixel write keeps the device settled. -/
theorem settled_prepareForImmediatePixelWrite (d : SkLightDeferredDevice) (h : d.Settled) :
    d.prepareForImmediatePixelWrite.Settled := by
  unfold prepareForImmediatePixelWrite
  simp only []
  apply settled_emit _ _ (by simp [discardNotice])
  split
  · exact settled_flushPendingCommands d _ h
  · have ha : d.aboutToDraw.Settled := by
      obtain ⟨a, b, c⟩ := h
      by_cases hc : d.fNotificationClient.isSome = true <;>
        simp [aboutToDraw, hc, emit, a, b, Settled, discardNotice] <;>
        simpa [discardNotice] using c
    split
    · exact settled_emit _ _ (by simp [discardNotice]) ha
    · exact ha

/-- Writing pixels keeps the device settled. -/
theorem settled_onWritePixels (d : SkLightDeferredDevice) (infoSize : SkISize)
    (h : d.Settled) : (d.onWritePixels infoSize).Settled := by
  unfold onWritePixels
  simp only []
  apply settled_prepareForImmediatePixelWrite
  have hf := settled_flushPendingCommands d RecordPlaybackMode.kNormalPlayback_Mode h
  split
  · exact settled_skipPendingCommands _ hf.2.1 hf.2.2
  · exact hf

/-- Prepare keeps the device settled. -/
theorem settled_prepareForThreadSafeFlush (d : SkLightDeferredDevice) (h : d.Settled) :
    d.prepareForThreadSafeFlush.Settled := by
  unfold prepareForThreadSafeFlush
  split
  · exact h
  · exact settled_recorderFlush d _ _ h

/-- What Consume returns, when it returns. -/
theorem threadSafeFlush_some (d r : SkLightDeferredDevice) (h : d.threadSafeFlush = some r) :
    r = if !d.fThreadSafePlayback || !d.fRecorder.hasPendingCommands then d
        else (({ d with fRecorder := d.fRecorder.setPlaybackCanvas Target.playback }
                : SkLightDeferredDevice).recorderFlush
                RecordPlaybackMode.kNormalPlayback_Mode d.fThreadSafePlayback).emit
              (Event.canvasFlush Target.playback) := by
  unfold threadSafeFlush at h
  split at h
  · rename_i hg
    rw [if_pos hg]
    exact (Option.some.inj h).symm
  · rename_i hg
    rw [if_neg hg]
    simp only [] at h
    split at h
    · exact absurd h (by simp)
    · exact (Option.some.inj h).symm

/-- Consume keeps the device settled. -/
theorem settled_threadSafeFlush (d r : SkLightDeferredDevice) (h : d.Settled)
    (hr : d.threadSafeFlush = some r) : r.Settled := by
  rw [threadSafeFlush_some d r hr]
  split
  · exact h
  · apply settled_emit _ _ (by simp [discardNotice])
    exact settled_recorderFlush _ _ _ h

end SkLightDeferredDevice

namespace SkLightDeferredDevice

/-- Skipping keeps the thread-safe flag. -/
theorem skipPendingCommands_ts (d : SkLightDeferredDevice) :
    d.skipPendingCommands.fThreadSafePlayback = d.fThreadSafePlayback := by
  unfold skipPendingCommands
  simp only []
  split
  · split
    · split <;> simp [emit, (flushPendingCommands_frame _ _).2.2.2.1]
    · rfl
  · rfl

/-- The post-append hook keeps the fresh-frame and thread-safe flags. -/
theorem recordedDrawCommand_frame (d : SkLightDeferredDevice) :
    d.recordedDrawCommand.fFreshFrame = d.fFreshFrame
      ∧ d.recordedDrawCommand.fThreadSafePlayback = d.fThreadSafePlayback := by
  unfold recordedDrawCommand
  simp only []
  have hf := flushPendingCommands_frame d RecordPlaybackMode.kNormalPlayback_Mode
  split <;> split <;> simp [emit, hf.1, hf.2.2.2.1]

/-- A bare recorder flush keeps the fresh-frame and thread-safe flags. -/
theorem recorderFlush_frame (d : SkLightDeferredDevice) (mode : RecordPlaybackMode)
    (ts : Bool) :
    (d.recorderFlush mode ts).fFreshFrame = d.fFreshFrame
      ∧ (d.recorderFlush mode ts).fThreadSafePlayback = d.fThreadSafePlayback := by
  unfold recorderFlush
  simp only []
  split
  · split <;> exact ⟨rfl, rfl⟩
  · split <;> exact ⟨rfl, rfl⟩

/-- Consume, when it returns, keeps the fresh-frame and thread-safe flags. -/
theorem threadSafeFlush_frame (d r : SkLightDeferredDevice) (h : d.threadSafeFlush = some r) :
    r.fFreshFrame = d.fFreshFrame ∧ r.fThreadSafePlayback = d.fThreadSafePlayback := by
  rw [threadSafeFlush_some d r h]
  split
  · exact ⟨rfl, rfl⟩
  · have hf := recorderFlush_frame
      ({ d with fRecorder := d.fRecorder.setPlaybackCanvas Target.playback })
      RecordPlaybackMode.kNormalPlayback_Mode d.fThreadSafePlayback
    exact ⟨by simpa [emit] using hf.1, by simpa [emit] using hf.2⟩

/-- About-to-draw keeps the fresh-frame and thread-safe flags, the recorder and the
budget. -/
theorem aboutToDraw_frame (d : SkLightDeferredDevice) :
    d.aboutToDraw.fFreshFrame = d.fFreshFrame
      ∧ d.aboutToDraw.fThreadSafePlayback = d.fThreadSafePlayback
      ∧ d.aboutToDraw.fRecorder = d.fRecorder := by
  cases hc : d.fNotificationClient.isSome <;> cases hd : d.fCanDiscardCanvasContents <;>
    cases hs : d.fSurface.isSome <;> simp [aboutToDraw, hc, hd, hs, emit]

/-- Preparing for an immediate pixel write keeps the fresh-frame and thread-safe flags. -/
theorem prepareForImmediatePixelWrite_frame (d : SkLightDeferredDevice) :
    d.prepareForImmediatePixelWrite.fFreshFrame = d.fFreshFrame
      ∧ d.prepareForImmediatePixelWrite.fThreadSafePlayback = d.fThreadSafePlayback := by
  unfold prepareForImmediatePixelWrite
  simp only []
  have hf := flushPendingCommands_frame d RecordPlaybackMode.kNormalPlayback_Mode
  have ha := aboutToDraw_frame d
  split
  · simp [emit, hf.1, hf.2.2.2.1]
  · split <;> simp [emit, ha.1, ha.2.1]

/-- With thread-safe playback off a Normal flush leaves the queue empty. -/
theorem flushNormal_queue (d : SkLightDeferredDevice) (hts : d.fThreadSafePlayback = false) :
    (d.flushPendingCommands RecordPlaybackMode.kNormalPlayback_Mode).fRecorder.queue = [] := by
  rw [flushPendingCommands_normal_eq d hts]
  split
  · assumption
  · rfl

/-- With thread-safe playback off a skip keeps an empty queue empty. -/
theorem skipPendingCommands_queue (d : SkLightDeferredDevice)
    (hts : d.fThreadSafePlayback = false) (hq : d.fRecorder.queue = []) :
    d.skipPendingCommands.fRecorder.queue = [] := by
  cases hl : d.fRecorder.isDrawingToLayer
  · rw [skipPendingCommands_eq d hts hl]; simp [hq]
  · rw [skipPendingCommands_inLayer d hl]; exact hq

/-- With thread-safe playback off, preparing for a pixel write leaves the queue empty. -/
theorem prepareForImmediatePixelWrite_queue (d : SkLightDeferredDevice)
    (hts : d.fThreadSafePlayback = false) :
    d.prepareForImmediatePixelWrite.fRecorder.queue = [] := by
  unfold prepareForImmediatePixelWrite
  simp only []
  split
  · simpa [emit] using flushNormal_queue d hts
  · rename_i hp
    have hq : d.fRecorder.queue = [] := by
      simpa [SkRecordQueue.hasPendingCommands] using hp
    split <;> simp [emit, (aboutToDraw_frame d).2.2, hq]

/-- Writing pixels keeps the thread-safe flag and, with thread-safe playback off, leaves
the queue empty. -/
theorem onWritePixels_ts (d : SkLightDeferredDevice) (infoSize : SkISize) :
    (d.onWritePixels infoSize).fThreadSafePlayback = d.fThreadSafePlayback
      ∧ (d.fThreadSafePlayback = false → (d.onWritePixels infoSize).fRecorder.queue = []) := by
  unfold onWritePixels
  simp only []
  have hf := (flushPendingCommands_frame d RecordPlaybackMode.kNormalPlayback_Mode).2.2.2.1
  constructor
  · rw [(prepareForImmediatePixelWrite_frame _).2]
    split
    · rw [skipPendingCommands_ts, hf]
    · exact hf
  · intro hts
    apply prepareForImmediatePixelWrite_queue
    split
    · rw [skipPendingCommands_ts, hf]; exact hts
    · rw [hf]; exact hts

end SkLightDeferredDevice

namespace SkLightDeferredCanvas

/-- The device after the plain routing of an operation. -/
theorem stateOp_device (s : SkLightDeferredCanvas) (c : Cmd) :
    (s.stateOp c).device
      = if s.fDeferredDrawing then (s.device.recordCommand c).recordedDrawCommand
        else s.device.drawImmediate c := by
  cases h : s.fDeferredDrawing <;>
    simp [stateOp, h, record, immediate, recordedDrawCommand, inherited]

/-- The device after any call. -/
theorem call_device (s : SkLightDeferredCanvas) (c : Cmd) :
    (s.call c).device
      = if s.fDeferredDrawing then
          ((if s.occludes c then s.device.skipPendingCommands else s.device).recordCommand
            (issued c)).recordedDrawCommand
        else s.device.drawImmediate (issued c) := by
  rw [call_eq, stateOp_device]
  cases hd : s.fDeferredDrawing
  · rw [occludes_immediate s c hd]; simp [hd]
  · cases ho : s.occludes c <;> simp [skipPendingCommands, hd]

/-- Any call keeps the facade's own thread-safe flag and mode. -/
theorem call_flags (s : SkLightDeferredCanvas) (c : Cmd) :
    (s.call c).fThreadSafePlayback = s.fThreadSafePlayback
      ∧ (s.call c).fDeferredDrawing = s.fDeferredDrawing := by
  rw [call_eq]
  refine ⟨?_, by rw [stateOp_mode]; split <;> rfl⟩
  have : ∀ t : SkLightDeferredCanvas, (t.stateOp (issued c)).fThreadSafePlayback
      = t.fThreadSafePlayback := by
    intro t
    cases h : t.fDeferredDrawing <;>
      simp [stateOp, h, record, immediate, recordedDrawCommand, inherited]
  rw [this]
  split <;> rfl

/-- Any call keeps the device's thread-safe flag. -/
theorem call_device_ts (s : SkLightDeferredCanvas) (c : Cmd) :
    (s.call c).device.fThreadSafePlayback = s.device.fThreadSafePlayback := by
  rw [call_device]
  split
  · rw [(recordedDrawCommand_frame _).2]
    split
    · simp [recordCommand, skipPendingCommands_ts]
    · rfl
  · rfl

/-- Any call keeps the device settled. -/
theorem settled_call (s : SkLightDeferredCanvas) (c : Cmd) (h : s.device.Settled) :
    (s.call c).device.Settled := by
  rw [call_device]
  split
  · apply settled_recordedDrawCommand
    apply settled_recordCommand
    split
    · exact settled_skipPendingCommands _ h.2.1 h.2.2
    · exact h
  · exact settled_drawImmediate _ _ h

/-- What the facade's Consume returns, when it returns: the facade itself while the
facade's thread-safe flag is off, and else the facade over what the device's Consume
returns. -/
theorem threadSafeFlush_returns (s t : SkLightDeferredCanvas) (h : s.threadSafeFlush = some t) :
    (s.fThreadSafePlayback = false ∧ t = s)
      ∨ (s.fThreadSafePlayback = true
          ∧ ∃ r, s.device.threadSafeFlush = some r ∧ t = { s with device := r }) := by
  unfold threadSafeFlush at h
  cases hf : s.fThreadSafePlayback
  · simp only [hf, Bool.false_eq_true, ite_false, Option.some.injEq] at h
    exact Or.inl ⟨rfl, h.symm⟩
  · simp only [hf, ite_true] at h
    cases hd : s.device.threadSafeFlush with
    | none => simp [hd] at h
    | some r =>
      simp only [hd, Option.some.injEq] at h
      exact Or.inr ⟨rfl, r, rfl, h.symm⟩

/-- Any public operation that returns keeps the device settled. -/
theorem settled_applyOp (s t : SkLightDeferredCanvas) (op : FacadeOp) (h : s.device.Settled)
    (hr : s.applyOp op = some t) : t.device.Settled := by
  cases op
  case threadSafeFlush =>
    rcases threadSafeFlush_returns s t hr with ⟨-, ht⟩ | ⟨-, r, hd, ht⟩
    · rw [ht]; exact h
    · rw [ht]; exact settled_threadSafeFlush _ r h hd
  all_goals (simp only [applyOp, Option.some.injEq] at hr; subst hr)
  case call c => exact settled_call s c h
  case setDeferredDrawing val =>
    simp only [setDeferredDrawing]
    split
    · split
      · exact settled_flushPendingCommands _ _ h
      · exact h
    · exact h
  case silentFlush =>
    simp only [silentFlush]
    split
    · exact settled_flushPendingCommands _ _ h
    · exact h
  case isFreshFrame => exact h
  case setSurface surface => exact h
  case setPlaybackSurface surface => exact h
  case setNotificationClient client => exact h
  case setMaxRecordingStorage n => exact h
  case setBitmapSizeThreshold n => exact h
  case enableThreadSafePlayback =>
    simp only [enableThreadSafePlayback, SkLightDeferredDevice.enableThreadSafePlayback]
    split
    · split <;> exact h
    · exact h
  case prepareForThreadSafeFlush =>
    simp only [prepareForThreadSafeFlush]
    split
    · exact settled_prepareForThreadSafeFlush _ h
    · exact h
  case setPlaybackCanvas canvas =>
    simp only [setPlaybackCanvas, SkLightDeferredDevice.setPlaybackCanvas]
    split
    · split <;> exact h
    · exact h
  case flush => exact settled_flush _ h
  case writePixels infoSize => exact settled_onWritePixels _ _ h
  case readPixels => exact settled_flushPendingCommands _ _ h
  case accessBitmap => exact settled_flushPendingCommands _ _ h
  case newImageSnapshot => exact settled_flush _ h

/-- A run of one more operation, unfolded. -/
theorem applyAll_cons_some (s t : SkLightDeferredCanvas) (op : FacadeOp)
    (rest : List FacadeOp) (h : s.applyAll (op :: rest) = some t) :
    ∃ m, s.applyOp op = some m ∧ m.applyAll rest = some t := by
  simp only [applyAll] at h
  cases hm : s.applyOp op with
  | none => simp [hm] at h
  | some m => exact ⟨m, rfl, by simpa [hm] using h⟩

/-- Any sequence of public operations that returns keeps the device settled. -/
theorem settled_applyAll (ops : List FacadeOp) (s t : SkLightDeferredCanvas)
    (h : s.device.Settled) (hr : s.applyAll ops = some t) : t.device.Settled := by
  induction ops generalizing s with
  | nil =>
    simp only [applyAll, Option.some.injEq] at hr
    rw [← hr]; exact h
  | cons op rest ih =>
    obtain ⟨m, hm, hrest⟩ := applyAll_cons_some s t op rest hr
    exact ih m (settled_applyOp s m op h hm) hrest

/-- A newly created facade has a settled device. -/
theorem settled_create (surface : SkSurface) (recordInfoSize : Nat) :
    (Create surface recordInfoSize).device.Settled :=
  ⟨rfl, rfl, by simp [Create, SkLightDeferredDevice.create]⟩

end SkLightDeferredCanvas

namespace SkLightDeferredCanvas

/-- One public operation keeps this: the facade and its device agree on the thread-safe
flag, and with thread-safe playback off immediate mode goes with an empty queue. -/
theorem applyOp_immediate_empty (s t : SkLightDeferredCanvas) (op : FacadeOp)
    (hflag : s.fThreadSafePlayback = s.device.fThreadSafePlayback)
    (hinv : s.device.fThreadSafePlayback = false → s.fDeferredDrawing = false →
      s.device.fRecorder.queue = [])
    (hr : s.applyOp op = some t) :
    t.fThreadSafePlayback = t.device.fThreadSafePlayback
      ∧ (t.device.fThreadSafePlayback = false → t.fDeferredDrawing = false →
          t.device.fRecorder.queue = []) := by
  cases op
  case threadSafeFlush =>
    rcases threadSafeFlush_returns s t hr with ⟨-, ht⟩ | ⟨hf, r, hd, ht⟩
    · rw [ht]; exact ⟨hflag, hinv⟩
    · have hdev : s.device.fThreadSafePlayback = true := by rw [← hflag, hf]
      have hk : r.fThreadSafePlayback = true := by
        rw [(SkLightDeferredDevice.threadSafeFlush_frame _ r hd).2]; exact hdev
      rw [ht]
      simp [hk, hf]
  all_goals (simp only [applyOp, Option.some.injEq] at hr; subst hr)
  case call c =>
    rw [(call_flags s c).1, (call_flags s c).2, call_device_ts]
    refine ⟨hflag, fun hts himm => ?_⟩
    rw [call_device]
    simp [himm, drawImmediate, hinv hts himm]
  case setDeferredDrawing val =>
    simp only [setDeferredDrawing]
    cases hd : s.fDeferredDrawing <;> cases val <;>
      simp [hd, hflag, (flushPendingCommands_frame _ _).2.2.2.1]
    · exact fun hts => hinv hts hd
    · exact fun hts => flushNormal_queue _ hts
  case silentFlush =>
    simp only [silentFlush]
    cases hd : s.fDeferredDrawing <;>
      simp [hd, hflag, (flushPendingCommands_frame _ _).2.2.2.1]
    exact fun hts => hinv hts hd
  case isFreshFrame =>
    exact ⟨hflag, hinv⟩
  case setSurface surface =>
    exact ⟨hflag, hinv⟩
  case setPlaybackSurface surface =>
    exact ⟨hflag, hinv⟩
  case setNotificationClient client =>
    exact ⟨hflag, hinv⟩
  case setMaxRecordingStorage n =>
    exact ⟨hflag, hinv⟩
  case setBitmapSizeThreshold n =>
    exact ⟨hflag, hinv⟩
  case enableThreadSafePlayback =>
    simp only [enableThreadSafePlayback, SkLightDeferredDevice.enableThreadSafePlayback]
    cases hd : s.fDeferredDrawing <;> cases ht : s.fThreadSafePlayback
    · simp only [Bool.false_and, Bool.false_eq_true, ite_false]
      exact ⟨by rw [← hflag, ht], hinv⟩
    · simp only [Bool.false_and, Bool.false_eq_true, ite_false]
      exact ⟨by rw [← hflag, ht], hinv⟩
    · have hdev : s.device.fThreadSafePlayback = false := by rw [← hflag, ht]
      simp [hdev]
    · simp only [Bool.not_true, Bool.and_false, Bool.false_eq_true, ite_false]
      exact ⟨by rw [← hflag, ht], hinv⟩
  case prepareForThreadSafeFlush =>
    simp only [prepareForThreadSafeFlush]
    cases ht : s.fThreadSafePlayback
    · simp only [Bool.false_eq_true, ite_false]
      exact ⟨by rw [← hflag, ht], hinv⟩
    · have hdev : s.device.fThreadSafePlayback = true := by rw [← hflag, ht]
      have hk : s.device.prepareForThreadSafeFlush.fThreadSafePlayback = true := by
        unfold SkLightDeferredDevice.prepareForThreadSafeFlush
        split
        · exact hdev
        · simp [(recorderFlush_frame _ _ _).2, hdev]
      simp [hk]
  case setPlaybackCanvas canvas =>
    simp only [setPlaybackCanvas, SkLightDeferredDevice.setPlaybackCanvas]
    cases ht : s.fThreadSafePlayback
    · simp only [Bool.false_eq_true, ite_false]
      exact ⟨by rw [← hflag, ht], hinv⟩
    · have hdev : s.device.fThreadSafePlayback = true := by rw [← hflag, ht]
      simp [hdev]
  case flush =>
    have hf := (flushPendingCommands_frame s.device
      RecordPlaybackMode.kNormalPlayback_Mode).2.2.2.1
    simp only [SkLightDeferredDevice.flush, emit, hf]
    exact ⟨hflag, fun hts _ => flushNormal_queue _ hts⟩
  case writePixels infoSize =>
    simp only [(onWritePixels_ts s.device infoSize).1]
    exact ⟨hflag, fun hts _ => (onWritePixels_ts s.device infoSize).2 hts⟩
  case readPixels =>
    have hf := (flushPendingCommands_frame s.device
      RecordPlaybackMode.kNormalPlayback_Mode).2.2.2.1
    simp only [SkLightDeferredDevice.onReadPixels, hf]
    exact ⟨hflag, fun hts _ => flushNormal_queue _ hts⟩
  case accessBitmap =>
    have hf := (flushPendingCommands_frame s.device
      RecordPlaybackMode.kNormalPlayback_Mode).2.2.2.1
    simp only [SkLightDeferredDevice.onAccessBitmap, hf]
    exact ⟨hflag, fun hts _ => flushNormal_queue _ hts⟩
  case newImageSnapshot =>
    have hf := (flushPendingCommands_frame s.device
      RecordPlaybackMode.kNormalPlayback_Mode).2.2.2.1
    simp only [SkLightDeferredDevice.flush, emit, hf]
    exact ⟨hflag, fun hts _ => flushNormal_queue _ hts⟩

end SkLightDeferredCanvas

namespace SkLightDeferredDevice

end SkLightDeferredDevice

namespace SkLightDeferredCanvas

end SkLightDeferredCanvas

namespace SkLightDeferredDevice

/-- A skip never sends `prepareForDraw`: about-to-draw is not entered while the skip has
the can-discard flag raised. -/
theorem skipPendingCommands_prepareForDraw (d : SkLightDeferredDevice) :
    d.skipPendingCommands.trace.count (Event.notify Notification.prepareForDraw)
      = d.trace.count (Event.notify Notification.prepareForDraw) := by
  cases hl : d.fRecorder.isDrawingToLayer
  · cases hts : d.fThreadSafePlayback
    · rw [skipPendingCommands_eq d hts hl]
      split
      · rfl
      · cases hc : d.fNotificationClient <;> simp
    · unfold skipPendingCommands
      simp only [hl, Bool.not_false, ite_true]
      by_cases hq : d.fRecorder.queue = []
      · simp [hq, SkRecordQueue.hasPendingCommands]
      · have hp : d.fRecorder.hasPendingCommands = true := by
          simpa [SkRecordQueue.hasPendingCommands] using hq
        simp only [hp, ite_true]
        have e := flushPendingCommands_silent_ts_eq
          ({ d with fCanDiscardCanvasContents := true, fFreshFrame := true }) hts
        simp only [] at e
        rw [e]
        cases hc : d.fNotificationClient with
        | none => simp [hq]
        | some client => cases hb : client.contended <;> simp [hq, hb, emit]
  · rw [skipPendingCommands_inLayer d hl]

/-- The post-append hook on a device whose previous-count member is 0 and whose client is
set: after the budget flush, if any, the storage notification goes out exactly when the
count read at entry is not 0, with that count times the record size. -/
theorem recordedDrawCommand_storage (d : SkLightDeferredDevice)
    (hp : d.fPreviousCommandsAllocated = 0) (hc : d.fNotificationClient.isSome = true) :
    d.recordedDrawCommand.trace
        = (if d.commandsAllocatedForRecording > d.fMaxRecordingCommands then
             d.flushPendingCommands RecordPlaybackMode.kNormalPlayback_Mode else d).trace
          ++ (if d.commandsAllocatedForRecording ≠ 0 then
                [Event.notify (Notification.storageAllocatedForRecordingChanged
                  (d.commandsAllocatedForRecording * d.fRecorder.sizeofSkCanvasRecordInfo))]
              else [])
      ∧ d.recordedDrawCommand.fPreviousCommandsAllocated = 0 := by
  have hf := flushPendingCommands_frame d RecordPlaybackMode.kNormalPlayback_Mode
  have hz : (d.flushPendingCommands
      RecordPlaybackMode.kNormalPlayback_Mode).fPreviousCommandsAllocated = 0 := by
    cases hts : d.fThreadSafePlayback
    · rw [flushPendingCommands_normal_eq d hts]; split <;> simp [hp]
    · rw [flushPendingCommands_normal_ts_eq d hts]
      split
      · simp [hp]
      · cases hn : d.fRecorder.fSnapshotReady <;> simp
  unfold recordedDrawCommand
  simp only []
  by_cases hb : d.commandsAllocatedForRecording > d.fMaxRecordingCommands
  · have h0 : d.commandsAllocatedForRecording ≠ 0 := by omega
    simp [hb, h0, hz, hf.2.2.1, hc, emit, hf.2.2.2.2.2.2]
  · by_cases h0 : d.commandsAllocatedForRecording = 0
    · simp [hb, h0, hp, hc]
    · simp [hb, h0, hp, hc, emit]

end SkLightDeferredDevice

namespace SkLightDeferredCanvas

/-- Any sequence of public operations that returns keeps the facade and its device agreed
on the thread-safe flag and, with thread-safe playback off, immediate mode with an empty
queue. -/
theorem applyAll_immediate_empty (ops : List FacadeOp) (s t : SkLightDeferredCanvas)
    (hflag : s.fThreadSafePlayback = s.device.fThreadSafePlayback)
    (hinv : s.device.fThreadSafePlayback = false → s.fDeferredDrawing = false →
      s.device.fRecorder.queue = [])
    (hr : s.applyAll ops = some t) :
    t.fThreadSafePlayback = t.device.fThreadSafePlayback
      ∧ (t.device.fThreadSafePlayback = false → t.fDeferredDrawing = false →
          t.device.fRecorder.queue = []) := by
  induction ops generalizing s with
  | nil =>
    simp only [applyAll, Option.some.injEq] at hr
    rw [← hr]; exact ⟨hflag, hinv⟩
  | cons op rest ih =>
    obtain ⟨m, hm, hrest⟩ := applyAll_cons_some s t op rest hr
    have h := applyOp_immediate_empty s m op hflag hinv hm
    exact ih m h.1 h.2 hrest

/-- A run in which Consume is never called returns. -/
theorem applyAll_returns (ops : List FacadeOp) (s : SkLightDeferredCanvas)
    (h : FacadeOp.threadSafeFlush ∉ ops) : ∃ t, s.applyAll ops = some t := by
  induction ops generalizing s with
  | nil => exact ⟨s, rfl⟩
  | cons op rest ih =>
    have hop : op ≠ FacadeOp.threadSafeFlush := fun e => h (by simp [e])
    have hrest : FacadeOp.threadSafeFlush ∉ rest := fun e => h (by simp [e])
    have hm : ∃ m, s.applyOp op = some m := by
      cases op
      case threadSafeFlush => exact absurd rfl hop
      all_goals exact ⟨_, rfl⟩
    obtain ⟨m, hm⟩ := hm
    obtain ⟨t, ht⟩ := ih m hrest
    exact ⟨t, by simp [applyAll, hm, ht]⟩

/-- While the facade's thread-safe flag is off, every public operation other than
`enableThreadSafePlayback` returns and leaves the flag off. -/
theorem applyOp_facade_off (s : SkLightDeferredCanvas) (op : FacadeOp)
    (hf : s.fThreadSafePlayback = false) (hop : op ≠ FacadeOp.enableThreadSafePlayback) :
    ∃ t, s.applyOp op = some t ∧ t.fThreadSafePlayback = false := by
  cases op
  case enableThreadSafePlayback => exact absurd rfl hop
  case call c => exact ⟨_, rfl, by rw [(call_flags s c).1]; exact hf⟩
  case threadSafeFlush => exact ⟨s, by simp [applyOp, threadSafeFlush, hf], hf⟩
  case setDeferredDrawing val =>
    refine ⟨_, rfl, ?_⟩
    simp only [setDeferredDrawing]
    split
    · split <;> exact hf
    · exact hf
  case silentFlush =>
    refine ⟨_, rfl, ?_⟩
    simp only [silentFlush]
    split <;> exact hf
  case prepareForThreadSafeFlush =>
    refine ⟨_, rfl, ?_⟩
    simp only [prepareForThreadSafeFlush]
    split <;> exact hf
  case setPlaybackCanvas canvas =>
    refine ⟨_, rfl, ?_⟩
    simp only [setPlaybackCanvas]
    split <;> exact hf
  all_goals exact ⟨_, rfl, hf⟩

/-- A run that never calls `enableThreadSafePlayback`, started with thread-safe playback
off, returns with thread-safe playback off. -/
theorem applyAll_off (ops : List FacadeOp) (s : SkLightDeferredCanvas)
    (hflag : s.fThreadSafePlayback = s.device.fThreadSafePlayback)
    (hinv : s.device.fThreadSafePlayback = false → s.fDeferredDrawing = false →
      s.device.fRecorder.queue = [])
    (hf : s.fThreadSafePlayback = false)
    (hno : FacadeOp.enableThreadSafePlayback ∉ ops) :
    ∃ t, s.applyAll ops = some t ∧ t.fThreadSafePlayback = false
      ∧ t.device.fThreadSafePlayback = false := by
  induction ops generalizing s with
  | nil => exact ⟨s, rfl, hf, by rw [← hflag]; exact hf⟩
  | cons op rest ih =>
    have hop : op ≠ FacadeOp.enableThreadSafePlayback := fun e => hno (by simp [e])
    have hrest : FacadeOp.enableThreadSafePlayback ∉ rest := fun e => hno (by simp [e])
    obtain ⟨m, hm, hmf⟩ := applyOp_facade_off s op hf hop
    have h := applyOp_immediate_empty s m op hflag hinv hm
    obtain ⟨t, ht, h1, h2⟩ := ih m h.1 h.2 hmf hrest
    exact ⟨t, by simp [applyAll, hm, ht], h1, h2⟩

end SkLightDeferredCanvas

/-! ## The fresh-frame flag, skips, mode switches and invariants -/

namespace SkLightDeferredCanvas

/-- C23: one skip notifies twice.  On the sample facade (thread-safe playback off, a
client set, one pending draw, no open layer) a single `skipPendingCommands` empties the
queue and delivers `skippedPendingDrawCommands` to the client two times: once from the
silent flush it runs and once more on its own. -/
theorem skip_notifies_twice :
    sampleWithClient.device.fThreadSafePlayback = false
      ∧ sampleWithClient.device.fNotificationClient.isSome = true
      ∧ sampleWithClient.device.fRecorder.isDrawingToLayer = false
      ∧ sampleWithClient.device.fRecorder.queue.length = 1
      ∧ skippedCount sampleWithClient.device.trace = 0
      ∧ skippedCount
          (sampleWithClient.device.flushPendingCommands
            RecordPlaybackMode.kSilentPlayback_Mode).trace = 1
      ∧ skippedCount sampleWithClient.device.skipPendingCommands.trace = 2
      ∧ sampleWithClient.device.skipPendingCommands.fRecorder.queue = [] := by
  decide

/-- C24: in deferred mode with thread-safe playback off, outside a layer and with a budget
of at least 1, `clear(color)` leaves the queue holding exactly the clear command, whatever
was pending and whatever the clip and transform are, and nothing reaches the primary or
the playback canvas; in immediate mode it forwards the clear to the immediate canvas and
leaves the recorder and the client alone. -/
theorem clear_purges_pending (s : SkLightDeferredCanvas) (color : Nat) :
    (s.fDeferredDrawing = true → s.device.fThreadSafePlayback = false →
      s.device.fRecorder.isDrawingToLayer = false → 1 ≤ s.device.fMaxRecordingCommands →
        (s.clear color).device.fRecorder.queue = [Cmd.clear color]
          ∧ primaryOps (s.clear color).device.trace = primaryOps s.device.trace
          ∧ playbackOps (s.clear color).device.trace = playbackOps s.device.trace
          ∧ (s.clear color).device.fImmediateCanvas = s.device.fImmediateCanvas)
    ∧ (s.fDeferredDrawing = false →
        (s.clear color).device = s.device.drawImmediate (Cmd.clear color)
          ∧ (s.clear color).device.fRecorder = s.device.fRecorder
          ∧ (s.clear color).device.trace = s.device.trace ++ [Event.forward (Cmd.clear color)]
          ∧ (s.clear color).device.fImmediateCanvas
              = s.device.fImmediateCanvas.exec (Cmd.clear color)) := by
  constructor
  · intro hdef hts hl hb
    have hskip := skipPendingCommands_eq s.device hts hl
    unfold clear
    simp only [hdef, ite_true, skipPendingCommands, hskip]
    by_cases hq : s.device.fRecorder.queue = []
    · simp only [hq, ite_true, record, recordCommand, SkRecordQueue.record,
        recordedDrawCommand]
      rw [recordedDrawCommand_within _ (by simpa using hb)]
      split <;> simp [primaryOps_append, playbackOps_append, primaryOps, playbackOps,
        Event.primaryOps, Event.playbackOps]
    · simp only [hq, ite_false, record, recordCommand, SkRecordQueue.record,
        recordedDrawCommand]
      rw [recordedDrawCommand_within _ (by simpa using hb)]
      cases hc : s.device.fNotificationClient <;>
      split <;> simp [hc, primaryOps_append, playbackOps_append, primaryOps, playbackOps,
        Event.primaryOps, Event.playbackOps]
  · intro himm
    simp [clear, himm, immediate, recordedDrawCommand, drawImmediate, inherited]

/-- C24 at work: two pending draws are purged by a clear; in immediate mode the clear is
forwarded. -/
theorem clear_purges_pending_witness :
    ((sampleFacade.callAll sampleTwoDraws).device.fRecorder.queue.length = 2
      ∧ ((sampleFacade.callAll sampleTwoDraws).clear 7).device.fRecorder.queue = [Cmd.clear 7])
    ∧ ((sampleFacade.setDeferredDrawing false).clear 7).device.trace
        = (sampleFacade.setDeferredDrawing false).device.trace ++ [Event.forward (Cmd.clear 7)]
    :=
  ⟨⟨by decide, ((clear_purges_pending (sampleFacade.callAll sampleTwoDraws) 7).1 (by decide)
      (by decide) (by decide) (by decide)).1⟩,
   ((clear_purges_pending (sampleFacade.setDeferredDrawing false) 7).2 (by decide)).2.2.1⟩

/-- C25, the claim as written fails: with a budget of one command and a recorded
saveLayer pending, an opaque rectangle over the whole surface passes the full-frame test,
the skip is blocked by the open layer, and the second recorded command exceeds the budget,
so the queue is flushed and holds 0 commands afterwards, not 2. -/
theorem drawRect_in_layer_over_budget_flushes :
    sampleInLayerBudgetOne.fDeferredDrawing = true
      ∧ sampleInLayerBudgetOne.device.fRecorder.isDrawingToLayer = true
      ∧ sampleInLayerBudgetOne.device.fRecorder.queue.length = 1
      ∧ sampleInLayerBudgetOne.device.fMaxRecordingCommands = 1
      ∧ isPaintOpaque (some plainPaint) none = true
      ∧ sampleInLayerBudgetOne.isFullFrame (some wholeSurface) (some plainPaint) = true
      ∧ (sampleInLayerBudgetOne.drawRect wholeSurface plainPaint).device.fRecorder.queue = []
      ∧ primaryOps (sampleInLayerBudgetOne.drawRect wholeSurface plainPaint).device.trace
          = [Cmd.saveLayer none none 0, Cmd.drawRect wholeSurface plainPaint] := by
  decide

/-- C25, as amended: while the recorder reports drawing to a layer, `skipPendingCommands`
only puts the can-discard flag down: the queue, the trace (so no notification) and the
fresh-frame flag stay as they are.  Hence a `drawRect` issued in deferred mode inside an
open layer, full-frame and opaque or not, keeps every pending command and appends itself,
as long as the new count stays within the budget; nothing is replayed and no skip is
notified. -/
theorem skip_blocked_in_layer (s : SkLightDeferredCanvas) (rect : SkRect) (paint : SkPaint)
    (hl : s.device.fRecorder.isDrawingToLayer = true) :
    s.device.skipPendingCommands = { s.device with fCanDiscardCanvasContents := false }
      ∧ s.device.skipPendingCommands.fRecorder = s.device.fRecorder
      ∧ s.device.skipPendingCommands.trace = s.device.trace
      ∧ s.device.skipPendingCommands.fFreshFrame = s.device.fFreshFrame
      ∧ (s.fDeferredDrawing = true →
          s.device.fRecorder.queue.length + 1 ≤ s.device.fMaxRecordingCommands →
          (s.drawRect rect paint).device.fRecorder.queue
              = s.device.fRecorder.queue ++ [Cmd.drawRect rect paint]
            ∧ replays (s.drawRect rect paint).device.trace = replays s.device.trace
            ∧ skippedCount (s.drawRect rect paint).device.trace = skippedCount s.device.trace
            ∧ (s.drawRect rect paint).device.fFreshFrame = s.device.fFreshFrame) := by
  have hskip := skipPendingCommands_inLayer s.device hl
  refine ⟨hskip, by rw [hskip], by rw [hskip], by rw [hskip], ?_⟩
  intro hdef hb
  unfold drawRect
  simp only [hdef, Bool.true_and, guardedDraw_eq, skipPendingCommands, hskip]
  split
  · simp only [hdef, ite_true, record, recordCommand, SkRecordQueue.record,
      recordedDrawCommand]
    rw [recordedDrawCommand_within _ (by simpa using hb)]
    split <;> simp [replays_append, replays, skippedCount]
  · simp only [hdef, ite_true, record, recordCommand, SkRecordQueue.record,
      recordedDrawCommand]
    rw [recordedDrawCommand_within _ (by simpa using hb)]
    split <;> simp [replays_append, replays, skippedCount]

/-- The amended C25 at work: inside the recorded layer of the sample facade (default
budget) the covering rectangle is appended behind the pending saveLayer. -/
theorem skip_blocked_in_layer_witness :
    sampleInLayer.device.fRecorder.isDrawingToLayer = true
      ∧ sampleInLayer.isFullFrame (some wholeSurface) (some plainPaint) = true
      ∧ (sampleInLayer.drawRect wholeSurface plainPaint).device.fRecorder.queue
          = [Cmd.saveLayer none none 0, Cmd.drawRect wholeSurface plainPaint] :=
  ⟨by decide, by decide,
   ((skip_blocked_in_layer sampleInLayer wholeSurface plainPaint (by decide)).2.2.2.2
      (by decide) (by decide)).1⟩

/-- C26: after any sequence of public facade operations on a newly created facade, if
thread-safe playback is (still) off and `isDeferredDrawing()` answers false, then
`hasPendingCommands()` answers false.  A sequence that never enables thread-safe playback
always returns, with thread-safe playback off; the only operation that may fail to return
is `threadSafeFlush` without a playback canvas. -/
theorem immediate_implies_empty_queue (surface : SkSurface) (recordInfoSize : Nat)
    (ops : List FacadeOp) :
    (∀ t, (Create surface recordInfoSize).applyAll ops = some t →
        t.device.fThreadSafePlayback = false → t.isDeferredDrawing = false →
        t.hasPendingCommands = false)
      ∧ (FacadeOp.enableThreadSafePlayback ∉ ops →
          ∃ t, (Create surface recordInfoSize).applyAll ops = some t
            ∧ t.device.fThreadSafePlayback = false
            ∧ (t.isDeferredDrawing = false → t.hasPendingCommands = false)) := by
  have hall : ∀ t, (Create surface recordInfoSize).applyAll ops = some t →
      t.device.fThreadSafePlayback = false → t.isDeferredDrawing = false →
      t.hasPendingCommands = false := by
    intro t hr hts himm
    have h := applyAll_immediate_empty ops (Create surface recordInfoSize) t rfl
      (fun _ _ => rfl) hr
    have hq := h.2 hts himm
    simp [hasPendingCommands, SkLightDeferredDevice.hasPendingCommands,
      SkRecordQueue.hasPendingCommands, hq]
  refine ⟨hall, fun hno => ?_⟩
  obtain ⟨t, ht, -, hd⟩ := applyAll_off ops (Create surface recordInfoSize) rfl
    (fun _ _ => rfl) rfl hno
  exact ⟨t, ht, hd, hall t ht hd⟩

/-- C26 at work: two recorded draws, the switch to immediate mode, then one more draw. -/
theorem immediate_implies_empty_queue_witness :
    (((sampleFacade.applyAll [FacadeOp.call (Cmd.drawPath 7 plainPaint)]).map
        hasPendingCommands = some true)
      ∧ FacadeOp.enableThreadSafePlayback ∉
          [FacadeOp.call (Cmd.drawPath 7 plainPaint), FacadeOp.call (Cmd.clear 0),
           FacadeOp.setDeferredDrawing false,
           FacadeOp.call (Cmd.drawOval quarterSurface plainPaint)])
    ∧ ∃ t, (Create sampleSurface 16).applyAll
          [FacadeOp.call (Cmd.drawPath 7 plainPaint), FacadeOp.call (Cmd.clear 0),
           FacadeOp.setDeferredDrawing false,
           FacadeOp.call (Cmd.drawOval quarterSurface plainPaint)] = some t
        ∧ t.device.fThreadSafePlayback = false
        ∧ (t.isDeferredDrawing = false → t.hasPendingCommands = false) :=
  ⟨by decide, (immediate_implies_empty_queue sampleSurface 16 _).2 (by decide)⟩

/-- C27: `setDeferredDrawing(v)` with `v` the current mode returns the facade unchanged;
from deferred to immediate it runs the device's Normal flush and then sets the mode (with
thread-safe playback off the pending commands reach the primary canvas in order and the
queue is empty); from immediate to deferred it only sets the mode; and calling it twice
with the same `v` is the same as calling it once. -/
theorem setDeferredDrawing_switch (s : SkLightDeferredCanvas) (v : Bool) :
    (v = s.fDeferredDrawing → s.setDeferredDrawing v = s)
      ∧ (s.fDeferredDrawing = true →
          s.setDeferredDrawing false
            = { s with device := s.device.flushPendingCommands
                                   RecordPlaybackMode.kNormalPlayback_Mode,
                       fDeferredDrawing := false })
      ∧ (s.fDeferredDrawing = true → s.device.fThreadSafePlayback = false →
          (s.setDeferredDrawing false).device.fRecorder.queue = []
            ∧ primaryOps (s.setDeferredDrawing false).device.trace
                = primaryOps s.device.trace ++ s.device.fRecorder.queue)
      ∧ (s.fDeferredDrawing = false →
          s.setDeferredDrawing true = { s with fDeferredDrawing := true })
      ∧ (s.setDeferredDrawing v).setDeferredDrawing v = s.setDeferredDrawing v
      ∧ (s.setDeferredDrawing v).isDeferredDrawing = v := by
  refine ⟨?_, ?_, ?_, ?_, ?_, ?_⟩
  · intro h
    simp [setDeferredDrawing, h]
  · intro h
    simp [setDeferredDrawing, h]
  · intro h hts
    have hd : (s.setDeferredDrawing false).device
        = s.device.flushPendingCommands RecordPlaybackMode.kNormalPlayback_Mode := by
      simp [setDeferredDrawing, h]
    rw [hd]
    exact ⟨flushNormal_queue _ hts, primaryOps_flushNormal _ hts⟩
  · intro h
    simp [setDeferredDrawing, h]
  · cases h : s.fDeferredDrawing <;> cases v <;> simp [setDeferredDrawing, h]
  · cases h : s.fDeferredDrawing <;> cases v <;>
      simp [setDeferredDrawing, isDeferredDrawing, h]

/-- C27 at work: leaving deferred mode with two pending draws sends both to the primary
canvas, in order. -/
theorem setDeferredDrawing_switch_witness :
    (sampleFacade.callAll sampleTwoDraws).device.fRecorder.queue = sampleTwoDraws
      ∧ (((sampleFacade.callAll sampleTwoDraws).setDeferredDrawing false).device.fRecorder.queue
            = []
          ∧ primaryOps ((sampleFacade.callAll sampleTwoDraws).setDeferredDrawing false
              ).device.trace
              = primaryOps (sampleFacade.callAll sampleTwoDraws).device.trace
                  ++ (sampleFacade.callAll sampleTwoDraws).device.fRecorder.queue) :=
  ⟨by decide,
   (setDeferredDrawing_switch (sampleFacade.callAll sampleTwoDraws) false).2.2.1 (by decide)
     (by decide)⟩

/-- C28: after any sequence of public operations on a newly created facade the device's
can-discard flag is down and the surface has never been sent the discard notice.  On the
device: a skip always returns with the flag down and sends no `prepareForDraw`, so
about-to-draw is not entered while the skip holds the flag up; and from a settled device
(flag down, no discard notice so far) the skip, either flush, the post-append hook and
the pixel accesses all return a settled device. -/
theorem canDiscard_down_between_operations (surface : SkSurface) (recordInfoSize : Nat)
    (ops : List FacadeOp) (d : SkLightDeferredDevice) (mode : RecordPlaybackMode)
    (infoSize : SkISize) :
    (∀ t, (Create surface recordInfoSize).applyAll ops = some t →
        t.device.fCanDiscardCanvasContents = false ∧ discardNotice ∉ t.device.trace)
      ∧ d.skipPendingCommands.fCanDiscardCanvasContents = false
      ∧ d.skipPendingCommands.trace.count (Event.notify Notification.prepareForDraw)
          = d.trace.count (Event.notify Notification.prepareForDraw)
      ∧ (d.Settled →
          d.skipPendingCommands.Settled
            ∧ (d.flushPendingCommands mode).Settled
            ∧ d.recordedDrawCommand.Settled
            ∧ (d.onWritePixels infoSize).Settled
            ∧ d.onReadPixels.Settled
            ∧ d.onAccessBitmap.Settled
            ∧ d.prepareForImmediatePixelWrite.Settled
            ∧ d.flush.Settled) := by
  have hr := fun t => settled_applyAll ops _ t (settled_create surface recordInfoSize)
  refine ⟨fun t ht => ⟨(hr t ht).1, (hr t ht).2.2⟩, rfl,
    skipPendingCommands_prepareForDraw d, ?_⟩
  intro h
  exact ⟨settled_skipPendingCommands d h.2.1 h.2.2, settled_flushPendingCommands d mode h,
    settled_recordedDrawCommand d h, settled_onWritePixels d infoSize h,
    settled_flushPendingCommands d _ h, settled_flushPendingCommands d _ h,
    settled_prepareForImmediatePixelWrite d h, settled_flush d h⟩

/-- C28 at work: the sample device with a client and one pending draw is settled, and so
is what a full-size pixel write makes of it. -/
theorem canDiscard_down_between_operations_witness :
    (sampleWithClient.device.Settled
      ∧ (Create sampleSurface 16).applyAll
          [FacadeOp.setNotificationClient (some { contended := false }),
           FacadeOp.call (Cmd.drawPoints 0 1 2 plainPaint)] = some sampleWithClient)
    ∧ (sampleWithClient.device.onWritePixels (SkISize.mk 100 100)).Settled
    ∧ (sampleWithClient.device.fCanDiscardCanvasContents = false
        ∧ discardNotice ∉ sampleWithClient.device.trace) :=
  ⟨by decide,
   ((canDiscard_down_between_operations sampleSurface 16 [] sampleWithClient.device
      RecordPlaybackMode.kNormalPlayback_Mode (SkISize.mk 100 100)).2.2.2
        (by decide)).2.2.2.1,
   (canDiscard_down_between_operations sampleSurface 16
      [FacadeOp.setNotificationClient (some { contended := false }),
       FacadeOp.call (Cmd.drawPoints 0 1 2 plainPaint)] sampleWithClient.device
      RecordPlaybackMode.kNormalPlayback_Mode (SkISize.mk 100 100)).1 sampleWithClient
        (by decide)⟩

/-- C29: after any sequence of public operations on a newly created facade the device's
previous-count member is 0.  So on such a device with a client set, the post-append hook
sends `storageAllocatedForRecordingChanged` exactly when the count it read on entry
(before the budget flush, if one runs) is not 0, with that count times the record size,
and leaves the member 0; after a recorded command the count is the queue length plus one,
so the notification always goes out, also with the same count as last time. -/
theorem storage_notification (surface : SkSurface) (recordInfoSize : Nat)
    (ops : List FacadeOp) (d : SkLightDeferredDevice) (c : Cmd) :
    (∀ t, (Create surface recordInfoSize).applyAll ops = some t →
        t.device.fPreviousCommandsAllocated = 0)
      ∧ (d.fPreviousCommandsAllocated = 0 → d.fNotificationClient.isSome = true →
          d.recordedDrawCommand.trace
              = (if d.commandsAllocatedForRecording > d.fMaxRecordingCommands then
                   d.flushPendingCommands RecordPlaybackMode.kNormalPlayback_Mode
                 else d).trace
                ++ (if d.commandsAllocatedForRecording ≠ 0 then
                      [Event.notify (Notification.storageAllocatedForRecordingChanged
                        (d.commandsAllocatedForRecording
                          * d.fRecorder.sizeofSkCanvasRecordInfo))]
                    else [])
            ∧ d.recordedDrawCommand.fPreviousCommandsAllocated = 0
            ∧ (d.recordCommand c).recordedDrawCommand.trace
                = (if d.fRecorder.queue.length + 1 > d.fMaxRecordingCommands then
                     (d.recordCommand c).flushPendingCommands
                       RecordPlaybackMode.kNormalPlayback_Mode
                   else d.recordCommand c).trace
                  ++ [Event.notify (Notification.storageAllocatedForRecordingChanged
                        ((d.fRecorder.queue.length + 1)
                          * d.fRecorder.sizeofSkCanvasRecordInfo))]) := by
  have hr := fun t => settled_applyAll ops _ t (settled_create surface recordInfoSize)
  refine ⟨fun t ht => (hr t ht).2.1, ?_⟩
  intro hp hc
  have h1 := recordedDrawCommand_storage d hp hc
  have h2 := recordedDrawCommand_storage (d.recordCommand c) hp hc
  refine ⟨h1.1, h1.2, ?_⟩
  rw [h2.1]
  simp [commandsAllocatedForRecording, SkRecordQueue.storageAllocatedForRecordingCommands,
    recordCommand, SkRecordQueue.record]

/-- C29 at work: with a client set, the first draw is reported with one record's size,
and the clear that purges it is reported with the same size again. -/
theorem storage_notification_witness :
    (notifications sampleWithClient.device.trace
        = [Notification.storageAllocatedForRecordingChanged 16]
      ∧ sampleWithClient.device.skipPendingCommands.fRecorder.queue.length = 0
      ∧ (Create sampleSurface 16).applyAll
          [FacadeOp.setNotificationClient (some { contended := false }),
           FacadeOp.call (Cmd.drawPoints 0 1 2 plainPaint)] = some sampleWithClient)
    ∧ sampleWithClient.device.fPreviousCommandsAllocated = 0
    ∧ (sampleWithClient.device.skipPendingCommands.recordCommand
          (Cmd.clear 0)).recordedDrawCommand.trace
        = (if sampleWithClient.device.skipPendingCommands.fRecorder.queue.length + 1
                > sampleWithClient.device.skipPendingCommands.fMaxRecordingCommands then
             (sampleWithClient.device.skipPendingCommands.recordCommand
                (Cmd.clear 0)).flushPendingCommands RecordPlaybackMode.kNormalPlayback_Mode
           else sampleWithClient.device.skipPendingCommands.recordCommand (Cmd.clear 0)).trace
          ++ [Event.notify (Notification.storageAllocatedForRecordingChanged
                ((sampleWithClient.device.skipPendingCommands.fRecorder.queue.length + 1)
                  * sampleWithClient.device.skipPendingCommands.fRecorder.sizeofSkCanvasRecordInfo
                  ))] :=
  ⟨by decide,
   (storage_notification sampleSurface 16
      [FacadeOp.setNotificationClient (some { contended := false }),
       FacadeOp.call (Cmd.drawPoints 0 1 2 plainPaint)]
      sampleWithClient.device.skipPendingCommands (Cmd.clear 0)).1 sampleWithClient
        (by decide),
   ((storage_notification sampleSurface 16 [] sampleWithClient.device.skipPendingCommands
      (Cmd.clear 0)).2 (by decide) (by decide)).2.2⟩

end SkLightDeferredCanvas

/-! ## Snapshots of the layer rasterizer builder -/

namespace SkLayerRasterizer.Builder

/-- The copy loop appends the iterated records, in order, to the newest deque and leaves
the others alone. -/
theorem copyLayers_newest (orig acc : SkDeque) (ds : List SkDeque) :
    copyLayers ds.length orig { deques := ds ++ [acc] } = { deques := ds ++ [acc ++ orig] } := by
  induction orig generalizing acc with
  | nil => simp [copyLayers]
  | cons r rest ih =>
    simp only [copyLayers, DequeHeap.push_back]
    have h1 : (ds ++ [acc])[ds.length]? = some acc := by simp
    rw [h1]
    simp only []
    have h2 : (ds ++ [acc]).set ds.length (acc ++ [r]) = ds ++ [acc ++ [r]] := by simp
    rw [h2, ih]
    simp

/-- A snapshot of a non-empty deque, spelled out. -/
theorem snapshotRasterizer_eq (b : SkLayerRasterizer.Builder) (h : DequeHeap) (p : Nat)
    (orig : SkDeque)
    (hb : b.fLayers = some p) (hp : h.read p = some orig) (hne : orig ≠ []) :
    b.snapshotRasterizer h
      = some (some { fLayers := h.deques.length }, { deques := h.deques ++ [orig] }) := by
  have hl : orig.length ≠ 0 := by simpa using hne
  unfold snapshotRasterizer
  simp only [hb, hp, hl, ite_false, DequeHeap.alloc]
  have := copyLayers_newest orig [] h.deques
  simp only [List.nil_append] at this
  rw [this]

/-- C22: for a builder whose pointer is valid, `snapshotRasterizer()` returns `NULL` and
changes nothing when no layer was added.  Otherwise it returns a rasterizer over a new
deque that holds the builder's records (same count, order, paints and offsets), and it
changes no deque that existed, the builder's included.  So a second snapshot holds the
same records and leaves the first alone, and an `addLayer` after the snapshot extends the
builder's deque while the snapshot keeps the records it had. -/
theorem snapshotRasterizer_copies (b : SkLayerRasterizer.Builder) (h : DequeHeap) (p : Nat)
    (orig : SkDeque) (paint : SkPaint) (dx dy : Int)
    (hb : b.fLayers = some p) (hp : h.read p = some orig) :
    (orig = [] → b.snapshotRasterizer h = some (none, h))
      ∧ (orig ≠ [] →
          ∃ r h1, b.snapshotRasterizer h = some (some r, h1)
            ∧ h1.read r.fLayers = some orig
            ∧ h1.read p = some orig
            ∧ r.fLayers ≠ p
            ∧ (∀ q d, h.read q = some d → h1.read q = some d)
            ∧ (∃ r2 h2, b.snapshotRasterizer h1 = some (some r2, h2)
                ∧ h2.read r2.fLayers = some orig
                ∧ h2.read r.fLayers = some orig
                ∧ h2.read p = some orig)
            ∧ (∃ h3, b.addLayer h1 paint dx dy = some h3
                ∧ h3.read p = some (orig ++ [{ fPaint := paint, fOffset := (dx, dy) }])
                ∧ h3.read r.fLayers = some orig)) := by
  have hlt : p < h.deques.length := by
    simp only [DequeHeap.read] at hp
    exact (List.getElem?_eq_some_iff.mp hp).1
  constructor
  · intro he
    simp [snapshotRasterizer, hb, hp, he]
  · intro hne
    have hkeep : ∀ (x : SkDeque) q d, h.read q = some d →
        (DequeHeap.mk (h.deques ++ [x])).read q = some d := by
      intro x q d hq
      simp only [DequeHeap.read] at hq ⊢
      have hq1 := (List.getElem?_eq_some_iff.mp hq).1
      rw [List.getElem?_append_left hq1]
      exact hq
    have hnew : ∀ (ds : List SkDeque) (x : SkDeque),
        (DequeHeap.mk (ds ++ [x])).read ds.length = some x := by
      intro ds x
      simp [DequeHeap.read]
    have hp1 := hkeep orig p orig hp
    refine ⟨{ fLayers := h.deques.length }, { deques := h.deques ++ [orig] },
      snapshotRasterizer_eq b h p orig hb hp hne, hnew _ _, hp1, ?_, hkeep orig, ?_, ?_⟩
    · exact fun e => absurd e (Nat.ne_of_gt hlt)
    · refine ⟨{ fLayers := (h.deques ++ [orig]).length },
        { deques := (h.deques ++ [orig]) ++ [orig] },
        snapshotRasterizer_eq b _ p orig hb hp1 hne, hnew _ _, ?_, ?_⟩
      · simp only [DequeHeap.read]
        rw [List.getElem?_append_left (by simp)]
        simp
      · simp only [DequeHeap.read] at hp1 ⊢
        rw [List.getElem?_append_left (by simp; omega)]
        exact hp1
    · have hp2 : (h.deques ++ [orig])[p]? = some orig := by
        simpa [DequeHeap.read] using hp1
      refine ⟨_, by simp only [addLayer, hb, hp1]; rfl, ?_, ?_⟩
      · simp only [DequeHeap.push_back, hp2, DequeHeap.read]
        rw [List.getElem?_set_self (by simp; omega)]
      · simp only [DequeHeap.push_back, hp2, DequeHeap.read]
        rw [List.getElem?_set_ne (Nat.ne_of_lt hlt)]
        simp

/-- C22 at work: the sample builder with two layers; the snapshot is a second deque with
the same two records. -/
theorem snapshotRasterizer_copies_witness :
    (sampleBuilder.fLayers = some 0 ∧ sampleDequeHeap.read 0 = some sampleLayers
      ∧ sampleBuilder.snapshotRasterizer sampleDequeHeap
          = some (some { fLayers := 1 }, { deques := [sampleLayers, sampleLayers] }))
    ∧ ∃ r h1, sampleBuilder.snapshotRasterizer sampleDequeHeap = some (some r, h1)
        ∧ h1.read r.fLayers = some sampleLayers
        ∧ h1.read 0 = some sampleLayers
        ∧ r.fLayers ≠ 0
        ∧ (∀ q d, sampleDequeHeap.read q = some d → h1.read q = some d)
        ∧ (∃ r2 h2, sampleBuilder.snapshotRasterizer h1 = some (some r2, h2)
            ∧ h2.read r2.fLayers = some sampleLayers
            ∧ h2.read r.fLayers = some sampleLayers
            ∧ h2.read 0 = some sampleLayers)
        ∧ (∃ h3, sampleBuilder.addLayer h1 plainPaint 5 6 = some h3
            ∧ h3.read 0 = some (sampleLayers ++ [{ fPaint := plainPaint, fOffset := (5, 6) }])
            ∧ h3.read r.fLayers = some sampleLayers) :=
  ⟨by decide,
   (snapshotRasterizer_copies sampleBuilder sampleDequeHeap 0 sampleLayers plainPaint 5 6
      (by decide) (by decide)).2 (by decide)⟩

end SkLayerRasterizer.Builder

/-! ## Facts about line breaking -/

theorem wrap32_id (x : Int) (h1 : -2147483648 ≤ x) (h2 : x < 2147483648) : wrap32 x = x := by
  unfold wrap32
  omega

theorem byteLen_nil : byteLen [] = 0 := rfl

theorem byteLen_cons (c : Utf8Char) (text : List Utf8Char) :
    byteLen (c :: text) = SkUTF8_CountUTF8Bytes c + byteLen text := by
  simp [byteLen]

theorem byteLen_append (a b : List Utf8Char) : byteLen (a ++ b) = byteLen a + byteLen b := by
  simp [byteLen]

/-- Every character has at least one byte. -/
theorem length_le_byteLen (text : List Utf8Char) : text.length ≤ byteLen text := by
  induction text with
  | nil => simp [byteLen]
  | cons c rest ih =>
    rw [byteLen_cons]
    simp only [List.length_cons, SkUTF8_CountUTF8Bytes]
    omega

/-- A prefix has no more bytes than the text. -/
theorem byteLen_take_le (k : Nat) (text : List Utf8Char) :
    byteLen (text.take k) ≤ byteLen text := by
  conv_rhs => rw [← List.take_append_drop k text]
  rw [byteLen_append]
  omega

/-- Eating whitespace stops on a character boundary at or after where it began. -/
theorem eatWS_boundary (rem pre : List Utf8Char) :
    ∃ k, k ≤ (pre ++ rem).length ∧ pre.length ≤ k
      ∧ eatWS rem (byteLen pre) = byteLen ((pre ++ rem).take k) := by
  induction rem generalizing pre with
  | nil => exact ⟨pre.length, by simp, le_refl _, by simp [eatWS]⟩
  | cons c rest ih =>
    simp only [eatWS]
    split
    · obtain ⟨k, hk, hk2, he⟩ := ih (pre ++ [c])
      refine ⟨k, by simpa using hk, ?_, ?_⟩
      · simp only [List.length_append, List.length_singleton] at hk2
        omega
      · rw [byteLen_append, byteLen_cons, byteLen_nil, Nat.add_zero] at he
        rw [he]
        simp
    · exact ⟨pre.length, by simp, le_refl _, by simp⟩

/-- The loop of `linebreak` returns a character boundary of the text, and not the start
once a character has been or can be consumed. -/
theorem linebreakLoop_boundary (advance : Int → Int) (limit : Int) (rem pre : List Utf8Char)
    (w : Int) (word_start : Nat) (prevWS : Bool)
    (hws : ∃ j, j ≤ pre.length ∧ word_start = byteLen (pre.take j)) :
    ∃ k, k ≤ (pre ++ rem).length
      ∧ ((rem ≠ [] ∨ pre ≠ []) → 1 ≤ k)
      ∧ linebreakLoop advance limit rem (byteLen pre) w word_start prevWS
          = byteLen ((pre ++ rem).take k) := by
  induction rem generalizing pre w word_start prevWS with
  | nil =>
    refine ⟨pre.length, by simp, ?_, by simp [linebreakLoop]⟩
    intro h
    rcases h with h | h
    · exact absurd rfl h
    · exact Nat.succ_le_of_lt (List.length_pos.mpr h)
  | cons c rest ih =>
    have hpre : byteLen (pre ++ [c]) = byteLen pre + SkUTF8_CountUTF8Bytes c := by
      rw [byteLen_append, byteLen_cons, byteLen_nil, Nat.add_zero]
    have hfull : pre ++ c :: rest = (pre ++ [c]) ++ rest := by simp
    have hws2 : ∃ j, j ≤ (pre ++ [c]).length
        ∧ (if (!is_ws (SkUTF8_ToUnichar c) && prevWS) = true then byteLen pre else word_start)
            = byteLen ((pre ++ [c]).take j) := by
      split
      · exact ⟨pre.length, by simp, by simp⟩
      · obtain ⟨j, hj, he⟩ := hws
        refine ⟨j, by simp; omega, ?_⟩
        rw [List.take_append_of_le_length hj]
        exact he
    simp only [linebreakLoop]
    generalize (if (!is_ws (SkUTF8_ToUnichar c) && prevWS) = true then byteLen pre
      else word_start) = ws2 at hws2 ⊢
    obtain ⟨j, hj, he⟩ := hws2
    split
    · split
      · rw [← hpre, hfull]
        obtain ⟨k, hk, hk2, hk3⟩ := eatWS_boundary rest (pre ++ [c])
        refine ⟨k, hk, fun _ => ?_, hk3⟩
        simp only [List.length_append, List.length_singleton] at hk2
        omega
      · split
        · split
          · rename_i hpos
            refine ⟨pre.length, by simp, fun _ => ?_, by simp⟩
            have : pre ≠ [] := by
              intro h
              simp [h, byteLen] at hpos
            exact Nat.succ_le_of_lt (List.length_pos.mpr this)
          · rw [← hpre, hfull]
            exact ⟨(pre ++ [c]).length, by simp, fun _ => by simp,
              by rw [List.take_append_of_le_length (le_refl _), List.take_length]⟩
        · rename_i hne
          rw [he] at hne ⊢
          rw [hfull]
          refine ⟨j, by simp at hj ⊢; omega, fun _ => ?_, ?_⟩
          · rcases Nat.eq_zero_or_pos j with h0 | h0
            · simp [h0, byteLen] at hne
            · exact h0
          · rw [List.take_append_of_le_length hj]
    · rw [← hpre, hfull]
      obtain ⟨k, hk, hk2, hk3⟩ := ih (pre ++ [c]) _ ws2 _ ⟨j, hj, he⟩
      exact ⟨k, hk, fun _ => hk2 (Or.inr (by simp)), hk3⟩

/-- On a non-empty text `linebreak` returns the byte length of a non-empty prefix. -/
theorem linebreak_boundary (advance : Int → Int) (text : List Utf8Char) (margin : Int)
    (h : text ≠ []) :
    ∃ k, 1 ≤ k ∧ k ≤ text.length
      ∧ linebreak advance text margin = byteLen (text.take k) := by
  obtain ⟨k, hk, hk2, he⟩ := linebreakLoop_boundary advance (SkScalarToFixed margin) text []
    0 0 true ⟨0, by simp, by simp [byteLen]⟩
  refine ⟨k, hk2 (Or.inl h), by simpa using hk, ?_⟩
  simpa [linebreak, byteLen] using he

theorem dropBytes_cons (n : Nat) (c : Utf8Char) (rest : List Utf8Char) (h : 0 < n) :
    dropBytes n (c :: rest)
      = if SkUTF8_CountUTF8Bytes c ≤ n then dropBytes (n - SkUTF8_CountUTF8Bytes c) rest
        else none := by
  cases n with
  | zero => exact absurd h (Nat.lt_irrefl 0)
  | succ m => simp [dropBytes]

/-- Stepping the pointer by the bytes of a prefix leaves the rest of the text. -/
theorem dropBytes_take (text : List Utf8Char) (k : Nat) (hk : k ≤ text.length) :
    dropBytes (byteLen (text.take k)) text = some (text.drop k) := by
  induction text generalizing k with
  | nil => simp [byteLen, dropBytes]
  | cons c rest ih =>
    cases k with
    | zero => simp [byteLen, dropBytes]
    | succ m =>
      simp only [List.take_succ_cons, List.drop_succ_cons, byteLen_cons]
      rw [dropBytes_cons _ _ _ (by simp [SkUTF8_CountUTF8Bytes])]
      simp only [Nat.le_add_right, ite_true, Nat.add_sub_cancel_left]
      exact ih m (by simpa using hk)

/-- With more rounds allowed than the text has characters, the loop of `CountLines`
returns, having counted at least one line and at most one per character. -/
theorem countLinesLoop_returns (advance : Int → Int) (width : Int) (fuel : Nat)
    (text : List Utf8Char) (count : Int) (hf : text.length < fuel) (h0 : 0 ≤ count)
    (hr : count + ((max 1 text.length : Nat) : Int) < 2147483648) :
    ∃ n, countLinesLoop advance width fuel text count = some n
      ∧ count + 1 ≤ n ∧ n ≤ count + ((max 1 text.length : Nat) : Int) := by
  induction fuel generalizing text count with
  | zero => exact absurd hf (Nat.not_lt_zero _)
  | succ fuel ih =>
    have hw : wrap32 (count + 1) = count + 1 := wrap32_id _ (by omega) (by omega)
    simp only [countLinesLoop, hw]
    by_cases he : text = []
    · subst he
      refine ⟨count + 1, by simp [linebreak, linebreakLoop, dropBytes], le_refl _, by simp⟩
    · obtain ⟨k, hk1, hk2, hk⟩ := linebreak_boundary advance text width he
      rw [hk, dropBytes_take text k hk2]
      simp only []
      by_cases hd : text.drop k = []
      · simp only [hd, ne_eq, not_true_eq_false, ite_false]
        exact ⟨count + 1, rfl, le_refl _, by omega⟩
      · simp only [hd, ne_eq, not_false_eq_true, ite_true]
        have hl : (text.drop k).length = text.length - k := List.length_drop k text
        have hpos : 0 < (text.drop k).length := List.length_pos.mpr hd
        obtain ⟨n, hn, hn1, hn2⟩ := ih (text.drop k) (count + 1) (by omega) (by omega)
          (by omega)
        exact ⟨n, hn, by omega, by omega⟩

/-- C30: on a non-empty well-formed text, for every advance function and margin,
`linebreak` returns the byte length of a non-empty prefix of whole characters, so a length
between 1 and `stop - text`.  `CountLines` returns 0 when the width is not positive;
otherwise, for a text of fewer than 2^31 bytes, its loop ends within one round per
character (at least one round) and the count lies between 1 and `max(1, len)`. -/
theorem linebreak_makes_progress (advance : Int → Int) (text : List Utf8Char)
    (margin width : Int) (fuel : Nat) :
    (text ≠ [] →
        (∃ k, 1 ≤ k ∧ k ≤ text.length
            ∧ linebreak advance text margin = byteLen (text.take k))
          ∧ 1 ≤ linebreak advance text margin
          ∧ linebreak advance text margin ≤ byteLen text)
      ∧ (width ≤ 0 → CountLines advance text width fuel = some 0)
      ∧ (0 < width → byteLen text < 2147483648 → text.length < fuel →
          ∃ n, CountLines advance text width fuel = some n
            ∧ 1 ≤ n ∧ n ≤ ((max 1 (byteLen text) : Nat) : Int)) := by
  refine ⟨?_, ?_, ?_⟩
  · intro h
    obtain ⟨k, hk1, hk2, hk⟩ := linebreak_boundary advance text margin h
    refine ⟨⟨k, hk1, hk2, hk⟩, ?_, ?_⟩
    · rw [hk]
      have h1 := length_le_byteLen (text.take k)
      have h2 : (text.take k).length = k := by
        rw [List.length_take]
        omega
      omega
    · rw [hk]
      exact byteLen_take_le k text
  · intro hw
    simp [CountLines, Int.not_lt.mpr hw]
  · intro hw hb hf
    have hl := length_le_byteLen text
    obtain ⟨n, hn, hn1, hn2⟩ := countLinesLoop_returns advance width fuel text 0 hf
      (le_refl _) (by omega)
    refine ⟨n, by simp [CountLines, hw, hn], by omega, ?_⟩
    have : ((max 1 text.length : Nat) : Int) ≤ ((max 1 (byteLen text) : Nat) : Int) := by
      have : max 1 text.length ≤ max 1 (byteLen text) := by omega
      exact_mod_cast this
    omega

/-- C30 at work: "ab cd" and a two-byte character, every glyph 10 wide: with a margin of
25 the first line takes 3 bytes and the text makes 3 lines. -/
theorem linebreak_makes_progress_witness :
    (linebreak sampleAdvance sampleText 25 = 3
      ∧ byteLen sampleText = 7
      ∧ CountLines sampleAdvance sampleText 25 7 = some 3)
    ∧ ((∃ k, 1 ≤ k ∧ k ≤ sampleText.length
          ∧ linebreak sampleAdvance sampleText 25 = byteLen (sampleText.take k))
        ∧ 1 ≤ linebreak sampleAdvance sampleText 25
        ∧ linebreak sampleAdvance sampleText 25 ≤ byteLen sampleText)
    ∧ ∃ n, CountLines sampleAdvance sampleText 25 7 = some n
        ∧ 1 ≤ n ∧ n ≤ ((max 1 (byteLen sampleText) : Nat) : Int) :=
  ⟨by decide,
   (linebreak_makes_progress sampleAdvance sampleText 25 25 7).1 (by decide),
   (linebreak_makes_progress sampleAdvance sampleText 25 25 7).2.2 (by decide) (by decide)
     (by decide)⟩

end Skia
